import Mathlib

/-!
# SkillSwap client: a shallow embedding of the request / chat views

The React client keeps each view's state in `useState` cells and changes it in
event handlers that await one HTTP exchange at a time.  Here a view's state is a
structure, a handler is a function from the state before the event (plus the
replies of the HTTP exchanges it awaits) to the state after it and the list of
HTTP calls it issued, and a component's JSX is the list of controls it renders.
-/

namespace SkillSwap

/-! ## JavaScript values used by the views -/

/-- Identifier values as the server sends them: a JavaScript number or string.
Strict equality `===` on two such values is structural equality. -/
inductive JsId where
  | num (n : Int)
  | str (s : String)
  deriving DecidableEq, Repr

/-- Truthiness of an identifier (`!id` is its negation): `0` and `''` are falsy. -/
def JsId.truthy : JsId → Bool
  | .num n => n != 0
  | .str s => s != ""

/-- Text an identifier contributes to a template literal. -/
def JsId.toString : JsId → String
  | .num n => ToString.toString n
  | .str s => s

/-- ECMAScript WhiteSpace and LineTerminator code points: the characters
`String.prototype.trim` removes from both ends. -/
def isJsWhiteSpace (c : Char) : Bool :=
  let n := c.toNat
  n == 0x09 || n == 0x0A || n == 0x0B || n == 0x0C || n == 0x0D || n == 0x20 ||
  n == 0xA0 || n == 0x1680 || (0x2000 ≤ n && n ≤ 0x200A) || n == 0x2028 ||
  n == 0x2029 || n == 0x202F || n == 0x205F || n == 0x3000 || n == 0xFEFF

/-- Trimming on the character list: drop leading, then trailing white space. -/
def jsTrimChars (cs : List Char) : List Char :=
  ((cs.dropWhile isJsWhiteSpace).reverse.dropWhile isJsWhiteSpace).reverse

/-- JavaScript `String.prototype.trim`. -/
def jsTrim (s : String) : String := ⟨jsTrimChars s.data⟩

/-- The rejection value of an axios call, as far as the services read it:
`error.response?.data?.error` (absent when there is no response or no such
field) and `error.message`. -/
structure AxiosError where
  responseError : Option String
  message : String
  deriving DecidableEq, Repr

deriving instance DecidableEq for Except

/-- A JavaScript `Error` object, of which only `message` is read. -/
structure JsError where
  message : String
  deriving DecidableEq, Repr

/-- The expression `v || fallback` for an optional string `v`: the fallback is
taken when `v` is undefined or the empty string. -/
def orFallback (v : Option String) (fallback : String) : String :=
  match v with
  | some s => if s = "" then fallback else s
  | none => fallback

/-- The expression `new Error(error.response?.data?.error || fallback)` of the services. -/
def serviceError (error : AxiosError) (fallback : String) : JsError :=
  ⟨orFallback error.responseError fallback⟩

/-- A value placed in a JSON request body. -/
inductive Field where
  | str (s : String)
  | bool (b : Bool)
  | strs (list : List String)
  deriving DecidableEq, Repr

/-- One HTTP request issued through an axios instance: method, path relative to
the API base URL, and the fields of the JSON body (empty when none is sent). -/
structure HttpCall where
  method : String
  url : String
  body : List (String × Field)
  deriving DecidableEq, Repr

/-! ## Data model -/

/-- A user record as the views read it. -/
structure User where
  id : JsId
  name : String
  email : String
  role : String
  is_banned : Bool
  created_at : String
  deriving DecidableEq, Repr

/-- A swap request record as the views read it. -/
structure SwapRequest where
  id : JsId
  from_user_id : JsId
  to_user_id : JsId
  from_user : Option User
  to_user : Option User
  skill_offered : String
  skill_wanted : String
  message : Option String
  status : String
  created_at : String
  deriving DecidableEq, Repr

/-- A chat message record as the Chat view reads it. -/
structure ChatMessage where
  id : JsId
  sender_id : JsId
  text : String
  created_at : String
  deriving DecidableEq, Repr

/-- The `chat_room` object of a chat-room response; `id` may be missing. -/
structure ChatRoom where
  id : Option JsId
  deriving DecidableEq, Repr

/-- The response body of `GET /chat/room/:requestId`. -/
structure ChatData where
  chat_room : Option ChatRoom
  swap_request : Option SwapRequest
  messages : Option (List ChatMessage)
  deriving DecidableEq, Repr

/-- The response body of `POST /chat/:roomId`. -/
structure SendMessageData where
  chat_message : ChatMessage
  deriving DecidableEq, Repr

/-! ## chatService (services/chatService.js) -/

/-- The service `chatService.sendMessage(roomId, text)`: one POST to `/chat/<roomId>` with body
`text`; the reply's `chat_message` is returned, a rejection is rethrown as an
`Error` with the server's message or the fixed fallback. -/
def chatService.sendMessage (roomId : JsId) (text : String)
    (reply : Except AxiosError SendMessageData) : HttpCall × Except JsError ChatMessage :=
  (⟨"POST", "/chat/" ++ roomId.toString, [("text", .str text)]⟩,
    match reply with
    | .ok response => .ok response.chat_message
    | .error error => .error (serviceError error "Failed to send message"))

/-! ## Chat view (pages/Chat.js) -/

/-- The `useState` cells of the Chat component. -/
structure ChatState where
  chatData : Option ChatData
  messages : List ChatMessage
  newMessage : String
  loading : Bool
  sending : Bool
  error : Option String
  deriving DecidableEq, Repr

/-- The expression `chatData?.chat_room?.id`. -/
def ChatState.roomId (s : ChatState) : Option JsId :=
  (s.chatData.bind (·.chat_room)).bind (·.id)

/-- The submit handler `sendMessage` of the Chat form.  `reply` is the outcome of the POST the
handler awaits, consulted only when the guard lets the call through.  The result
is the state once the handler has finished (so `sending`, raised before the
await, is lowered again by the `finally` block) and the HTTP calls it issued. -/
def Chat.sendMessage (s : ChatState) (reply : Except AxiosError SendMessageData) :
    ChatState × List HttpCall :=
  match s.roomId with
  | none => (s, [])
  | some roomId =>
    if jsTrim s.newMessage = "" ∨ roomId.truthy = false then (s, [])
    else
      let r := chatService.sendMessage roomId (jsTrim s.newMessage) reply
      match r.2 with
      | .ok message =>
        ({ s with messages := s.messages ++ [message], newMessage := "", sending := false }, [r.1])
      | .error error =>
        ({ s with error := some ("Failed to send message: " ++ error.message), sending := false },
          [r.1])

/-- The `onChange` handler of the message input: `setNewMessage(e.target.value)`. -/
def Chat.onChange (s : ChatState) (value : String) : ChatState :=
  { s with newMessage := value }

/-- A run of the Chat form: for each entry the user types `value` and submits,
and the POST (if issued) gets `reply`. -/
def Chat.sendAll (s : ChatState) : List (String × Except AxiosError SendMessageData) → ChatState
  | [] => s
  | (value, reply) :: rest => Chat.sendAll (Chat.sendMessage (Chat.onChange s value) reply).1 rest

/-! ## requestService (services/requestService.js) -/

/-- The response body of `GET /requests`. -/
structure RequestsData where
  requests : List SwapRequest
  deriving DecidableEq, Repr

/-- The service `requestService.getRequests()`: one GET to `/requests`, returning the reply's
`requests`. -/
def requestService.getRequests (reply : Except AxiosError RequestsData) :
    HttpCall × Except JsError (List SwapRequest) :=
  (⟨"GET", "/requests", []⟩,
    match reply with
    | .ok response => .ok response.requests
    | .error error => .error (serviceError error "Failed to fetch requests"))

/-- The service `requestService.updateRequest(requestId, status)`: one PUT to
`/requests/<requestId>` with body `status`.  No caller reads the returned body. -/
def requestService.updateRequest (requestId : JsId) (status : String)
    (reply : Except AxiosError Unit) : HttpCall × Except JsError Unit :=
  (⟨"PUT", "/requests/" ++ requestId.toString, [("status", .str status)]⟩,
    match reply with
    | .ok response => .ok response
    | .error error => .error (serviceError error "Failed to update request"))

/-- The service `requestService.deleteRequest(requestId)`: one DELETE to `/requests/<requestId>`.
No caller reads the returned body. -/
def requestService.deleteRequest (requestId : JsId)
    (reply : Except AxiosError Unit) : HttpCall × Except JsError Unit :=
  (⟨"DELETE", "/requests/" ++ requestId.toString, []⟩,
    match reply with
    | .ok response => .ok response
    | .error error => .error (serviceError error "Failed to delete request"))

/-! ## Rendered controls -/

/-- An interactive element of a rendered row, with handler type `H`: a button
with its `onClick`, a router `Link` with its target, or inert text. -/
inductive Control (H : Type) where
  | button (label : String) (onClick : H)
  | link (target : String) (label : String)
  | text (content : String)
  deriving DecidableEq, Repr

/-- A table row: the record it is rendered from and the content of its Actions cell. -/
structure Row (α H : Type) where
  item : α
  actions : List (Control H)

/-- The `onClick` handlers of the buttons among a list of controls. -/
def handlersOf {H : Type} : List (Control H) → List H
  | [] => []
  | .button _ h :: rest => h :: handlersOf rest
  | _ :: rest => handlersOf rest

/-- JavaScript `String.prototype.includes` on character lists. -/
def jsIncludesChars (cs sub : List Char) : Bool :=
  cs.tails.any (fun t => sub.isPrefixOf t)

/-- JavaScript `String.prototype.includes`. -/
def jsIncludes (s sub : String) : Bool := jsIncludesChars s.data sub.data

/-- The alert banner: its class and its text. -/
structure Alert where
  className : String
  text : String
  deriving DecidableEq, Repr

/-! ## Requests view (pages/Requests.js) -/

/-- The `useState` cells of the Requests component. -/
structure RequestsState where
  requests : List SwapRequest
  loading : Bool
  message : String
  deriving DecidableEq, Repr

/-- The expression `user?.id` for the identity held by the auth context. -/
def currentUserId (user : Option User) : Option JsId := user.map (·.id)

/-- The list `sentRequests`: `requests.filter(req => req.from_user_id === user?.id)`. -/
def Requests.sentRequests (user : Option User) (requests : List SwapRequest) : List SwapRequest :=
  requests.filter (fun req => decide (some req.from_user_id = currentUserId user))

/-- The list `receivedRequests`: `requests.filter(req => req.to_user_id === user?.id)`. -/
def Requests.receivedRequests (user : Option User) (requests : List SwapRequest) :
    List SwapRequest :=
  requests.filter (fun req => decide (some req.to_user_id = currentUserId user))

/-- The callback `fetchRequests`, run to completion with the reply of its GET. -/
def Requests.fetchRequests (s : RequestsState) (reply : Except AxiosError RequestsData) :
    RequestsState × List HttpCall :=
  let r := requestService.getRequests reply
  match r.2 with
  | .ok data => ({ s with requests := data, loading := false }, [r.1])
  | .error error =>
    ({ s with message := "Failed to load requests: " ++ error.message, loading := false }, [r.1])

/-- The handler `handleStatusUpdate(requestId, status)`, with the reply of its PUT and of the
refresh it starts on success.  The result is the state once the refresh has
settled, before the three-second timer clears the message. -/
def Requests.handleStatusUpdate (s : RequestsState) (requestId : JsId) (status : String)
    (reply : Except AxiosError Unit) (refresh : Except AxiosError RequestsData) :
    RequestsState × List HttpCall :=
  let r := requestService.updateRequest requestId status reply
  match r.2 with
  | .ok _ =>
    let f := Requests.fetchRequests { s with message := "Request " ++ status ++ " successfully!" }
      refresh
    (f.1, r.1 :: f.2)
  | .error error => ({ s with message := "Failed to update request: " ++ error.message }, [r.1])

/-- The handler `handleDeleteRequest(requestId)`; `confirm` is what `window.confirm` returned. -/
def Requests.handleDeleteRequest (s : RequestsState) (confirm : Bool) (requestId : JsId)
    (reply : Except AxiosError Unit) (refresh : Except AxiosError RequestsData) :
    RequestsState × List HttpCall :=
  if confirm then
    let r := requestService.deleteRequest requestId reply
    match r.2 with
    | .ok _ =>
      let f := Requests.fetchRequests { s with message := "Request deleted successfully!" } refresh
      (f.1, r.1 :: f.2)
    | .error error => ({ s with message := "Failed to delete request: " ++ error.message }, [r.1])
  else (s, [])

/-- The timer callback `() => setMessage('')`. -/
def Requests.clearMessage (s : RequestsState) : RequestsState := { s with message := "" }

/-- The `onClick` closures the Requests tables create. -/
inductive RequestsOnClick where
  | handleStatusUpdate (requestId : JsId) (status : String)
  | handleDeleteRequest (requestId : JsId)
  deriving DecidableEq, Repr

/-- The Actions cell of a row of the Received table. -/
def Requests.receivedActions (request : SwapRequest) : List (Control RequestsOnClick) :=
  if request.status = "pending" then
    [.button "Accept" (.handleStatusUpdate request.id "accepted"),
     .button "Reject" (.handleStatusUpdate request.id "rejected")]
  else if request.status = "accepted" then
    [.link ("/chat/" ++ request.id.toString) "Chat"]
  else [.text "No actions"]

/-- The Actions cell of a row of the Sent table. -/
def Requests.sentActions (request : SwapRequest) : List (Control RequestsOnClick) :=
  if request.status = "pending" then
    [.button "Delete" (.handleDeleteRequest request.id)]
  else if request.status = "accepted" then
    [.link ("/chat/" ++ request.id.toString) "Chat"]
  else [.text "No actions"]

/-- What the Requests component returns: the loading placeholder, or the page
with its optional alert and the rows of the Received and Sent tables (an empty
row list stands for the table's empty-state placeholder). -/
inductive RequestsView where
  | loading
  | page (alert : Option Alert) (received sent : List (Row SwapRequest RequestsOnClick))

/-- The banner rendered for `message`, shared by the Requests and admin views
up to the class names: nothing for the empty string, else success or error
styling according to `message.includes('successfully')`. -/
def alertFor (message successClass errorClass : String) : Option Alert :=
  if message = "" then none
  else some ⟨if jsIncludes message "successfully" then successClass else errorClass, message⟩

/-- The Requests component's render. -/
def Requests (user : Option User) (s : RequestsState) : RequestsView :=
  if s.loading then .loading
  else
    .page (alertFor s.message "alert alert-success" "alert alert-error")
      ((Requests.receivedRequests user s.requests).map
        (fun request => ⟨request, Requests.receivedActions request⟩))
      ((Requests.sentRequests user s.requests).map
        (fun request => ⟨request, Requests.sentActions request⟩))

/-- The rows of the Received table of a rendered view. -/
def RequestsView.received : RequestsView → List (Row SwapRequest RequestsOnClick)
  | .loading => []
  | .page _ received _ => received

/-- The rows of the Sent table of a rendered view. -/
def RequestsView.sent : RequestsView → List (Row SwapRequest RequestsOnClick)
  | .loading => []
  | .page _ _ sent => sent

/-- Every row of a rendered view, Received table first. -/
def RequestsView.rows (v : RequestsView) : List (Row SwapRequest RequestsOnClick) :=
  v.received ++ v.sent

/-! ## Admin dashboard (pages/AdminDashboard.js) -/

/-- The response body of `GET /admin/stats`. -/
structure AdminStats where
  usersTotal : Nat
  usersActive : Nat
  usersBanned : Nat
  requestsTotal : Nat
  requestsPending : Nat
  success_rate : Nat
  deriving DecidableEq, Repr

/-- The `useState` cells of the AdminDashboard component. -/
structure AdminState where
  stats : Option AdminStats
  users : List User
  requests : List SwapRequest
  loading : Bool
  message : String
  showWelcome : Bool
  deriving DecidableEq, Repr

/-- The expression `error.response?.data?.error || error.message` of the dashboard's catch blocks. -/
def adminErrorText (error : AxiosError) : String :=
  orFallback error.responseError error.message

/-- The call `api.put('/admin/users/<userId>/ban', is_banned)`. -/
def banCall (userId : JsId) (isBanned : Bool) : HttpCall :=
  ⟨"PUT", "/admin/users/" ++ userId.toString ++ "/ban", [("is_banned", .bool isBanned)]⟩

/-- The call `api.get('/admin/stats')`. -/
def statsCall : HttpCall := ⟨"GET", "/admin/stats", []⟩

/-- The call `api.delete('/admin/requests/<requestId>')`. -/
def adminDeleteCall (requestId : JsId) : HttpCall :=
  ⟨"DELETE", "/admin/requests/" ++ requestId.toString, []⟩

/-- The local update of `handleBanUser`:
`users.map(user => user.id === userId ? (...user, is_banned: isBanned) : user)`. -/
def setBanFlag (users : List User) (userId : JsId) (isBanned : Bool) : List User :=
  users.map (fun user => if user.id = userId then { user with is_banned := isBanned } else user)

/-- The handler `handleBanUser(userId, isBanned)`, with the reply of its PUT and of the stats
refresh that follows a successful PUT. -/
def AdminDashboard.handleBanUser (s : AdminState) (userId : JsId) (isBanned : Bool)
    (reply : Except AxiosError Unit) (statsReply : Except AxiosError AdminStats) :
    AdminState × List HttpCall :=
  match reply with
  | .error error =>
    ({ s with message := "Failed to update user: " ++ adminErrorText error },
      [banCall userId isBanned])
  | .ok _ =>
    let s1 := { s with users := setBanFlag s.users userId isBanned }
    match statsReply with
    | .error error =>
      ({ s1 with message := "Failed to update user: " ++ adminErrorText error },
        [banCall userId isBanned, statsCall])
    | .ok stats =>
      ({ s1 with
          stats := some stats,
          message := "User " ++ (if isBanned then "banned" else "unbanned") ++ " successfully!" },
        [banCall userId isBanned, statsCall])

/-- The handler `handleDeleteRequest(requestId)` of the dashboard; `confirm` is what
`window.confirm` returned. -/
def AdminDashboard.handleDeleteRequest (s : AdminState) (confirm : Bool) (requestId : JsId)
    (reply : Except AxiosError Unit) (statsReply : Except AxiosError AdminStats) :
    AdminState × List HttpCall :=
  if confirm then
    match reply with
    | .error error =>
      ({ s with message := "Failed to delete request: " ++ adminErrorText error },
        [adminDeleteCall requestId])
    | .ok _ =>
      let s1 := { s with requests := s.requests.filter (fun req => decide (req.id ≠ requestId)) }
      match statsReply with
      | .error error =>
        ({ s1 with message := "Failed to delete request: " ++ adminErrorText error },
          [adminDeleteCall requestId, statsCall])
      | .ok stats =>
        ({ s1 with stats := some stats, message := "Request deleted successfully!" },
          [adminDeleteCall requestId, statsCall])
  else (s, [])

/-- The `onClick` closures the dashboard tables create. -/
inductive AdminOnClick where
  | handleBanUser (userId : JsId) (isBanned : Bool)
  | handleDeleteRequest (requestId : JsId)
  deriving DecidableEq, Repr

/-- The Actions cell of a row of the User Management table. -/
def AdminDashboard.userActions (user : User) : List (Control AdminOnClick) :=
  if user.role ≠ "admin" then
    [.button (if user.is_banned then "Unban" else "Ban")
      (.handleBanUser user.id (!user.is_banned))]
  else []

/-- The Actions cell of a row of the Request Management table. -/
def AdminDashboard.requestActions (request : SwapRequest) : List (Control AdminOnClick) :=
  [.button "Delete" (.handleDeleteRequest request.id)]

/-- What the AdminDashboard component returns: the loading placeholder, or the
page with the welcome banner flag, the optional alert, the statistics and the
rows of the two tables. -/
inductive AdminView where
  | loading
  | page (welcome : Bool) (alert : Option Alert) (stats : Option AdminStats)
      (users : List (Row User AdminOnClick)) (requests : List (Row SwapRequest AdminOnClick))

/-- The AdminDashboard component's render. -/
def AdminDashboard (s : AdminState) : AdminView :=
  if s.loading then .loading
  else
    .page s.showWelcome
      (alertFor s.message "bg-green-100 border border-green-300 text-green-800"
        "bg-red-100 border border-red-300 text-red-800")
      s.stats
      (s.users.map (fun user => ⟨user, AdminDashboard.userActions user⟩))
      (s.requests.map (fun request => ⟨request, AdminDashboard.requestActions request⟩))

/-- The rows of the User Management table of a rendered dashboard. -/
def AdminView.userRows : AdminView → List (Row User AdminOnClick)
  | .loading => []
  | .page _ _ _ users _ => users

/-- The rows of the Request Management table of a rendered dashboard. -/
def AdminView.requestRows : AdminView → List (Row SwapRequest AdminOnClick)
  | .loading => []
  | .page _ _ _ _ requests => requests

/-- Every `onClick` closure attached to a button of a rendered dashboard. -/
def AdminView.handlers (v : AdminView) : List AdminOnClick :=
  (v.userRows.map (fun row => handlersOf row.actions)).flatten ++
    (v.requestRows.map (fun row => handlersOf row.actions)).flatten

/-- One user action on the dashboard: a click on the button carrying `onClick`,
the answer given to `window.confirm` if it is asked, and the replies of the
mutation call and of the stats refresh. -/
structure AdminEvent where
  onClick : AdminOnClick
  confirm : Bool
  reply : Except AxiosError Unit
  statsReply : Except AxiosError AdminStats

/-- Runs the handler behind a button. -/
def AdminDashboard.dispatch (s : AdminState) (ev : AdminEvent) : AdminState × List HttpCall :=
  match ev.onClick with
  | .handleBanUser userId isBanned =>
    AdminDashboard.handleBanUser s userId isBanned ev.reply ev.statsReply
  | .handleDeleteRequest requestId =>
    AdminDashboard.handleDeleteRequest s ev.confirm requestId ev.reply ev.statsReply

/-- One dashboard action: a click takes effect only when a button with that
`onClick` is on the currently rendered page; otherwise nothing happens. -/
def AdminDashboard.step (s : AdminState) (ev : AdminEvent) : AdminState × List HttpCall :=
  if ev.onClick ∈ (AdminDashboard s).handlers then AdminDashboard.dispatch s ev else (s, [])

/-- A sequence of dashboard actions, each run to completion before the next:
the final state and all HTTP calls issued, in order. -/
def AdminDashboard.run (s : AdminState) : List AdminEvent → AdminState × List HttpCall
  | [] => (s, [])
  | ev :: rest =>
    let r := AdminDashboard.step s ev
    let r2 := AdminDashboard.run r.1 rest
    (r2.1, r.2 ++ r2.2)

/-- The handlers a sequence of dashboard actions actually ran: the `onClick`
of every click that found its button on the page. -/
def AdminDashboard.clicks (s : AdminState) : List AdminEvent → List AdminOnClick
  | [] => []
  | ev :: rest =>
    (if ev.onClick ∈ (AdminDashboard s).handlers then [ev.onClick] else []) ++
      AdminDashboard.clicks (AdminDashboard.step s ev).1 rest

/-! ## Routing (App.js) -/

/-- What the auth context provides through `useAuth()`. -/
structure AuthContext where
  user : Option User
  loading : Bool
  deriving DecidableEq, Repr

/-- What a route element renders to: the loading placeholder of
`ProtectedRoute`, a `Navigate` to a path, or a component. -/
inductive RouteElement (α : Type) where
  | loadingPlaceholder
  | navigate (target : String)
  | render (children : α)
  deriving DecidableEq, Repr

/-- The component `ProtectedRoute` with props `adminOnly` (false when the prop is omitted) and
`children`. -/
def ProtectedRoute {α : Type} (auth : AuthContext) (adminOnly : Bool) (children : α) :
    RouteElement α :=
  if auth.loading then .loadingPlaceholder
  else
    match auth.user with
    | none => .navigate "/login"
    | some user =>
      if adminOnly && user.role != "admin" then .navigate "/"
      else .render children

/-- The page components mounted by the router. -/
inductive Page where
  | Home | Login | Register | Profile | Requests | ChatList | Chat | AdminDashboard | UsersPage
  deriving DecidableEq, Repr

/-- The `Routes` table of `AppContent`: each declared path with the element it renders. -/
def AppContent (auth : AuthContext) : List (String × RouteElement Page) :=
  [("/", .render .Home),
   ("/login", if auth.user.isSome then .navigate "/" else .render .Login),
   ("/register", if auth.user.isSome then .navigate "/" else .render .Register),
   ("/profile", ProtectedRoute auth false .Profile),
   ("/requests", ProtectedRoute auth false .Requests),
   ("/chats", ProtectedRoute auth false .ChatList),
   ("/chat/:requestId", ProtectedRoute auth false .Chat),
   ("/admin", ProtectedRoute auth true .AdminDashboard),
   ("/users", ProtectedRoute auth false .UsersPage)]

/-! ## More of chatService and requestService -/

/-- The response body of `GET /chat/:roomId`. -/
structure MessagesData where
  messages : List ChatMessage
  deriving DecidableEq, Repr

/-- The response body of `GET /requests/:id`. -/
structure RequestData where
  request : SwapRequest
  deriving DecidableEq, Repr

/-- The service `chatService.getChatRoom(requestId)`: one GET to `/chat/room/<requestId>`,
returning the reply's body. -/
def chatService.getChatRoom (requestId : JsId) (reply : Except AxiosError ChatData) :
    HttpCall × Except JsError ChatData :=
  (⟨"GET", "/chat/room/" ++ requestId.toString, []⟩,
    match reply with
    | .ok response => .ok response
    | .error error => .error (serviceError error "Failed to fetch chat room"))

/-- The service `chatService.getMessages(roomId)`: one GET to `/chat/<roomId>`, returning the
reply's `messages`. -/
def chatService.getMessages (roomId : JsId) (reply : Except AxiosError MessagesData) :
    HttpCall × Except JsError (List ChatMessage) :=
  (⟨"GET", "/chat/" ++ roomId.toString, []⟩,
    match reply with
    | .ok response => .ok response.messages
    | .error error => .error (serviceError error "Failed to fetch messages"))

/-- The service `requestService.createRequest(requestData)`: one POST to `/requests` with
`requestData` as body.  The caller-supplied object is a list of fields. -/
def requestService.createRequest (requestData : List (String × Field))
    (reply : Except AxiosError Unit) : HttpCall × Except JsError Unit :=
  (⟨"POST", "/requests", requestData⟩,
    match reply with
    | .ok response => .ok response
    | .error error => .error (serviceError error "Failed to create request"))

/-- The service `requestService.getRequest(requestId)`: one GET to `/requests/<requestId>`,
returning the reply's `request`. -/
def requestService.getRequest (requestId : JsId) (reply : Except AxiosError RequestData) :
    HttpCall × Except JsError SwapRequest :=
  (⟨"GET", "/requests/" ++ requestId.toString, []⟩,
    match reply with
    | .ok response => .ok response.request
    | .error error => .error (serviceError error "Failed to fetch request"))

/-! ## Chat view: loading and rendering (pages/Chat.js) -/

/-- The callback `fetchChatData`, run to completion with the reply of its GET:
`setError(null)` first, then either `setChatData(data)` and
`setMessages(data.messages || [])`, or `setError(error.message)`; `loading` is
lowered by the `finally` block. -/
def Chat.fetchChatData (s : ChatState) (requestId : JsId) (reply : Except AxiosError ChatData) :
    ChatState × List HttpCall :=
  let r := chatService.getChatRoom requestId reply
  match r.2 with
  | .ok data =>
    ({ s with chatData := some data, messages := data.messages.getD [], error := none,
              loading := false }, [r.1])
  | .error error => ({ s with error := some error.message, loading := false }, [r.1])

/-- One rendered message bubble: the React key, whether it is styled as the
user's own (`message.sender_id === user.id`), its text and its time stamp. -/
structure MessageBubble where
  key : JsId
  own : Bool
  text : String
  created_at : String
  deriving DecidableEq, Repr

/-- The element `messages.map` renders for one message. -/
def Chat.bubble (user : User) (message : ChatMessage) : MessageBubble :=
  ⟨message.id, decide (message.sender_id = user.id), message.text, message.created_at⟩

/-- The chat page proper: the bubbles in the messages container (an empty list
stands for the "No messages yet" placeholder) and the message form with the
input's value and the `disabled` flags of input and submit button. -/
structure ChatPage where
  bubbles : List MessageBubble
  draft : String
  inputDisabled : Bool
  submitDisabled : Bool
  deriving DecidableEq, Repr

/-- What the Chat component returns: the loading placeholder, the error card
(the error text and a link back to the requests), the "Chat room not found"
card, or the chat page. -/
inductive ChatView where
  | loading
  | errorCard (text : String)
  | notFound
  | page (page : ChatPage)
  deriving DecidableEq, Repr

/-- Truthiness of the `error` cell: `null` and the empty string are falsy. -/
def errorShown (error : Option String) : Option String :=
  match error with
  | some text => if text = "" then none else some text
  | none => none

/-- The Chat component's render, in the order of its early returns. -/
def Chat (user : User) (s : ChatState) : ChatView :=
  if s.loading then .loading
  else
    match errorShown s.error with
    | some text => .errorCard text
    | none =>
      match s.chatData.bind (·.chat_room) with
      | none => .notFound
      | some _ =>
        .page
          { bubbles := s.messages.map (Chat.bubble user)
            draft := s.newMessage
            inputDisabled := s.sending
            submitDisabled := s.sending || decide (jsTrim s.newMessage = "") }

/-! ## Form pages: Profile.js and Register.js -/

/-- JavaScript `String.prototype.length`: the number of UTF-16 code units, two
for each character outside the Basic Multilingual Plane. -/
def jsLength (s : String) : Nat :=
  (s.data.map (fun c => if 0x10000 ≤ c.toNat then 2 else 1)).sum

/-- The `type` argument of `addSkill` / `removeSkill`: the call sites pass the
literals `'skills_offered'` and `'skills_wanted'` only. -/
inductive SkillType where
  | skills_offered
  | skills_wanted
  deriving DecidableEq, Repr

/-- The service `userService.changePassword(userId, passwordData)`: one PUT to
`/users/<userId>/password` with the given object as body.  No caller reads the
returned body. -/
def userService.changePassword (userId : JsId) (passwordData : List (String × Field))
    (reply : Except AxiosError Unit) : HttpCall × Except JsError Unit :=
  (⟨"PUT", "/users/" ++ userId.toString ++ "/password", passwordData⟩,
    match reply with
    | .ok response => .ok response
    | .error error => .error (serviceError error "Failed to change password"))

/-- The `formData` cell of the Profile component. -/
structure ProfileFormData where
  name : String
  location : String
  availability : String
  skills_offered : List String
  skills_wanted : List String
  is_public : Bool
  deriving DecidableEq, Repr

/-- The `passwordData` cell of the Profile component. -/
structure PasswordData where
  currentPassword : String
  newPassword : String
  confirmPassword : String
  deriving DecidableEq, Repr

/-- The `useState` cells of the Profile component (a selected file is kept by name). -/
structure ProfileState where
  formData : ProfileFormData
  skillInput : String
  skillOfferedInput : String
  skillWantedInput : String
  loading : Bool
  saving : Bool
  message : String
  selectedFile : Option String
  imagePreview : Option String
  passwordData : PasswordData
  changingPassword : Bool
  deriving DecidableEq, Repr

/-- The expression `formData[type]` of the Profile component. -/
def ProfileFormData.skills (formData : ProfileFormData) : SkillType → List String
  | .skills_offered => formData.skills_offered
  | .skills_wanted => formData.skills_wanted

/-- The handler `addSkill(type)` of the Profile component. -/
def Profile.addSkill (s : ProfileState) (type : SkillType) : ProfileState :=
  let inputValue :=
    match type with
    | .skills_offered => s.skillOfferedInput
    | .skills_wanted => s.skillWantedInput
  if jsTrim inputValue ≠ "" ∧ jsTrim inputValue ∉ s.formData.skills type then
    match type with
    | .skills_offered =>
      { s with
          formData :=
            { s.formData with skills_offered := s.formData.skills_offered ++ [jsTrim inputValue] }
          skillOfferedInput := "" }
    | .skills_wanted =>
      { s with
          formData :=
            { s.formData with skills_wanted := s.formData.skills_wanted ++ [jsTrim inputValue] }
          skillWantedInput := "" }
  else s

/-- The submit handler `handlePasswordChange` of the password form, with the reply of the
PUT it awaits when both checks pass.  The form is rendered only for a non-null
`user`.  The result is the state once the handler has finished, before the
three-second timer clears the message. -/
def Profile.handlePasswordChange (user : User) (s : ProfileState)
    (reply : Except AxiosError Unit) : ProfileState × List HttpCall :=
  if s.passwordData.newPassword ≠ s.passwordData.confirmPassword then
    ({ s with message := "New passwords do not match!", changingPassword := false }, [])
  else if jsLength s.passwordData.newPassword < 6 then
    ({ s with message := "New password must be at least 6 characters long!",
              changingPassword := false }, [])
  else
    let r := userService.changePassword user.id
      [("currentPassword", .str s.passwordData.currentPassword),
       ("newPassword", .str s.passwordData.newPassword)] reply
    match r.2 with
    | .ok _ =>
      ({ s with message := "Password changed successfully!", passwordData := ⟨"", "", ""⟩,
                changingPassword := false }, [r.1])
    | .error error =>
      ({ s with message := "Failed to change password: " ++ error.message,
                changingPassword := false }, [r.1])

/-- The `formData` cell of the Register component. -/
structure RegisterFormData where
  name : String
  email : String
  password : String
  confirmPassword : String
  skills_offered : List String
  skills_wanted : List String
  deriving DecidableEq, Repr

/-- The `useState` cells of the Register component. -/
structure RegisterState where
  formData : RegisterFormData
  showPassword : Bool
  showConfirmPassword : Bool
  loading : Bool
  error : String
  skillOfferedInput : String
  skillWantedInput : String
  deriving DecidableEq, Repr

/-- The expression `formData[type]` of the Register component. -/
def RegisterFormData.skills (formData : RegisterFormData) : SkillType → List String
  | .skills_offered => formData.skills_offered
  | .skills_wanted => formData.skills_wanted

/-- The handler `addSkill(type)` of the Register component.  The functional update
`prev => ...` runs on the state the handler was rendered with. -/
def Register.addSkill (s : RegisterState) (type : SkillType) : RegisterState :=
  let inputValue :=
    match type with
    | .skills_offered => s.skillOfferedInput
    | .skills_wanted => s.skillWantedInput
  if jsTrim inputValue ≠ "" ∧ jsTrim inputValue ∉ s.formData.skills type then
    match type with
    | .skills_offered =>
      { s with
          formData :=
            { s.formData with skills_offered := s.formData.skills_offered ++ [jsTrim inputValue] }
          skillOfferedInput := "" }
    | .skills_wanted =>
      { s with
          formData :=
            { s.formData with skills_wanted := s.formData.skills_wanted ++ [jsTrim inputValue] }
          skillWantedInput := "" }
  else s

/-- The object `handleSubmit` passes to `register`. -/
structure RegisterPayload where
  name : String
  email : String
  password : String
  deriving DecidableEq, Repr

/-- What `handleSubmit` does to the outside: a call of the auth context's
`register` with its argument, or a `navigate` to a path. -/
inductive RegisterEffect where
  | register (payload : RegisterPayload)
  | navigate (target : String)
  deriving DecidableEq, Repr

/-- The submit handler `handleSubmit` of the registration form; `reply` is the outcome of
the awaited `register` call (a function of the auth context), consulted only
when both checks pass. -/
def Register.handleSubmit (s : RegisterState) (reply : Except JsError Unit) :
    RegisterState × List RegisterEffect :=
  if s.formData.password ≠ s.formData.confirmPassword then
    ({ s with error := "Passwords do not match", loading := false }, [])
  else if jsLength s.formData.password < 6 then
    ({ s with error := "Password must be at least 6 characters long", loading := false }, [])
  else
    match reply with
    | .ok _ =>
      ({ s with error := "", loading := false },
        [.register ⟨s.formData.name, s.formData.email, s.formData.password⟩, .navigate "/"])
    | .error err =>
      ({ s with
          error := orFallback (some err.message) "Failed to register. Please try again.",
          loading := false },
        [.register ⟨s.formData.name, s.formData.email, s.formData.password⟩])

/-! ## Every HTTP call site of the client -/

/-- The request interceptor shared by the axios instances (the three services
and the admin dashboard): the `Authorization` header it leaves on the request,
given what `localStorage.getItem('token')` returned (`none` for `null`).  The
header is set only under `if (token)`. -/
def bearerInterceptor (token : Option String) : Option String :=
  match token with
  | some t => if t = "" then none else some ("Bearer " ++ t)
  | none => none

/-- The header the direct `fetch` calls always pass: the template literal
`Bearer $(localStorage.getItem('token'))`, in which `null` prints as `null`. -/
def fetchAuthorization (token : Option String) : String :=
  "Bearer " ++
    (match token with
     | some t => t
     | none => "null")

/-- How a call site reaches the network. -/
inductive Transport where
  | axios
  | fetch
  deriving DecidableEq, Repr

/-- The HTTP call sites of the source, one constructor each, with the
identifier the path is built from where there is one. -/
inductive ClientCall where
  | getChatRoom (requestId : JsId)
  | getMessages (roomId : JsId)
  | sendMessage (roomId : JsId)
  | getRequests
  | createRequest
  | updateRequest (requestId : JsId)
  | deleteRequest (requestId : JsId)
  | getRequest (requestId : JsId)
  | getUsers
  | getUser (userId : JsId)
  | updateUser (userId : JsId)
  | uploadPhoto (userId : JsId)
  | searchUsers
  | changePassword (userId : JsId)
  | adminStats
  | adminUsers
  | adminRequests
  | adminBan (userId : JsId)
  | adminDeleteRequest (requestId : JsId)
  | homeRequests
  | homeUsers
  | usersPageUsers
  | chatListUserChats (userId : JsId)
  deriving DecidableEq, Repr

/-- The HTTP method of a call site. -/
def ClientCall.method : ClientCall → String
  | .getChatRoom _ => "GET"
  | .getMessages _ => "GET"
  | .sendMessage _ => "POST"
  | .getRequests => "GET"
  | .createRequest => "POST"
  | .updateRequest _ => "PUT"
  | .deleteRequest _ => "DELETE"
  | .getRequest _ => "GET"
  | .getUsers => "GET"
  | .getUser _ => "GET"
  | .updateUser _ => "PUT"
  | .uploadPhoto _ => "POST"
  | .searchUsers => "GET"
  | .changePassword _ => "PUT"
  | .adminStats => "GET"
  | .adminUsers => "GET"
  | .adminRequests => "GET"
  | .adminBan _ => "PUT"
  | .adminDeleteRequest _ => "DELETE"
  | .homeRequests => "GET"
  | .homeUsers => "GET"
  | .usersPageUsers => "GET"
  | .chatListUserChats _ => "GET"

/-- The path of a call site below the API base URL, as its `/`-separated segments. -/
def ClientCall.segments : ClientCall → List String
  | .getChatRoom requestId => ["chat", "room", requestId.toString]
  | .getMessages roomId => ["chat", roomId.toString]
  | .sendMessage roomId => ["chat", roomId.toString]
  | .getRequests => ["requests"]
  | .createRequest => ["requests"]
  | .updateRequest requestId => ["requests", requestId.toString]
  | .deleteRequest requestId => ["requests", requestId.toString]
  | .getRequest requestId => ["requests", requestId.toString]
  | .getUsers => ["users"]
  | .getUser userId => ["users", userId.toString]
  | .updateUser userId => ["users", userId.toString]
  | .uploadPhoto userId => ["users", userId.toString, "photo"]
  | .searchUsers => ["users", "search"]
  | .changePassword userId => ["users", userId.toString, "password"]
  | .adminStats => ["admin", "stats"]
  | .adminUsers => ["admin", "users"]
  | .adminRequests => ["admin", "requests"]
  | .adminBan userId => ["admin", "users", userId.toString, "ban"]
  | .adminDeleteRequest requestId => ["admin", "requests", requestId.toString]
  | .homeRequests => ["requests"]
  | .homeUsers => ["users"]
  | .usersPageUsers => ["users"]
  | .chatListUserChats userId => ["chat", "user", userId.toString]

/-- The path text of a call site: each segment behind a slash. -/
def ClientCall.url (call : ClientCall) : String :=
  String.join (call.segments.map (fun segment => "/" ++ segment))

/-- Whether a call site goes through an axios instance or a direct `fetch`. -/
def ClientCall.transport : ClientCall → Transport
  | .homeRequests => .fetch
  | .homeUsers => .fetch
  | .usersPageUsers => .fetch
  | .chatListUserChats _ => .fetch
  | _ => .axios

/-- The `Authorization` header a call site's request carries, given what
`localStorage.getItem('token')` returns when the request is built. -/
def ClientCall.authorization (call : ClientCall) (token : Option String) : Option String :=
  match call.transport with
  | .axios => bearerInterceptor token
  | .fetch => some (fetchAuthorization token)

/-- One segment of an endpoint pattern: fixed text, or a `:name` placeholder. -/
inductive PathPart where
  | lit (text : String)
  | param (name : String)
  deriving DecidableEq, Repr

/-- An endpoint of a REST boundary: method and path pattern. -/
structure Endpoint where
  method : String
  pattern : List PathPart
  deriving DecidableEq, Repr

/-- Whether path segments match a pattern: same number of segments, fixed text
equal, a placeholder taking any segment. -/
def segmentsFit : List String → List PathPart → Bool
  | [], [] => true
  | segment :: segments, .lit text :: pattern => segment == text && segmentsFit segments pattern
  | _ :: segments, .param _ :: pattern => segmentsFit segments pattern
  | _, _ => false

/-- The pieces of a path text between its slashes, in order; a text without a
slash is one piece, and a text starting with a slash has an empty first piece. -/
def splitPath : List Char → List (List Char)
  | [] => [[]]
  | c :: rest =>
    if c = '/' then [] :: splitPath rest
    else
      match splitPath rest with
      | [] => [[c]]
      | piece :: pieces => (c :: piece) :: pieces

/-- Whether a text put into a path stays one segment of it: it is not empty
and has no slash. -/
def isSegment (text : String) : Bool :=
  !text.data.isEmpty && text.data.all (fun c => c != '/')

/-- Whether the pieces of a path match a pattern: as many pieces as the pattern
has parts, fixed text equal, a placeholder taking any non-empty piece. -/
def piecesFit : List (List Char) → List PathPart → Bool
  | [], [] => true
  | piece :: pieces, .lit text :: pattern => decide (piece = text.data) && piecesFit pieces pattern
  | piece :: pieces, .param _ :: pattern => !piece.isEmpty && piecesFit pieces pattern
  | _, _ => false

/-- Whether a path text matches a pattern: the text starts with a slash and
the pieces behind it match the pattern one by one. -/
def pathFits (path : String) (pattern : List PathPart) : Bool :=
  match splitPath path.data with
  | [] :: pieces => piecesFit pieces pattern
  | _ => false

/-- Whether a call site's request matches an endpoint, decided on the method
and the path text the request carries. -/
def ClientCall.fits (call : ClientCall) (endpoint : Endpoint) : Bool :=
  call.method == endpoint.method && pathFits call.url endpoint.pattern

/-- The REST boundary as the specification lists it (section 6): the user,
request, chat and admin endpoints. -/
def documentedEndpoints : List Endpoint :=
  [⟨"GET", [.lit "users"]⟩,
   ⟨"GET", [.lit "users", .param "id"]⟩,
   ⟨"PUT", [.lit "users", .param "id"]⟩,
   ⟨"PUT", [.lit "users", .param "id", .lit "password"]⟩,
   ⟨"POST", [.lit "users", .param "id", .lit "photo"]⟩,
   ⟨"GET", [.lit "requests"]⟩,
   ⟨"POST", [.lit "requests"]⟩,
   ⟨"PUT", [.lit "requests", .param "id"]⟩,
   ⟨"DELETE", [.lit "requests", .param "id"]⟩,
   ⟨"GET", [.lit "requests", .param "id"]⟩,
   ⟨"GET", [.lit "chat", .lit "room", .param "requestId"]⟩,
   ⟨"GET", [.lit "chat", .param "roomId"]⟩,
   ⟨"POST", [.lit "chat", .param "roomId"]⟩,
   ⟨"GET", [.lit "admin", .lit "stats"]⟩,
   ⟨"GET", [.lit "admin", .lit "users"]⟩,
   ⟨"PUT", [.lit "admin", .lit "users", .param "id", .lit "ban"]⟩,
   ⟨"GET", [.lit "admin", .lit "requests"]⟩,
   ⟨"DELETE", [.lit "admin", .lit "requests", .param "id"]⟩]

/-- The local `inputValue` of `addSkill` in the Profile component:
`type === 'skills_offered' ? skillOfferedInput : skillWantedInput`. -/
def Profile.inputValue (s : ProfileState) : SkillType → String
  | .skills_offered => s.skillOfferedInput
  | .skills_wanted => s.skillWantedInput

/-- The local `inputValue` of `addSkill` in the Register component. -/
def Register.inputValue (s : RegisterState) : SkillType → String
  | .skills_offered => s.skillOfferedInput
  | .skills_wanted => s.skillWantedInput

/-! ## The rest of userService (services/userService.js) -/

/-- The response body of `GET /users/:id`, with body type `α` for the user record. -/
structure UserData (α : Type) where
  user : α

/-- The service `userService.getUsers(page, limit, search)`: one GET to `/users` (the three
arguments travel as query parameters, which `HttpCall` does not record),
returning the reply's body. -/
def userService.getUsers {α : Type} (_page _limit : Nat) (_search : String)
    (reply : Except AxiosError α) : HttpCall × Except JsError α :=
  (⟨"GET", "/users", []⟩,
    match reply with
    | .ok response => .ok response
    | .error error => .error (serviceError error "Failed to fetch users"))

/-- The service `userService.getUser(userId)`: one GET to `/users/<userId>`, returning the
reply's `user`. -/
def userService.getUser {α : Type} (userId : JsId) (reply : Except AxiosError (UserData α)) :
    HttpCall × Except JsError α :=
  (⟨"GET", "/users/" ++ userId.toString, []⟩,
    match reply with
    | .ok response => .ok response.user
    | .error error => .error (serviceError error "Failed to fetch user"))

/-- The service `userService.updateUser(userId, userData)`: one PUT to `/users/<userId>` with
`userData` as body, returning the reply's body. -/
def userService.updateUser {α : Type} (userId : JsId) (userData : List (String × Field))
    (reply : Except AxiosError α) : HttpCall × Except JsError α :=
  (⟨"PUT", "/users/" ++ userId.toString, userData⟩,
    match reply with
    | .ok response => .ok response
    | .error error => .error (serviceError error "Failed to update user"))

/-- The service `userService.uploadPhoto(userId, file)`: one multipart POST to
`/users/<userId>/photo` with the file (kept by name) in the field `photo`,
returning the reply's body. -/
def userService.uploadPhoto {α : Type} (userId : JsId) (file : String)
    (reply : Except AxiosError α) : HttpCall × Except JsError α :=
  (⟨"POST", "/users/" ++ userId.toString ++ "/photo", [("photo", .str file)]⟩,
    match reply with
    | .ok response => .ok response
    | .error error => .error (serviceError error "Failed to upload photo"))

/-- The service `userService.searchUsers(skill)`: one GET to `/users/search` (the skill
travels as a query parameter), returning the reply's body. -/
def userService.searchUsers {α : Type} (_skill : String) (reply : Except AxiosError α) :
    HttpCall × Except JsError α :=
  (⟨"GET", "/users/search", []⟩,
    match reply with
    | .ok response => .ok response
    | .error error => .error (serviceError error "Failed to search users"))

/-- The object literal `handleSubmit` of the Register component passes to
`register`, as its keys and values. -/
def RegisterPayload.fields (payload : RegisterPayload) : List (String × Field) :=
  [("name", .str payload.name), ("email", .str payload.email),
   ("password", .str payload.password)]

/-! ## Community page (pages/Users.js) -/

/-- A user record as the community page reads it; the page guards `name`,
`location` and the two skill lists against being absent. -/
structure DirectoryUser where
  id : JsId
  name : Option String
  location : Option String
  skills_offered : Option (List String)
  skills_wanted : Option (List String)
  photo_url : Option String
  deriving DecidableEq, Repr

/-- The `useState` cells of the UsersPage component. -/
structure UsersState where
  users : List DirectoryUser
  loading : Bool
  error : Option String
  searchTerm : String
  filterSkill : String
  deriving DecidableEq, Repr

/-- Lower-casing of the ASCII letters, the part of `String.prototype.toLowerCase`
used in the concrete checks.  The page functions below take `toLowerCase` as a
parameter, so what is proved of them holds for the built-in one. -/
def asciiLowerCase (s : String) : String := ⟨s.data.map Char.toLower⟩

/-- The truthiness of `text?.toLowerCase().includes(term.toLowerCase())`: the
optional chain yields `undefined`, which is falsy, when `text` is absent. -/
def optionalIncludes (toLowerCase : String → String) (text : Option String) (term : String) :
    Bool :=
  match text with
  | none => false
  | some value => jsIncludes (toLowerCase value) (toLowerCase term)

/-- The truthiness of
`skills?.some(skill => skill.toLowerCase().includes(filterSkill.toLowerCase()))`. -/
def someSkillIncludes (toLowerCase : String → String) (skills : Option (List String))
    (filterSkill : String) : Bool :=
  match skills with
  | none => false
  | some list => list.any (fun skill => jsIncludes (toLowerCase skill) (toLowerCase filterSkill))

/-- The local `matchesSearch` of the filter callback, as its truthiness. -/
def UsersPage.matchesSearch (toLowerCase : String → String) (user : DirectoryUser)
    (searchTerm : String) : Bool :=
  optionalIncludes toLowerCase user.name searchTerm ||
    optionalIncludes toLowerCase user.location searchTerm

/-- The local `matchesSkill` of the filter callback, as its truthiness. -/
def UsersPage.matchesSkill (toLowerCase : String → String) (user : DirectoryUser)
    (filterSkill : String) : Bool :=
  decide (filterSkill = "") ||
    someSkillIncludes toLowerCase user.skills_offered filterSkill ||
    someSkillIncludes toLowerCase user.skills_wanted filterSkill

/-- The list `filteredUsers`: the users for which `matchesSearch && matchesSkill` is truthy. -/
def UsersPage.filteredUsers (toLowerCase : String → String) (users : List DirectoryUser)
    (searchTerm filterSkill : String) : List DirectoryUser :=
  users.filter (fun user =>
    UsersPage.matchesSearch toLowerCase user searchTerm &&
      UsersPage.matchesSkill toLowerCase user filterSkill)

/-- The UTF-16 code units of a string, the values the default `Array.prototype.sort`
compares strings by. -/
def jsUnits (s : String) : List Nat :=
  (s.data.map (fun c =>
    if c.toNat < 0x10000 then [c.toNat]
    else [0xD800 + (c.toNat - 0x10000) / 0x400, 0xDC00 + (c.toNat - 0x10000) % 0x400])).flatten

/-- Lexicographic comparison of code-unit sequences: `true` when the first does
not come after the second. -/
def unitsLe : List Nat → List Nat → Bool
  | [], _ => true
  | _ :: _, [] => false
  | a :: rest, b :: others => decide (a < b) || (decide (a = b) && unitsLe rest others)

/-- The order the default sort puts strings in. -/
def jsStringLe (a b : String) : Prop := unitsLe (jsUnits a) (jsUnits b) = true

instance jsStringLe.decidable : DecidableRel jsStringLe :=
  fun a b => inferInstanceAs (Decidable (unitsLe (jsUnits a) (jsUnits b) = true))

/-- The array `[...new Set(list)]`: each string once, at its first occurrence. -/
def firstOccurrences : List String → List String
  | [] => []
  | x :: rest => x :: (firstOccurrences rest).filter (fun y => decide (y ≠ x))

/-- The list `allSkills`: the skills of all users, offered before wanted,
without repetitions, in default sort order. -/
def UsersPage.allSkills (users : List DirectoryUser) : List String :=
  List.insertionSort jsStringLe
    (firstOccurrences
      (users.map (fun user => user.skills_offered.getD [] ++ user.skills_wanted.getD [])).flatten)

/-- One card of the users grid: the user and the target of its View Profile link. -/
structure UserCard where
  user : DirectoryUser
  profileLink : String
  deriving DecidableEq, Repr

/-- What the UsersPage component returns: the loading placeholder, the error
card, or the page with the number in its header (`users.length`), the options
of the skill select below "All Skills", and the cards of the grid (an empty list
stands for the "No users found" placeholder). -/
inductive UsersView where
  | loading
  | errorCard (text : String)
  | page (headerCount : Nat) (skillOptions : List String) (cards : List UserCard)
  deriving DecidableEq, Repr

/-- The UsersPage component's render. -/
def UsersPage (toLowerCase : String → String) (s : UsersState) : UsersView :=
  if s.loading then .loading
  else
    match errorShown s.error with
    | some text => .errorCard text
    | none =>
      .page s.users.length (UsersPage.allSkills s.users)
        ((UsersPage.filteredUsers toLowerCase s.users s.searchTerm s.filterSkill).map
          (fun userItem => ⟨userItem, "/profile/" ++ userItem.id.toString⟩))

/-! ## Conversation list (pages/ChatList.js) and the partners block of the chat page -/

/-- An element of the `chat_rooms` array the conversation list fetches. -/
structure ChatListItem where
  id : JsId
  request_id : JsId
  swap_request : Option SwapRequest
  messages : Option (List ChatMessage)
  deriving DecidableEq, Repr

/-- The helper `getOtherUser(chat)` of the conversation list. -/
def ChatList.getOtherUser (user : User) (chat : ChatListItem) : Option User :=
  match chat.swap_request with
  | none => none
  | some request =>
    if some user.id = request.from_user.map (·.id) then request.to_user else request.from_user

/-- The Swap Details line of a conversation card: the texts shown after
`You offer:` and `You want:`. -/
structure SwapDetails where
  youOffer : String
  youWant : String
  deriving DecidableEq, Repr

/-- The Swap Details line as the conversation list renders it:
`chat.swap_request?.skill_offered || 'N/A'` and `chat.swap_request?.skill_wanted || 'N/A'`. -/
def ChatList.swapDetails (chat : ChatListItem) : SwapDetails :=
  ⟨orFallback (chat.swap_request.map (·.skill_offered)) "N/A",
   orFallback (chat.swap_request.map (·.skill_wanted)) "N/A"⟩

/-- The target of a conversation card's link. -/
def ChatList.chatLink (chat : ChatListItem) : String :=
  "/chat/" ++ chat.request_id.toString

/-- One line of the Exchange Partners block of the chat page: a partner and the
skill shown after `Offers:`. -/
structure PartnerLine where
  partner : Option User
  offers : Option String
  deriving DecidableEq, Repr

/-- The Exchange Partners block of the chat page: `from_user` with
`skill_offered`, then `to_user` with `skill_wanted`. -/
def Chat.exchangePartners (chatData : ChatData) : List PartnerLine :=
  [⟨chatData.swap_request.bind (·.from_user), chatData.swap_request.map (·.skill_offered)⟩,
   ⟨chatData.swap_request.bind (·.to_user), chatData.swap_request.map (·.skill_wanted)⟩]

/-! ## Internal links and the declared routes -/

/-- The text of a pattern segment as a route path writes it. -/
def PathPart.text : PathPart → String
  | .lit text => text
  | .param name => ":" ++ name

/-- The path patterns of the routes `AppContent` declares, segment by segment. -/
def routePatterns : List (List PathPart) :=
  [[], [.lit "login"], [.lit "register"], [.lit "profile"], [.lit "requests"], [.lit "chats"],
   [.lit "chat", .param "requestId"], [.lit "admin"], [.lit "users"]]

/-- The `path` prop a pattern is written as. -/
def renderPattern (pattern : List PathPart) : String :=
  if pattern.isEmpty then "/" else String.join (pattern.map (fun part => "/" ++ part.text))

/-- The targets of the internal links and navigations of the views: the fixed
paths of the navigation bar, the home page, the empty states and the redirects,
the chat link of the Requests tables and of the conversation list, and the View
Profile link of the community page. -/
inductive LinkTarget where
  | home
  | login
  | register
  | profile
  | requests
  | chats
  | admin
  | users
  | chat (requestId : JsId)
  | viewProfile (userId : JsId)
  deriving DecidableEq, Repr

/-- The path segments of a link target; an id contributes one segment, its
text being taken as non-empty and free of `/`, as the text of a number is. -/
def LinkTarget.segments : LinkTarget → List String
  | .home => []
  | .login => ["login"]
  | .register => ["register"]
  | .profile => ["profile"]
  | .requests => ["requests"]
  | .chats => ["chats"]
  | .admin => ["admin"]
  | .users => ["users"]
  | .chat requestId => ["chat", requestId.toString]
  | .viewProfile userId => ["profile", userId.toString]

/-- The `to` prop of a link target. -/
def LinkTarget.href (target : LinkTarget) : String :=
  if target.segments.isEmpty then "/"
  else String.join (target.segments.map (fun segment => "/" ++ segment))

/-- Whether some declared route matches a link target. -/
def LinkTarget.routed (target : LinkTarget) : Bool :=
  routePatterns.any (fun pattern => segmentsFit target.segments pattern)

/-! ## Notices: the remaining handlers that set a message -/

/-- The `formData` object of the Profile component as a request body. -/
def ProfileFormData.fields (formData : ProfileFormData) : List (String × Field) :=
  [("name", .str formData.name), ("location", .str formData.location),
   ("availability", .str formData.availability),
   ("skills_offered", .strs formData.skills_offered),
   ("skills_wanted", .strs formData.skills_wanted), ("is_public", .bool formData.is_public)]

/-- The message of the `TypeError` thrown when property `name` of `null` is
read, in the wording of V8 (Node, Chrome); other engines word it differently. -/
def nullReadMessage (name : String) : String :=
  "Cannot read properties of null (reading \x27" ++ name ++ "\x27)"

/-- The submit handler `handleSubmit` of the profile form, with the reply of its PUT; the body
of a resolved reply is `none` when it is `null`, and then reading `response.user`
throws inside the `try` block.  The call of the auth context's `updateUser` on
success lies outside the component's state and is not recorded. -/
def Profile.handleSubmit (user : User) (s : ProfileState)
    (reply : Except AxiosError (Option Unit)) : ProfileState × List HttpCall :=
  let r := userService.updateUser user.id s.formData.fields reply
  match r.2 with
  | .ok (some _) => ({ s with message := "Profile updated successfully!", saving := false }, [r.1])
  | .ok none =>
    ({ s with message := "Failed to update profile: " ++ nullReadMessage "user",
              saving := false }, [r.1])
  | .error error =>
    ({ s with message := "Failed to update profile: " ++ error.message, saving := false }, [r.1])

/-- The handler `handlePhotoUpload`, with the reply of its POST; nothing happens without a
selected file.  The body of a resolved reply is `none` when it is `null`, and
then reading `response.photo_url` throws before the selected file is cleared.
The call of the auth context's `updateUser` on success is not recorded. -/
def Profile.handlePhotoUpload (user : User) (s : ProfileState)
    (reply : Except AxiosError (Option Unit)) : ProfileState × List HttpCall :=
  match s.selectedFile with
  | none => (s, [])
  | some file =>
    let r := userService.uploadPhoto user.id file reply
    match r.2 with
    | .ok (some _) =>
      ({ s with
          selectedFile := none
          imagePreview := none
          message := "Photo uploaded successfully! The image should update shortly."
          loading := false }, [r.1])
    | .ok none =>
      ({ s with message := "Failed to upload photo: " ++ nullReadMessage "photo_url",
                loading := false }, [r.1])
    | .error error =>
      ({ s with message := "Failed to upload photo: " ++ error.message, loading := false },
        [r.1])

/-- The alert banner of the Profile component, which is rendered only for a
non-null `user`. -/
def Profile.alert (user : Option User) (s : ProfileState) : Option Alert :=
  match user with
  | none => none
  | some _ => alertFor s.message "alert alert-success" "alert alert-error"

/-- The function `fetchAdminData` of the dashboard, with the replies of its three GETs, which
are awaited one after the other; the first rejection ends the sequence. -/
def AdminDashboard.fetchAdminData (s : AdminState) (statsReply : Except AxiosError AdminStats)
    (usersReply : Except AxiosError (List User))
    (requestsReply : Except AxiosError (List SwapRequest)) : AdminState × List HttpCall :=
  match statsReply with
  | .error error =>
    ({ s with message := "Failed to load admin data: " ++ adminErrorText error,
              loading := false }, [statsCall])
  | .ok stats =>
    match usersReply with
    | .error error =>
      ({ s with
          stats := some stats
          message := "Failed to load admin data: " ++ adminErrorText error
          loading := false }, [statsCall, ⟨"GET", "/admin/users", []⟩])
    | .ok users =>
      match requestsReply with
      | .error error =>
        ({ s with
            stats := some stats
            users := users
            message := "Failed to load admin data: " ++ adminErrorText error
            loading := false },
          [statsCall, ⟨"GET", "/admin/users", []⟩, ⟨"GET", "/admin/requests", []⟩])
      | .ok requests =>
        ({ s with stats := some stats, users := users, requests := requests, loading := false },
          [statsCall, ⟨"GET", "/admin/users", []⟩, ⟨"GET", "/admin/requests", []⟩])

/-- The fixed texts the failure branches of the Requests, Profile and admin
handlers put in front of the error text. -/
def failurePrefixes : List String :=
  ["Failed to load requests: ", "Failed to update request: ", "Failed to delete request: ",
   "Failed to upload photo: ", "Failed to update profile: ", "Failed to change password: ",
   "Failed to load admin data: ", "Failed to update user: "]

/-- The texts the success branches of the Requests, Profile and admin handlers
set; `status` is the status passed to `handleStatusUpdate` and `isBanned` the
flag passed to `handleBanUser`. -/
def successNotices (status : String) (isBanned : Bool) : List String :=
  ["Request " ++ status ++ " successfully!", "Request deleted successfully!",
   "Photo uploaded successfully! The image should update shortly.",
   "Profile updated successfully!", "Password changed successfully!",
   "User " ++ (if isBanned then "banned" else "unbanned") ++ " successfully!"]

/-- A check used to move a substring test past a fixed front part: no non-empty
end of `front` starts with `sub` or is a beginning of `sub`. -/
def noOverlap (front sub : List Char) : Bool :=
  front.tails.all (fun rest => rest.isEmpty || !(sub.isPrefixOf rest || rest.isPrefixOf sub))

/-! ## Sample data -/

/-- A chat message used in the concrete checks. -/
def sampleMessage (n : Int) (text : String) : ChatMessage :=
  ⟨.num n, .num 1, text, "2024-01-01T10:00:00Z"⟩

/-- A Chat state with room 7 loaded, one earlier message and the given draft. -/
def sampleChat (draft : String) : ChatState :=
  { chatData := some ⟨some ⟨some (.num 7)⟩, none, some [sampleMessage 1 "Hello"]⟩
    messages := [sampleMessage 1 "Hello"]
    newMessage := draft
    loading := false
    sending := false
    error := none }

/-- A member account used in the concrete checks. -/
def sampleUser (n : Int) (name role : String) (banned : Bool) : User :=
  ⟨.num n, name, name ++ "@example.com", role, banned, "2024-01-01"⟩

/-- A swap request between users `sender` and `recipient` used in the concrete checks. -/
def sampleRequest (n sender recipient : Int) (status : String) : SwapRequest :=
  { id := .num n, from_user_id := .num sender, to_user_id := .num recipient,
    from_user := none, to_user := none, skill_offered := "Guitar", skill_wanted := "Spanish",
    message := none, status := status, created_at := "2024-01-02" }

/-- The requests user 1 sees: one pending and one accepted request received,
one pending and one rejected request sent. -/
def sampleRequests : List SwapRequest :=
  [sampleRequest 10 2 1 "pending", sampleRequest 11 1 3 "pending",
   sampleRequest 12 3 1 "accepted", sampleRequest 13 1 2 "rejected"]

/-- The Requests state holding `sampleRequests`, loaded. -/
def sampleRequestsState : RequestsState := ⟨sampleRequests, false, ""⟩

/-- A loaded dashboard: one admin, one active and one banned member, and `sampleRequests`. -/
def sampleAdminState : AdminState :=
  { stats := none
    users := [sampleUser 1 "Root" "admin" false, sampleUser 2 "Bob" "member" false,
      sampleUser 3 "Cy" "member" true]
    requests := sampleRequests
    loading := false
    message := ""
    showWelcome := false }

/-- Statistics used as the reply of a stats refresh in the concrete checks. -/
def sampleStats : AdminStats := ⟨3, 2, 1, 3, 1, 33⟩

/-- A Profile state with the given password form, everything else blank. -/
def sampleProfile (passwordData : PasswordData) : ProfileState :=
  { formData := ⟨"Ann", "Oslo", "Evenings", ["Guitar"], ["Spanish"], true⟩
    skillInput := ""
    skillOfferedInput := ""
    skillWantedInput := ""
    loading := false
    saving := false
    message := ""
    selectedFile := none
    imagePreview := none
    passwordData := passwordData
    changingPassword := false }

/-- A Register state with the given passwords and skill inputs. -/
def sampleRegister (password confirmPassword offeredInput wantedInput : String) :
    RegisterState :=
  { formData := ⟨"Ann", "ann@example.com", password, confirmPassword, ["Guitar"], ["Spanish"]⟩
    showPassword := false
    showConfirmPassword := false
    loading := false
    error := ""
    skillOfferedInput := offeredInput
    skillWantedInput := wantedInput }

/-- A community member with the given name, location and offered skills. -/
def sampleMember (n : Int) (name location : Option String) (offered : List String) :
    DirectoryUser :=
  ⟨.num n, name, location, some offered, none, none⟩

/-- The accepted swap in which Bob (user 2) offers Guitar and asks Ann (user 1) for Spanish. -/
def sampleSwap : SwapRequest :=
  { sampleRequest 12 2 1 "accepted" with
    from_user := some (sampleUser 2 "Bob" "member" false)
    to_user := some (sampleUser 1 "Ann" "member" false) }

/-- The conversation of `sampleSwap` as the conversation list fetches it. -/
def sampleConversation : ChatListItem := ⟨.num 7, .num 12, some sampleSwap, some []⟩

/-! ## Chat view: sending messages -/

/-- Trimming and identifier printing on sample values. -/
theorem jsTrim_samples :
    jsTrim "  hi \n" = "hi" ∧ jsTrim " \t\n" = "" ∧ jsTrim "a b" = "a b" ∧
    (JsId.num 12).toString = "12" ∧ (JsId.str "ab1").toString = "ab1" := by
  decide

theorem Chat.sendMessage_roomId (s : ChatState) (reply : Except AxiosError SendMessageData) :
    (Chat.sendMessage s reply).1.roomId = s.roomId := by
  unfold Chat.sendMessage
  cases hr : s.roomId with
  | none => simpa using hr
  | some roomId =>
    simp only
    split
    · simpa using hr
    · cases reply <;> simpa [chatService.sendMessage, ChatState.roomId] using hr

theorem Chat.sendMessage_ok (s : ChatState) (roomId : JsId) (data : SendMessageData)
    (hroom : s.roomId = some roomId) (hid : roomId.truthy = true)
    (htext : jsTrim s.newMessage ≠ "") :
    (Chat.sendMessage s (.ok data)).1.messages = s.messages ++ [data.chat_message] := by
  simp [Chat.sendMessage, hroom, hid, htext, chatService.sendMessage]

/-- C1: `appendMessage` is append-only in the Chat view.  Starting from any state
with message list `L` and a loaded room whose id is present, `N` successive
submissions of non-blank text whose POST succeeds leave the message list equal to
`L` followed by the `N` messages `chatService.sendMessage` returned, in call
order; so its length is `|L| + N` and `L` is kept as it was. -/
theorem C1_sendMessage_append_only (s : ChatState) (roomId : JsId)
    (sends : List (String × SendMessageData))
    (hroom : s.roomId = some roomId) (hid : roomId.truthy = true)
    (htext : ∀ p ∈ sends, jsTrim p.1 ≠ "") :
    (∀ p ∈ sends,
        (chatService.sendMessage roomId (jsTrim p.1) (.ok p.2)).2 = .ok p.2.chat_message) ∧
    (Chat.sendAll s (sends.map (fun p => (p.1, .ok p.2)))).messages
        = s.messages ++ sends.map (fun p => p.2.chat_message) ∧
    (Chat.sendAll s (sends.map (fun p => (p.1, .ok p.2)))).messages.length
        = s.messages.length + sends.length := by
  have key : ∀ (sends : List (String × SendMessageData)) (s : ChatState),
      s.roomId = some roomId → (∀ p ∈ sends, jsTrim p.1 ≠ "") →
      (Chat.sendAll s (sends.map (fun p => (p.1, .ok p.2)))).messages
        = s.messages ++ sends.map (fun p => p.2.chat_message) := by
    intro sends
    induction sends with
    | nil => intro s _ _; simp [Chat.sendAll]
    | cons p rest ih =>
      intro s hroom htext
      have hp : jsTrim (Chat.onChange s p.1).newMessage ≠ "" := by
        simpa [Chat.onChange] using htext p (List.mem_cons_self _ _)
      have hroom1 : (Chat.onChange s p.1).roomId = some roomId := by
        simpa [Chat.onChange, ChatState.roomId] using hroom
      have hstep := Chat.sendMessage_ok (Chat.onChange s p.1) roomId p.2 hroom1 hid hp
      have hroom2 : (Chat.sendMessage (Chat.onChange s p.1) (.ok p.2)).1.roomId = some roomId := by
        rw [Chat.sendMessage_roomId]; exact hroom1
      have hrest := ih _ hroom2 (fun q hq => htext q (List.mem_cons_of_mem _ hq))
      simp only [List.map_cons, Chat.sendAll]
      rw [hrest, hstep]
      simp [Chat.onChange]
  refine ⟨fun p _ => rfl, key sends s hroom htext, ?_⟩
  rw [key sends s hroom htext]
  simp

/-- C1 at a concrete run: two sends after one earlier message give three messages in call order. -/
theorem C1_sendMessage_append_only_witness :
    (Chat.sendAll (sampleChat "") [("Hi!", .ok ⟨sampleMessage 2 "Hi!"⟩),
        (" How are you? ", .ok ⟨sampleMessage 3 "How are you?"⟩)]).messages
      = [sampleMessage 1 "Hello", sampleMessage 2 "Hi!", sampleMessage 3 "How are you?"] :=
  (C1_sendMessage_append_only (sampleChat "") (.num 7)
    [("Hi!", ⟨sampleMessage 2 "Hi!"⟩), (" How are you? ", ⟨sampleMessage 3 "How are you?"⟩)]
    rfl (by decide) (by decide)).2.1

/-- C2: `appendMessage` is atomic in the Chat view.  Whenever the submit handler
calls `chatService.sendMessage`, the call is the single POST for the loaded room
with the trimmed draft, and exactly one of two things happened: the service
returned a message, and the list is the old list with exactly that message
appended; or the service threw, the error text is recorded, and both the
message list and the draft are what they were before the call. -/
theorem C2_sendMessage_atomic (s : ChatState) (reply : Except AxiosError SendMessageData)
    (call : HttpCall) (hcall : call ∈ (Chat.sendMessage s reply).2) :
    ∃ roomId, s.roomId = some roomId ∧
      (Chat.sendMessage s reply).2 = [call] ∧
      call = (chatService.sendMessage roomId (jsTrim s.newMessage) reply).1 ∧
      ((∃ message,
          (chatService.sendMessage roomId (jsTrim s.newMessage) reply).2 = .ok message ∧
          (Chat.sendMessage s reply).1.messages = s.messages ++ [message] ∧
          (Chat.sendMessage s reply).1.error = s.error) ∨
       (∃ error,
          (chatService.sendMessage roomId (jsTrim s.newMessage) reply).2 = .error error ∧
          (Chat.sendMessage s reply).1.error = some ("Failed to send message: " ++ error.message) ∧
          (Chat.sendMessage s reply).1.messages = s.messages ∧
          (Chat.sendMessage s reply).1.newMessage = s.newMessage)) := by
  unfold Chat.sendMessage at hcall ⊢
  cases hr : s.roomId with
  | none => simp [hr] at hcall
  | some roomId =>
    simp only [hr] at hcall ⊢
    by_cases hg : jsTrim s.newMessage = "" ∨ roomId.truthy = false
    · simp [hg] at hcall
    · simp only [hg, if_false] at hcall ⊢
      refine ⟨roomId, rfl, ?_⟩
      cases reply with
      | ok data =>
        have hc : call = (chatService.sendMessage roomId (jsTrim s.newMessage) (.ok data)).1 := by
          simpa [chatService.sendMessage] using hcall
        refine ⟨?_, hc, Or.inl ⟨data.chat_message, rfl, rfl, rfl⟩⟩
        rw [hc]; rfl
      | error e =>
        have hc : call = (chatService.sendMessage roomId (jsTrim s.newMessage) (.error e)).1 := by
          simpa [chatService.sendMessage] using hcall
        refine ⟨?_, hc, Or.inr ⟨serviceError e "Failed to send message", rfl, rfl, rfl, rfl⟩⟩
        rw [hc]; rfl

/-- C2 at a concrete failed send: the POST was issued, the server's message is
recorded, and the earlier message and the draft are untouched. -/
theorem C2_sendMessage_atomic_witness :
    ∃ roomId, (sampleChat "Hi!").roomId = some roomId ∧
      (Chat.sendMessage (sampleChat "Hi!") (.error ⟨some "Room closed", "Request failed"⟩)).2
        = [⟨"POST", "/chat/7", [("text", .str "Hi!")]⟩] ∧
      (⟨"POST", "/chat/7", [("text", .str "Hi!")]⟩ : HttpCall)
        = (chatService.sendMessage roomId (jsTrim (sampleChat "Hi!").newMessage)
            (.error ⟨some "Room closed", "Request failed"⟩)).1 ∧
      ((∃ message,
          (chatService.sendMessage roomId (jsTrim (sampleChat "Hi!").newMessage)
            (.error ⟨some "Room closed", "Request failed"⟩)).2 = .ok message ∧
          (Chat.sendMessage (sampleChat "Hi!")
            (.error ⟨some "Room closed", "Request failed"⟩)).1.messages
              = (sampleChat "Hi!").messages ++ [message] ∧
          (Chat.sendMessage (sampleChat "Hi!")
            (.error ⟨some "Room closed", "Request failed"⟩)).1.error = (sampleChat "Hi!").error) ∨
       (∃ error,
          (chatService.sendMessage roomId (jsTrim (sampleChat "Hi!").newMessage)
            (.error ⟨some "Room closed", "Request failed"⟩)).2 = .error error ∧
          (Chat.sendMessage (sampleChat "Hi!")
            (.error ⟨some "Room closed", "Request failed"⟩)).1.error
              = some ("Failed to send message: " ++ error.message) ∧
          (Chat.sendMessage (sampleChat "Hi!")
            (.error ⟨some "Room closed", "Request failed"⟩)).1.messages
              = (sampleChat "Hi!").messages ∧
          (Chat.sendMessage (sampleChat "Hi!")
            (.error ⟨some "Room closed", "Request failed"⟩)).1.newMessage
              = (sampleChat "Hi!").newMessage)) :=
  C2_sendMessage_atomic (sampleChat "Hi!") (.error ⟨some "Room closed", "Request failed"⟩)
    ⟨"POST", "/chat/7", [("text", .str "Hi!")]⟩ (by decide)

/-- C3, as stated, fails: with a draft of three blanks the submit handler
finishes without posting anything and without recording an error, and the
service itself, handed the same text, posts it and returns the server's message. -/
theorem C3_blank_text_counterexample :
    jsTrim (sampleChat "   ").newMessage = "" ∧
    (Chat.sendMessage (sampleChat "   ") (.ok ⟨sampleMessage 2 "   "⟩)).2 = [] ∧
    (Chat.sendMessage (sampleChat "   ") (.ok ⟨sampleMessage 2 "   "⟩)).1.error = none ∧
    chatService.sendMessage (.num 7) "   " (.ok ⟨sampleMessage 2 "   "⟩)
      = (⟨"POST", "/chat/7", [("text", .str "   ")]⟩, .ok (sampleMessage 2 "   ")) :=
  ⟨by decide, by decide, by decide, by decide⟩

/-- C3, amended: for every draft whose trim is the empty string, the submit
handler of the Chat view returns silently: it does not call
`chatService.sendMessage` (nothing is posted), and the whole state, the error
included, is what it was.  The service does no validation of its own: handed
that text, it posts it unchanged and returns what the server replied. -/
theorem C3_blank_text_ignored_silently (s : ChatState)
    (reply : Except AxiosError SendMessageData) (h : jsTrim s.newMessage = "") :
    Chat.sendMessage s reply = (s, []) ∧
    ∀ (roomId : JsId) (data : SendMessageData),
      chatService.sendMessage roomId s.newMessage (.ok data)
        = (⟨"POST", "/chat/" ++ roomId.toString, [("text", .str s.newMessage)]⟩,
            .ok data.chat_message) := by
  refine ⟨?_, fun _ _ => rfl⟩
  unfold Chat.sendMessage
  cases s.roomId with
  | none => rfl
  | some roomId => simp [h]

/-- C3 amended, at a draft of blanks and tabs. -/
theorem C3_blank_text_ignored_silently_witness :
    Chat.sendMessage (sampleChat " \t ") (.ok ⟨sampleMessage 2 "x"⟩) = (sampleChat " \t ", []) :=
  (C3_blank_text_ignored_silently (sampleChat " \t ") (.ok ⟨sampleMessage 2 "x"⟩)
    (by decide)).1

/-! ## Requests view: what each row offers -/

theorem Requests.mem_receivedRequests (user : Option User) (requests : List SwapRequest)
    (request : SwapRequest) :
    request ∈ Requests.receivedRequests user requests
      ↔ request ∈ requests ∧ some request.to_user_id = currentUserId user := by
  simp [Requests.receivedRequests, List.mem_filter]

theorem Requests.mem_sentRequests (user : Option User) (requests : List SwapRequest)
    (request : SwapRequest) :
    request ∈ Requests.sentRequests user requests
      ↔ request ∈ requests ∧ some request.from_user_id = currentUserId user := by
  simp [Requests.sentRequests, List.mem_filter]

theorem Requests.mem_received (user : Option User) (s : RequestsState)
    (row : Row SwapRequest RequestsOnClick) :
    row ∈ (Requests user s).received ↔
      s.loading = false ∧ ∃ request ∈ Requests.receivedRequests user s.requests,
        row = ⟨request, Requests.receivedActions request⟩ := by
  unfold Requests
  cases hl : s.loading <;> simp [RequestsView.received, eq_comm]

theorem Requests.mem_sent (user : Option User) (s : RequestsState)
    (row : Row SwapRequest RequestsOnClick) :
    row ∈ (Requests user s).sent ↔
      s.loading = false ∧ ∃ request ∈ Requests.sentRequests user s.requests,
        row = ⟨request, Requests.sentActions request⟩ := by
  unfold Requests
  cases hl : s.loading <;> simp [RequestsView.sent, eq_comm]

theorem Requests.statusUpdate_mem_receivedActions (request : SwapRequest) (label : String)
    (requestId : JsId) (status : String) :
    Control.button label (RequestsOnClick.handleStatusUpdate requestId status)
        ∈ Requests.receivedActions request
      ↔ request.status = "pending" ∧ requestId = request.id ∧
        ((label = "Accept" ∧ status = "accepted") ∨ (label = "Reject" ∧ status = "rejected")) := by
  unfold Requests.receivedActions
  by_cases hp : request.status = "pending"
  · simp [hp]; tauto
  · by_cases ha : request.status = "accepted" <;> simp [hp, ha]

theorem Requests.statusUpdate_not_mem_sentActions (request : SwapRequest) (label : String)
    (requestId : JsId) (status : String) :
    Control.button label (RequestsOnClick.handleStatusUpdate requestId status)
        ∉ Requests.sentActions request := by
  unfold Requests.sentActions
  by_cases hp : request.status = "pending"
  · simp [hp]
  · by_cases ha : request.status = "accepted" <;> simp [hp, ha]

theorem Requests.delete_mem_sentActions (request : SwapRequest) (label : String)
    (requestId : JsId) :
    Control.button label (RequestsOnClick.handleDeleteRequest requestId)
        ∈ Requests.sentActions request
      ↔ request.status = "pending" ∧ requestId = request.id ∧ label = "Delete" := by
  unfold Requests.sentActions
  by_cases hp : request.status = "pending"
  · simp [hp]; tauto
  · by_cases ha : request.status = "accepted" <;> simp [hp, ha]

theorem Requests.delete_not_mem_receivedActions (request : SwapRequest) (label : String)
    (requestId : JsId) :
    Control.button label (RequestsOnClick.handleDeleteRequest requestId)
        ∉ Requests.receivedActions request := by
  unfold Requests.receivedActions
  by_cases hp : request.status = "pending"
  · simp [hp]
  · by_cases ha : request.status = "accepted" <;> simp [hp, ha]

theorem Requests.link_mem_receivedActions (request : SwapRequest) (target label : String) :
    Control.link target label ∈ Requests.receivedActions request
      ↔ request.status = "accepted" ∧ target = "/chat/" ++ request.id.toString ∧
        label = "Chat" := by
  unfold Requests.receivedActions
  by_cases hp : request.status = "pending"
  · simp [hp]
  · by_cases ha : request.status = "accepted" <;> simp [hp, ha]

theorem Requests.link_mem_sentActions (request : SwapRequest) (target label : String) :
    Control.link target label ∈ Requests.sentActions request
      ↔ request.status = "accepted" ∧ target = "/chat/" ++ request.id.toString ∧
        label = "Chat" := by
  unfold Requests.sentActions
  by_cases hp : request.status = "pending"
  · simp [hp]
  · by_cases ha : request.status = "accepted" <;> simp [hp, ha]

theorem Requests.mem_rows (user : Option User) (s : RequestsState)
    (row : Row SwapRequest RequestsOnClick) :
    row ∈ (Requests user s).rows ↔ row ∈ (Requests user s).received ∨ row ∈ (Requests user s).sent := by
  simp [RequestsView.rows]

/-- C4: in the Requests view, once the tables are rendered, an Accept/Reject
button is rendered for a request iff the request is in `receivedRequests` and its
status is `'pending'`.  Every such button sits in the Received table on a row
whose recipient is the current user, calls `handleStatusUpdate` with that row's
own id and with `'accepted'` or `'rejected'` and nothing else; a pending received
request gets both buttons; and the handler hands id and status on to
`requestService.updateRequest` as `PUT /requests/<id>` with body `status`. -/
theorem C4_accept_reject_only_for_pending_received (user : Option User) (s : RequestsState)
    (h : s.loading = false) :
    (∀ request : SwapRequest,
      (∃ row ∈ (Requests user s).rows, row.item = request ∧
          ∃ label requestId status,
            Control.button label (RequestsOnClick.handleStatusUpdate requestId status)
              ∈ row.actions)
        ↔ (request ∈ Requests.receivedRequests user s.requests ∧ request.status = "pending")) ∧
    (∀ row ∈ (Requests user s).rows, ∀ label requestId status,
        Control.button label (RequestsOnClick.handleStatusUpdate requestId status) ∈ row.actions →
          row ∈ (Requests user s).received ∧
          some row.item.to_user_id = currentUserId user ∧ row.item.status = "pending" ∧
          requestId = row.item.id ∧ (status = "accepted" ∨ status = "rejected")) ∧
    (∀ request ∈ Requests.receivedRequests user s.requests, request.status = "pending" →
        ∃ row ∈ (Requests user s).received, row.item = request ∧
          row.actions = [.button "Accept" (.handleStatusUpdate request.id "accepted"),
                         .button "Reject" (.handleStatusUpdate request.id "rejected")]) ∧
    (∀ requestId status reply refresh,
        (Requests.handleStatusUpdate s requestId status reply refresh).2.head?
          = some ⟨"PUT", "/requests/" ++ requestId.toString, [("status", .str status)]⟩) := by
  have only : ∀ row ∈ (Requests user s).rows, ∀ label requestId status,
      Control.button label (RequestsOnClick.handleStatusUpdate requestId status) ∈ row.actions →
        row ∈ (Requests user s).received ∧
        row.item ∈ Requests.receivedRequests user s.requests ∧ row.item.status = "pending" ∧
        requestId = row.item.id ∧ (status = "accepted" ∨ status = "rejected") := by
    intro row hrow label requestId status hc
    rcases (Requests.mem_rows user s row).1 hrow with hr | hr
    · obtain ⟨_, request, hreq, rfl⟩ := (Requests.mem_received user s _).1 hr
      obtain ⟨hp, hid, hst⟩ := (Requests.statusUpdate_mem_receivedActions _ _ _ _).1 hc
      exact ⟨hr, hreq, hp, hid, hst.elim (fun x => Or.inl x.2) (fun x => Or.inr x.2)⟩
    · obtain ⟨_, request, _, rfl⟩ := (Requests.mem_sent user s _).1 hr
      exact absurd hc (Requests.statusUpdate_not_mem_sentActions _ _ _ _)
  have both : ∀ request ∈ Requests.receivedRequests user s.requests, request.status = "pending" →
      ∃ row ∈ (Requests user s).received, row.item = request ∧
        row.actions = [.button "Accept" (.handleStatusUpdate request.id "accepted"),
                       .button "Reject" (.handleStatusUpdate request.id "rejected")] := by
    intro request hreq hp
    refine ⟨⟨request, Requests.receivedActions request⟩,
      (Requests.mem_received user s _).2 ⟨h, request, hreq, rfl⟩, rfl, ?_⟩
    simp [Requests.receivedActions, hp]
  refine ⟨fun request => ⟨?_, ?_⟩, ?_, both, ?_⟩
  · rintro ⟨row, hrow, rfl, label, requestId, status, hc⟩
    obtain ⟨_, hreq, hp, _, _⟩ := only row hrow label requestId status hc
    exact ⟨hreq, hp⟩
  · rintro ⟨hreq, hp⟩
    obtain ⟨row, hrow, hitem, hact⟩ := both request hreq hp
    exact ⟨row, (Requests.mem_rows user s row).2 (Or.inl hrow), hitem,
      "Accept", request.id, "accepted", by rw [hact]; exact List.mem_cons_self _ _⟩
  · intro row hrow label requestId status hc
    obtain ⟨hr, hreq, hp, hid, hst⟩ := only row hrow label requestId status hc
    exact ⟨hr, ((Requests.mem_receivedRequests user s.requests _).1 hreq).2, hp, hid, hst⟩
  · intro requestId status reply refresh
    cases reply <;> rfl

/-- C4 at the sample list of user 1: the pending request received from user 2
has a status-update button on its row. -/
theorem C4_accept_reject_only_for_pending_received_witness :
    ∃ row ∈ (Requests (some (sampleUser 1 "Ann" "member" false)) sampleRequestsState).rows,
      row.item = sampleRequest 10 2 1 "pending" ∧
      ∃ label requestId status,
        Control.button label (RequestsOnClick.handleStatusUpdate requestId status)
          ∈ row.actions :=
  ((C4_accept_reject_only_for_pending_received (some (sampleUser 1 "Ann" "member" false))
    sampleRequestsState rfl).1 (sampleRequest 10 2 1 "pending")).2 ⟨by decide, rfl⟩

/-- C5: in the Requests view, once the tables are rendered, a Delete button is
rendered for a request iff the request is in `sentRequests` and its status is
`'pending'`.  Every such button sits in the Sent table on a row whose requester
is the current user and calls `handleDeleteRequest` with that row's own id; and
the handler issues `DELETE /requests/<id>` exactly when the confirmation dialog
returned true, doing nothing at all when it returned false. -/
theorem C5_delete_only_for_pending_sent (user : Option User) (s : RequestsState)
    (h : s.loading = false) :
    (∀ request : SwapRequest,
      (∃ row ∈ (Requests user s).rows, row.item = request ∧
          ∃ label requestId,
            Control.button label (RequestsOnClick.handleDeleteRequest requestId) ∈ row.actions)
        ↔ (request ∈ Requests.sentRequests user s.requests ∧ request.status = "pending")) ∧
    (∀ row ∈ (Requests user s).rows, ∀ label requestId,
        Control.button label (RequestsOnClick.handleDeleteRequest requestId) ∈ row.actions →
          row ∈ (Requests user s).sent ∧
          some row.item.from_user_id = currentUserId user ∧ row.item.status = "pending" ∧
          requestId = row.item.id ∧ label = "Delete") ∧
    (∀ confirm requestId reply refresh,
        ((requestService.deleteRequest requestId reply).1
            ∈ (Requests.handleDeleteRequest s confirm requestId reply refresh).2
          ↔ confirm = true) ∧
        (confirm = false →
          Requests.handleDeleteRequest s confirm requestId reply refresh = (s, []))) := by
  have only : ∀ row ∈ (Requests user s).rows, ∀ label requestId,
      Control.button label (RequestsOnClick.handleDeleteRequest requestId) ∈ row.actions →
        row ∈ (Requests user s).sent ∧
        row.item ∈ Requests.sentRequests user s.requests ∧ row.item.status = "pending" ∧
        requestId = row.item.id ∧ label = "Delete" := by
    intro row hrow label requestId hc
    rcases (Requests.mem_rows user s row).1 hrow with hr | hr
    · obtain ⟨_, request, _, rfl⟩ := (Requests.mem_received user s _).1 hr
      exact absurd hc (Requests.delete_not_mem_receivedActions _ _ _)
    · obtain ⟨_, request, hreq, rfl⟩ := (Requests.mem_sent user s _).1 hr
      obtain ⟨hp, hid, hl⟩ := (Requests.delete_mem_sentActions _ _ _).1 hc
      exact ⟨hr, hreq, hp, hid, hl⟩
  refine ⟨fun request => ⟨?_, ?_⟩, ?_, ?_⟩
  · rintro ⟨row, hrow, rfl, label, requestId, hc⟩
    obtain ⟨_, hreq, hp, _, _⟩ := only row hrow label requestId hc
    exact ⟨hreq, hp⟩
  · rintro ⟨hreq, hp⟩
    refine ⟨⟨request, Requests.sentActions request⟩,
      (Requests.mem_rows user s _).2 (Or.inr ((Requests.mem_sent user s _).2 ⟨h, request, hreq, rfl⟩)),
      rfl, "Delete", request.id, ?_⟩
    exact (Requests.delete_mem_sentActions _ _ _).2 ⟨hp, rfl, rfl⟩
  · intro row hrow label requestId hc
    obtain ⟨hr, hreq, hp, hid, hl⟩ := only row hrow label requestId hc
    exact ⟨hr, ((Requests.mem_sentRequests user s.requests _).1 hreq).2, hp, hid, hl⟩
  · intro confirm requestId reply refresh
    cases confirm
    · simp [Requests.handleDeleteRequest]
    · cases reply <;> simp [Requests.handleDeleteRequest, requestService.deleteRequest]

/-- C5 at the sample list of user 1: the pending request sent to user 3 has a
Delete button on its row. -/
theorem C5_delete_only_for_pending_sent_witness :
    ∃ row ∈ (Requests (some (sampleUser 1 "Ann" "member" false)) sampleRequestsState).rows,
      row.item = sampleRequest 11 1 3 "pending" ∧
      ∃ label requestId,
        Control.button label (RequestsOnClick.handleDeleteRequest requestId) ∈ row.actions :=
  ((C5_delete_only_for_pending_sent (some (sampleUser 1 "Ann" "member" false))
    sampleRequestsState rfl).1 (sampleRequest 11 1 3 "pending")).2 ⟨by decide, rfl⟩

/-- C7: the chat thread is unlocked exactly when a swap request is accepted.
Once the tables are rendered, the Received table has one row per request of
`receivedRequests` and the Sent table one per request of `sentRequests`, and on
every row of either table the Chat link to `/chat/<request.id>` is rendered iff
the row's request has status `'accepted'`; any link on a row is that link, so it
carries the row's own id and never appears on a pending or rejected request. -/
theorem C7_chat_link_iff_accepted (user : Option User) (s : RequestsState)
    (h : s.loading = false) :
    (Requests user s).received.map (fun row => row.item)
      = Requests.receivedRequests user s.requests ∧
    (Requests user s).sent.map (fun row => row.item) = Requests.sentRequests user s.requests ∧
    (∀ row ∈ (Requests user s).rows,
      (Control.link ("/chat/" ++ row.item.id.toString) "Chat" ∈ row.actions
        ↔ row.item.status = "accepted") ∧
      (∀ target label, Control.link target label ∈ row.actions →
        row.item.status = "accepted" ∧ target = "/chat/" ++ row.item.id.toString)) := by
  refine ⟨?_, ?_, ?_⟩
  · simp [Requests, h, RequestsView.received, Function.comp_def]
  · simp [Requests, h, RequestsView.sent, Function.comp_def]
  · intro row hrow
    rcases (Requests.mem_rows user s row).1 hrow with hr | hr
    · obtain ⟨_, request, _, rfl⟩ := (Requests.mem_received user s _).1 hr
      refine ⟨?_, fun target label hc => ?_⟩
      · simp [Requests.link_mem_receivedActions]
      · obtain ⟨ha, ht, _⟩ := (Requests.link_mem_receivedActions _ _ _).1 hc
        exact ⟨ha, ht⟩
    · obtain ⟨_, request, _, rfl⟩ := (Requests.mem_sent user s _).1 hr
      refine ⟨?_, fun target label hc => ?_⟩
      · simp [Requests.link_mem_sentActions]
      · obtain ⟨ha, ht, _⟩ := (Requests.link_mem_sentActions _ _ _).1 hc
        exact ⟨ha, ht⟩

/-- C7 at the sample list of user 1: the Received table shows requests 10 and
12 and the Sent table 11 and 13. -/
theorem C7_chat_link_iff_accepted_witness :
    (Requests (some (sampleUser 1 "Ann" "member" false)) sampleRequestsState).received.map
        (fun row => row.item)
      = [sampleRequest 10 2 1 "pending", sampleRequest 12 3 1 "accepted"] ∧
    (Requests (some (sampleUser 1 "Ann" "member" false)) sampleRequestsState).sent.map
        (fun row => row.item)
      = [sampleRequest 11 1 3 "pending", sampleRequest 13 1 2 "rejected"] :=
  ⟨(C7_chat_link_iff_accepted (some (sampleUser 1 "Ann" "member" false))
      sampleRequestsState rfl).1,
   (C7_chat_link_iff_accepted (some (sampleUser 1 "Ann" "member" false))
      sampleRequestsState rfl).2.1⟩

/-! ## Admin dashboard: request rows -/

theorem AdminDashboard.mem_requestRows (s : AdminState) (row : Row SwapRequest AdminOnClick) :
    row ∈ (AdminDashboard s).requestRows ↔
      s.loading = false ∧ ∃ request ∈ s.requests,
        row = ⟨request, AdminDashboard.requestActions request⟩ := by
  unfold AdminDashboard
  cases hl : s.loading <;> simp [AdminView.requestRows, eq_comm]

theorem AdminDashboard.mem_userRows (s : AdminState) (row : Row User AdminOnClick) :
    row ∈ (AdminDashboard s).userRows ↔
      s.loading = false ∧ ∃ user ∈ s.users, row = ⟨user, AdminDashboard.userActions user⟩ := by
  unfold AdminDashboard
  cases hl : s.loading <;> simp [AdminView.userRows, eq_comm]

theorem AdminDashboard.step_requests_subset (s : AdminState) (ev : AdminEvent) :
    ∀ request ∈ (AdminDashboard.step s ev).1.requests, request ∈ s.requests := by
  intro request
  unfold AdminDashboard.step AdminDashboard.dispatch
  split
  · rcases ev with ⟨onClick, confirm, reply, statsReply⟩
    cases onClick with
    | handleBanUser userId isBanned =>
      cases reply <;> cases statsReply <;> simp [AdminDashboard.handleBanUser]
    | handleDeleteRequest requestId =>
      cases confirm <;> cases reply <;> cases statsReply <;>
        simp +contextual [AdminDashboard.handleDeleteRequest, List.mem_filter]
  · exact id

/-- C6, as stated, fails in the admin dashboard: the accepted request 12 has a
Delete button on the rendered page, and clicking it (and confirming) issues
`DELETE /admin/requests/12` and drops the request from the list. -/
theorem C6_admin_deletes_terminal_request_counterexample :
    sampleRequest 12 3 1 "accepted" ∈ sampleAdminState.requests ∧
    (sampleRequest 12 3 1 "accepted").status ≠ "pending" ∧
    AdminOnClick.handleDeleteRequest (.num 12) ∈ (AdminDashboard sampleAdminState).handlers ∧
    AdminDashboard.step sampleAdminState
        ⟨.handleDeleteRequest (.num 12), true, .ok (), .ok sampleStats⟩
      = ({ sampleAdminState with
            stats := some sampleStats
            requests := [sampleRequest 10 2 1 "pending", sampleRequest 11 1 3 "pending",
              sampleRequest 13 1 2 "rejected"]
            message := "Request deleted successfully!" },
         [⟨"DELETE", "/admin/requests/12", []⟩, ⟨"GET", "/admin/stats", []⟩]) :=
  ⟨by decide, by decide, by decide, by decide⟩

/-- C6, amended: in the Requests view a row whose request is not `'pending'`
carries no button at all, so neither a status change nor a deletion is offered
for it, and a Delete button appears only on a pending request whose requester is
the current user.  In the admin dashboard no action changes a request's status
(an action can only remove requests from the list, never alter one), but every
rendered request row, whatever its status and requester, carries a Delete button
for its own id. -/
theorem C6_terminal_requests_by_view (user : Option User) (s : RequestsState) (a : AdminState) :
    (∀ row ∈ (Requests user s).rows, row.item.status ≠ "pending" →
        handlersOf row.actions = []) ∧
    (∀ row ∈ (Requests user s).rows, ∀ label requestId,
        Control.button label (RequestsOnClick.handleDeleteRequest requestId) ∈ row.actions →
          some row.item.from_user_id = currentUserId user ∧ row.item.status = "pending") ∧
    (∀ ev : AdminEvent, ∀ request ∈ (AdminDashboard.step a ev).1.requests,
        request ∈ a.requests) ∧
    (AdminDashboard a).requestRows.map (fun row => row.item)
      = (if a.loading then [] else a.requests) ∧
    (∀ row ∈ (AdminDashboard a).requestRows,
        row.actions = [.button "Delete" (.handleDeleteRequest row.item.id)]) := by
  refine ⟨?_, ?_, AdminDashboard.step_requests_subset a, ?_, ?_⟩
  · intro row hrow hp
    rcases (Requests.mem_rows user s row).1 hrow with hr | hr
    · obtain ⟨_, request, _, rfl⟩ := (Requests.mem_received user s _).1 hr
      have hp2 : request.status ≠ "pending" := hp
      by_cases ha : request.status = "accepted" <;>
        simp [Requests.receivedActions, hp2, ha, handlersOf]
    · obtain ⟨_, request, _, rfl⟩ := (Requests.mem_sent user s _).1 hr
      have hp2 : request.status ≠ "pending" := hp
      by_cases ha : request.status = "accepted" <;>
        simp [Requests.sentActions, hp2, ha, handlersOf]
  · intro row hrow label requestId hc
    rcases (Requests.mem_rows user s row).1 hrow with hr | hr
    · obtain ⟨_, request, _, rfl⟩ := (Requests.mem_received user s _).1 hr
      exact absurd hc (Requests.delete_not_mem_receivedActions _ _ _)
    · obtain ⟨_, request, hreq, rfl⟩ := (Requests.mem_sent user s _).1 hr
      exact ⟨((Requests.mem_sentRequests user s.requests _).1 hreq).2,
        ((Requests.delete_mem_sentActions _ _ _).1 hc).1⟩
  · unfold AdminDashboard
    cases hl : a.loading <;> simp [AdminView.requestRows, Function.comp_def]
  · intro row hrow
    obtain ⟨_, request, _, rfl⟩ := (AdminDashboard.mem_requestRows a row).1 hrow
    rfl

/-! ## Requests view: splitting the fetched list -/

theorem filter_append_perm_of_disjoint {α : Type} (p q : α → Bool) (l : List α)
    (h : ∀ x ∈ l, ¬ (p x = true ∧ q x = true)) :
    (l.filter p ++ l.filter q).Perm (l.filter (fun x => p x || q x)) := by
  induction l with
  | nil => simp
  | cons x l ih =>
    have ih2 := ih (fun y hy => h y (List.mem_cons_of_mem _ hy))
    have hx := h x (List.mem_cons_self _ _)
    cases hp : p x <;> cases hq : q x
    · simpa [List.filter_cons, hp, hq] using ih2
    · simp only [List.filter_cons, hp, hq, Bool.or_true, if_true, Bool.false_eq_true, if_false]
      exact List.perm_middle.trans (ih2.cons x)
    · simp only [List.filter_cons, hp, hq, Bool.or_false, if_true, Bool.false_eq_true, if_false,
        List.cons_append]
      exact ih2.cons x
    · exact absurd ⟨hp, hq⟩ hx

/-- C8: `listRequests` shows all and only the requests involving the acting
user.  After a successful fetch the state holds the fetched list and the tables
are rendered from it: the Sent table lists `sentRequests`, the Received table
`receivedRequests`; a request is in `sentRequests` iff it was fetched and its
`from_user_id` is the user's id, in `receivedRequests` iff it was fetched and its
`to_user_id` is the user's id; each sublist keeps the fetched order; and when
requester and recipient differ on every fetched request, no request is in both
sublists and together they hold exactly the fetched requests that have the user
as requester or recipient, each as often as it was fetched. -/
theorem C8_requests_split_by_role (user : Option User) (s : RequestsState)
    (data : RequestsData) :
    (Requests.fetchRequests s (.ok data)).1.requests = data.requests ∧
    (Requests user (Requests.fetchRequests s (.ok data)).1).sent.map (fun row => row.item)
      = Requests.sentRequests user data.requests ∧
    (Requests user (Requests.fetchRequests s (.ok data)).1).received.map (fun row => row.item)
      = Requests.receivedRequests user data.requests ∧
    (∀ request, request ∈ Requests.sentRequests user data.requests
      ↔ request ∈ data.requests ∧ some request.from_user_id = currentUserId user) ∧
    (∀ request, request ∈ Requests.receivedRequests user data.requests
      ↔ request ∈ data.requests ∧ some request.to_user_id = currentUserId user) ∧
    (Requests.sentRequests user data.requests).Sublist data.requests ∧
    (Requests.receivedRequests user data.requests).Sublist data.requests ∧
    ((∀ request ∈ data.requests, request.from_user_id ≠ request.to_user_id) →
      (∀ request ∈ Requests.sentRequests user data.requests,
        request ∉ Requests.receivedRequests user data.requests) ∧
      (Requests.sentRequests user data.requests
          ++ Requests.receivedRequests user data.requests).Perm
        (data.requests.filter (fun request =>
          decide (some request.from_user_id = currentUserId user)
            || decide (some request.to_user_id = currentUserId user)))) := by
  refine ⟨rfl, ?_, ?_, Requests.mem_sentRequests user _, Requests.mem_receivedRequests user _,
    List.filter_sublist _, List.filter_sublist _, fun hne => ⟨?_, ?_⟩⟩
  · simp [Requests, Requests.fetchRequests, requestService.getRequests, RequestsView.sent,
      Function.comp_def]
  · simp [Requests, Requests.fetchRequests, requestService.getRequests, RequestsView.received,
      Function.comp_def]
  · intro request hs hr
    have h1 := ((Requests.mem_sentRequests user _ _).1 hs)
    have h2 := ((Requests.mem_receivedRequests user _ _).1 hr).2
    have h3 : some request.from_user_id = some request.to_user_id := h1.2.trans h2.symm
    exact hne request h1.1 (Option.some.inj h3)
  · apply filter_append_perm_of_disjoint
    intro request hmem hboth
    have h1 : some request.from_user_id = currentUserId user := by simpa using hboth.1
    have h2 : some request.to_user_id = currentUserId user := by simpa using hboth.2
    exact hne request hmem (Option.some.inj (h1.trans h2.symm))

/-- C8 at the sample list of user 1, fetched into an empty loading state: the
two sublists are disjoint and together hold all four requests. -/
theorem C8_requests_split_by_role_witness :
    (∀ request ∈ Requests.sentRequests (some (sampleUser 1 "Ann" "member" false))
        sampleRequests,
      request ∉ Requests.receivedRequests (some (sampleUser 1 "Ann" "member" false))
        sampleRequests) ∧
    ([sampleRequest 11 1 3 "pending", sampleRequest 13 1 2 "rejected",
      sampleRequest 10 2 1 "pending", sampleRequest 12 3 1 "accepted"]).Perm sampleRequests :=
  (C8_requests_split_by_role (some (sampleUser 1 "Ann" "member" false)) ⟨[], true, ""⟩
    ⟨sampleRequests⟩).2.2.2.2.2.2.2 (by decide)

/-! ## Admin dashboard: banning -/

theorem AdminDashboard.ban_mem_handlers (s : AdminState) (userId : JsId) (isBanned : Bool)
    (h : AdminOnClick.handleBanUser userId isBanned ∈ (AdminDashboard s).handlers) :
    ∃ user ∈ s.users, user.role ≠ "admin" ∧ user.id = userId := by
  unfold AdminView.handlers at h
  rcases List.mem_append.1 h with h1 | h1
  · obtain ⟨hs, hrow, hmem⟩ := List.mem_flatten.1 h1
    obtain ⟨row, hrow2, rfl⟩ := List.mem_map.1 hrow
    obtain ⟨_, user, hu, rfl⟩ := (AdminDashboard.mem_userRows s row).1 hrow2
    by_cases hr : user.role = "admin"
    · simp [AdminDashboard.userActions, hr, handlersOf] at hmem
    · have hb : userId = user.id ∧ isBanned = !user.is_banned := by
        simpa [AdminDashboard.userActions, hr, handlersOf] using hmem
      exact ⟨user, hu, hr, hb.1.symm⟩
  · obtain ⟨hs, hrow, hmem⟩ := List.mem_flatten.1 h1
    obtain ⟨row, hrow2, rfl⟩ := List.mem_map.1 hrow
    obtain ⟨_, request, _, rfl⟩ := (AdminDashboard.mem_requestRows s row).1 hrow2
    simp [AdminDashboard.requestActions, handlersOf] at hmem

theorem setBanFlag_keys (users : List User) (userId : JsId) (isBanned : Bool) :
    (setBanFlag users userId isBanned).map (fun user => (user.id, user.role))
      = users.map (fun user => (user.id, user.role)) := by
  unfold setBanFlag
  rw [List.map_map]
  apply List.map_congr_left
  intro user _
  by_cases h : user.id = userId <;> simp [h]

theorem setBanFlag_keeps_admin (users : List User) (userId : JsId) (isBanned : Bool)
    (hids : (users.map (fun user => user.id)).Nodup)
    (hbtn : ∃ member ∈ users, member.role ≠ "admin" ∧ member.id = userId) :
    ∀ user ∈ users, user.role = "admin" → user ∈ setBanFlag users userId isBanned := by
  intro user hu hadmin
  obtain ⟨member, hm, hrole, hid⟩ := hbtn
  have hne : user.id ≠ userId := by
    intro heq
    have : user = member := List.inj_on_of_nodup_map hids hu hm (heq.trans hid.symm)
    exact hrole (this ▸ hadmin)
  exact List.mem_map.2 ⟨user, hu, by simp [hne]⟩

theorem AdminDashboard.step_users (s : AdminState) (ev : AdminEvent) :
    (AdminDashboard.step s ev).1.users = s.users ∨
      ∃ userId isBanned, ev.onClick = .handleBanUser userId isBanned ∧
        AdminOnClick.handleBanUser userId isBanned ∈ (AdminDashboard s).handlers ∧
        (AdminDashboard.step s ev).1.users = setBanFlag s.users userId isBanned := by
  unfold AdminDashboard.step
  by_cases hmem : ev.onClick ∈ (AdminDashboard s).handlers
  · rw [if_pos hmem]
    rcases ev with ⟨onClick, confirm, reply, statsReply⟩
    cases onClick with
    | handleBanUser userId isBanned =>
      cases reply with
      | error e => left; rfl
      | ok u =>
        right
        refine ⟨userId, isBanned, rfl, hmem, ?_⟩
        cases statsReply <;> rfl
    | handleDeleteRequest requestId =>
      left
      cases confirm <;> cases reply <;> cases statsReply <;> rfl
  · rw [if_neg hmem]; left; rfl

theorem AdminDashboard.step_keys (s : AdminState) (ev : AdminEvent) :
    (AdminDashboard.step s ev).1.users.map (fun user => (user.id, user.role))
      = s.users.map (fun user => (user.id, user.role)) := by
  rcases AdminDashboard.step_users s ev with h | ⟨userId, isBanned, _, _, h⟩
  · rw [h]
  · rw [h, setBanFlag_keys]

theorem ids_of_keys {l1 l2 : List User}
    (h : l1.map (fun user => (user.id, user.role)) = l2.map (fun user => (user.id, user.role))) :
    l1.map (fun user => user.id) = l2.map (fun user => user.id) := by
  have := congrArg (List.map Prod.fst) h
  simpa [List.map_map, Function.comp_def] using this

theorem AdminDashboard.step_keeps_admin (s : AdminState) (ev : AdminEvent)
    (hids : (s.users.map (fun user => user.id)).Nodup) :
    ∀ user ∈ s.users, user.role = "admin" → user ∈ (AdminDashboard.step s ev).1.users := by
  intro user hu hadmin
  rcases AdminDashboard.step_users s ev with h | ⟨userId, isBanned, _, hbtn, h⟩
  · rw [h]; exact hu
  · rw [h]
    exact setBanFlag_keeps_admin s.users userId isBanned hids
      (AdminDashboard.ban_mem_handlers s userId isBanned hbtn) user hu hadmin

theorem AdminDashboard.step_calls (s : AdminState) (ev : AdminEvent) :
    ∀ call ∈ (AdminDashboard.step s ev).2, call.method = "PUT" →
      ∃ userId isBanned, ev.onClick = .handleBanUser userId isBanned ∧
        AdminOnClick.handleBanUser userId isBanned ∈ (AdminDashboard s).handlers ∧
        call = banCall userId isBanned := by
  unfold AdminDashboard.step
  by_cases hmem : ev.onClick ∈ (AdminDashboard s).handlers
  · rw [if_pos hmem]
    rcases ev with ⟨onClick, confirm, reply, statsReply⟩
    cases onClick with
    | handleBanUser userId isBanned =>
      have hcalls : ∀ call ∈ (AdminDashboard.dispatch s
          ⟨.handleBanUser userId isBanned, confirm, reply, statsReply⟩).2,
          call.method = "PUT" → call = banCall userId isBanned := by
        cases reply <;> cases statsReply <;>
          simp [AdminDashboard.dispatch, AdminDashboard.handleBanUser, statsCall]
      intro call hc hput
      exact ⟨userId, isBanned, rfl, hmem, hcalls call hc hput⟩
    | handleDeleteRequest requestId =>
      have hcalls : ∀ call ∈ (AdminDashboard.dispatch s
          ⟨.handleDeleteRequest requestId, confirm, reply, statsReply⟩).2,
          call.method ≠ "PUT" := by
        cases confirm <;> cases reply <;> cases statsReply <;>
          simp [AdminDashboard.dispatch, AdminDashboard.handleDeleteRequest, statsCall,
            adminDeleteCall]
      intro call hc hput
      exact absurd hput (hcalls call hc)
  · rw [if_neg hmem]; intro call hc; simp at hc

theorem AdminDashboard.run_invariant (events : List AdminEvent) :
    ∀ s : AdminState, (s.users.map (fun user => user.id)).Nodup →
      (AdminDashboard.run s events).1.users.map (fun user => (user.id, user.role))
        = s.users.map (fun user => (user.id, user.role)) ∧
      (∀ user ∈ s.users, user.role = "admin" → user ∈ (AdminDashboard.run s events).1.users) ∧
      (∀ userId isBanned,
        AdminOnClick.handleBanUser userId isBanned ∈ AdminDashboard.clicks s events →
          ∃ member ∈ s.users, member.role ≠ "admin" ∧ member.id = userId) ∧
      (∀ call ∈ (AdminDashboard.run s events).2, call.method = "PUT" →
        ∃ userId isBanned,
          AdminOnClick.handleBanUser userId isBanned ∈ AdminDashboard.clicks s events ∧
          call = banCall userId isBanned) := by
  induction events with
  | nil =>
    intro s _
    exact ⟨rfl, fun _ hu _ => hu, fun _ _ h => by simp [AdminDashboard.clicks] at h,
      fun _ h => by simp [AdminDashboard.run] at h⟩
  | cons ev rest ih =>
    intro s hids
    have hk1 := AdminDashboard.step_keys s ev
    have hids1 : ((AdminDashboard.step s ev).1.users.map (fun user => user.id)).Nodup := by
      rw [ids_of_keys hk1]; exact hids
    obtain ⟨ihk, iha, ihc, ihp⟩ := ih (AdminDashboard.step s ev).1 hids1
    refine ⟨ihk.trans hk1, ?_, ?_, ?_⟩
    · intro user hu hadmin
      exact iha user (AdminDashboard.step_keeps_admin s ev hids user hu hadmin) hadmin
    · intro userId isBanned hc
      simp only [AdminDashboard.clicks, List.mem_append] at hc
      rcases hc with hc | hc
      · by_cases hmem : ev.onClick ∈ (AdminDashboard s).handlers
        · rw [if_pos hmem, List.mem_singleton] at hc
          exact AdminDashboard.ban_mem_handlers s userId isBanned (hc ▸ hmem)
        · rw [if_neg hmem] at hc; simp at hc
      · obtain ⟨member1, hm1, hrole1, hid1⟩ := ihc userId isBanned hc
        have hkey : (member1.id, member1.role)
            ∈ s.users.map (fun user => (user.id, user.role)) := by
          rw [← hk1]; exact List.mem_map.2 ⟨member1, hm1, rfl⟩
        obtain ⟨member, hm, hkeq⟩ := List.mem_map.1 hkey
        have h1 : member.id = member1.id := congrArg Prod.fst hkeq
        have h2 : member.role = member1.role := congrArg Prod.snd hkeq
        exact ⟨member, hm, h2 ▸ hrole1, h1.trans hid1⟩
    · intro call hc hput
      simp only [AdminDashboard.run, List.mem_append] at hc
      rcases hc with hc | hc
      · obtain ⟨userId, isBanned, hev, hmem, hcall⟩ := AdminDashboard.step_calls s ev call hc hput
        refine ⟨userId, isBanned, ?_, hcall⟩
        simp only [AdminDashboard.clicks, List.mem_append]
        left
        rw [if_pos (hev ▸ hmem), hev]
        exact List.mem_singleton.2 rfl
      · obtain ⟨userId, isBanned, hclick, hcall⟩ := ihp call hc hput
        refine ⟨userId, isBanned, ?_, hcall⟩
        simp only [AdminDashboard.clicks, List.mem_append]
        exact Or.inr hclick

theorem banCall_url_inj (userId other : JsId) (isBanned : Bool)
    (h : (banCall userId isBanned).url = "/admin/users/" ++ other.toString ++ "/ban") :
    userId.toString = other.toString := by
  have hdata := congrArg String.data h
  simp only [banCall, String.data_append] at hdata
  exact String.ext (List.append_cancel_left (List.append_cancel_right hdata))

/-- C9, as stated, fails: in a users list where a member has the id of an
admin, the member's row carries a Ban button, and clicking it issues
`PUT /admin/users/2/ban`, the ban call of the admin's id, and sets the local
`is_banned` flag of the admin as well.  When the admin's id is the text `2` and
the member's the number 2, the flag of the admin stays, but the call the
member's button issues is still the one for the admin's id. -/
theorem C9_shared_id_counterexample :
    AdminOnClick.handleBanUser (.num 2) true ∈
      (AdminDashboard { sampleAdminState with
        users := [sampleUser 2 "Root" "admin" false, sampleUser 2 "Bob" "member" false] }).handlers ∧
    (AdminDashboard.run
        { sampleAdminState with
          users := [sampleUser 2 "Root" "admin" false, sampleUser 2 "Bob" "member" false] }
        [⟨.handleBanUser (.num 2) true, false, .ok (), .ok sampleStats⟩]).1.users
      = [sampleUser 2 "Root" "admin" true, sampleUser 2 "Bob" "member" true] ∧
    (AdminDashboard.run
        { sampleAdminState with
          users := [sampleUser 2 "Root" "admin" false, sampleUser 2 "Bob" "member" false] }
        [⟨.handleBanUser (.num 2) true, false, .ok (), .ok sampleStats⟩]).2
      = [⟨"PUT", "/admin/users/2/ban", [("is_banned", .bool true)]⟩, ⟨"GET", "/admin/stats", []⟩] ∧
    (AdminDashboard.run
        { sampleAdminState with
          users := [{ sampleUser 1 "Root" "admin" false with id := .str "2" },
            sampleUser 2 "Bob" "member" false] }
        [⟨.handleBanUser (.num 2) true, false, .ok (), .ok sampleStats⟩]).2
      = [banCall (.str "2") true, statsCall] :=
  ⟨by decide, by decide, by decide, by decide⟩

/-- C9, amended: an admin cannot be banned from the dashboard when no two
users of the list have the same id text.  The Ban/Unban button is rendered only
on rows of users whose role is not `'admin'`, and it calls `handleBanUser` with
that row's own id.  Hence, for every users list whose ids are pairwise distinct
as they are written into a path, and every sequence of dashboard actions: no
`handleBanUser` call is made for the id of a user with role `'admin'`, no request
issued is a PUT to `/admin/users/<id>/ban` with the id of such a user, every PUT
the dashboard issues is the ban call of a `handleBanUser` call that was made,
and each admin's record is in the final list exactly as it was (in particular
with its `is_banned` flag), being the only record there with its id. -/
theorem C9_admin_never_banned (s : AdminState) (events : List AdminEvent)
    (htexts : (s.users.map (fun user => user.id.toString)).Nodup) :
    (∀ row ∈ (AdminDashboard s).userRows, ∀ label userId isBanned,
        Control.button label (AdminOnClick.handleBanUser userId isBanned) ∈ row.actions →
          row.item.role ≠ "admin" ∧ userId = row.item.id) ∧
    (∀ user ∈ s.users, user.role = "admin" →
        (∀ isBanned,
          AdminOnClick.handleBanUser user.id isBanned ∉ AdminDashboard.clicks s events) ∧
        (∀ call ∈ (AdminDashboard.run s events).2,
          ¬ (call.method = "PUT" ∧
            call.url = "/admin/users/" ++ user.id.toString ++ "/ban")) ∧
        user ∈ (AdminDashboard.run s events).1.users ∧
        (∀ other ∈ (AdminDashboard.run s events).1.users, other.id = user.id → other = user)) ∧
    (∀ call ∈ (AdminDashboard.run s events).2, call.method = "PUT" →
        ∃ userId isBanned,
          AdminOnClick.handleBanUser userId isBanned ∈ AdminDashboard.clicks s events ∧
          call = banCall userId isBanned) := by
  have hids : (s.users.map (fun user => user.id)).Nodup := by
    have hmap : s.users.map (fun user => user.id.toString)
        = (s.users.map (fun user => user.id)).map JsId.toString := by
      rw [List.map_map]; rfl
    rw [hmap] at htexts
    exact List.Nodup.of_map _ htexts
  obtain ⟨hk, ha, hc, hp⟩ := AdminDashboard.run_invariant events s hids
  refine ⟨?_, ?_, hp⟩
  · intro row hrow label userId isBanned hbtn
    obtain ⟨_, user, _, rfl⟩ := (AdminDashboard.mem_userRows s row).1 hrow
    by_cases hr : user.role = "admin"
    · simp [AdminDashboard.userActions, hr] at hbtn
    · have hb : (label = if user.is_banned then "Unban" else "Ban") ∧ userId = user.id ∧
          isBanned = !user.is_banned := by
        simpa [AdminDashboard.userActions, hr] using hbtn
      exact ⟨hr, hb.2.1⟩
  · intro user hu hadmin
    refine ⟨?_, ?_, ha user hu hadmin, ?_⟩
    · intro isBanned hclick
      obtain ⟨member, hm, hrole, hid⟩ := hc user.id isBanned hclick
      have : member = user := List.inj_on_of_nodup_map hids hm hu hid
      exact hrole (this ▸ hadmin)
    · rintro call hcall ⟨hput, hurl⟩
      obtain ⟨userId, isBanned, hclick, hban⟩ := hp call hcall hput
      obtain ⟨member, hm, hrole, hid⟩ := hc userId isBanned hclick
      rw [hban] at hurl
      have htext : member.id.toString = user.id.toString := by
        rw [hid]; exact banCall_url_inj userId user.id isBanned hurl
      have : member = user := List.inj_on_of_nodup_map htexts hm hu htext
      exact hrole (this ▸ hadmin)
    · intro other ho hid
      have hids2 : ((AdminDashboard.run s events).1.users.map (fun user => user.id)).Nodup := by
        rw [ids_of_keys hk]; exact hids
      exact List.inj_on_of_nodup_map hids2 ho (ha user hu hadmin) hid

/-- C9 amended, at the sample dashboard, whose three ids have different texts:
after banning Bob, a click aimed at the admin (for which no button exists), and
unbanning Cy, the admin's record is unchanged and still in the list. -/
theorem C9_admin_never_banned_witness :
    (sampleAdminState.users.map (fun user => user.id.toString)).Nodup ∧
    sampleUser 1 "Root" "admin" false ∈
      (AdminDashboard.run sampleAdminState
        [⟨.handleBanUser (.num 2) true, false, .ok (), .ok sampleStats⟩,
         ⟨.handleBanUser (.num 1) true, false, .ok (), .ok sampleStats⟩,
         ⟨.handleBanUser (.num 3) false, false, .ok (), .error ⟨none, "Network Error"⟩⟩]).1.users :=
  ⟨by decide,
    ((C9_admin_never_banned sampleAdminState
      [⟨.handleBanUser (.num 2) true, false, .ok (), .ok sampleStats⟩,
       ⟨.handleBanUser (.num 1) true, false, .ok (), .ok sampleStats⟩,
       ⟨.handleBanUser (.num 3) false, false, .ok (), .error ⟨none, "Network Error"⟩⟩]
      (by decide)).2.1 (sampleUser 1 "Root" "admin" false) (by decide) rfl).2.2.1⟩

/-- The sample run evaluated: Bob is banned, Cy unbanned, the admin untouched. -/
theorem AdminDashboard.run_sample :
    (AdminDashboard.run sampleAdminState
        [⟨.handleBanUser (.num 2) true, false, .ok (), .ok sampleStats⟩,
         ⟨.handleBanUser (.num 1) true, false, .ok (), .ok sampleStats⟩,
         ⟨.handleBanUser (.num 3) false, false, .ok (), .error ⟨none, "Network Error"⟩⟩]).1.users
      = [sampleUser 1 "Root" "admin" false, sampleUser 2 "Bob" "member" true,
        sampleUser 3 "Cy" "member" false] := by
  decide

/-! ## Routing: the role check -/

/-- C10: the role check of `ProtectedRoute` is a single equality test.  For
every loading flag, user and `adminOnly`, the children are rendered iff loading
is false, the user is non-null and (`adminOnly` is false or the role equals
`'admin'`); otherwise the result is the loading placeholder when loading, else
a redirect to `/login` when there is no user, else (admin-only route, role other
than `'admin'`) a redirect to `/`.  The `/admin` route is the one declared with
`adminOnly`. -/
theorem C10_protected_route_role_check {α : Type} (auth : AuthContext) (adminOnly : Bool)
    (children : α) :
    (ProtectedRoute auth adminOnly children = .render children ↔
      auth.loading = false ∧
        ∃ user, auth.user = some user ∧ (adminOnly = false ∨ user.role = "admin")) ∧
    (auth.loading = true → ProtectedRoute auth adminOnly children = .loadingPlaceholder) ∧
    (auth.loading = false → auth.user = none →
      ProtectedRoute auth adminOnly children = .navigate "/login") ∧
    (∀ user, auth.loading = false → auth.user = some user → adminOnly = true →
      user.role ≠ "admin" → ProtectedRoute auth adminOnly children = .navigate "/") ∧
    (AppContent auth).lookup "/admin" = some (ProtectedRoute auth true Page.AdminDashboard) := by
  rcases auth with ⟨user, loading⟩
  refine ⟨?_, ?_, ?_, ?_, ?_⟩
  · cases loading <;> cases user <;> cases adminOnly <;> simp [ProtectedRoute]
  · intro h; simp only at h; simp [ProtectedRoute, h]
  · intro h1 h2; simp only at h1 h2; simp [ProtectedRoute, h1, h2]
  · intro u h1 h2 h3 h4; simp only at h1 h2; simp [ProtectedRoute, h1, h2, h3, h4]
  · rfl

/-! ## Routing: which routes need an identity -/

/-- C11: every component other than the public landing and login/registration
requires a non-null identity.  For every route declared in `AppContent` other
than `/`, `/login` and `/register`: once loading has finished and no user is
authenticated the route renders a redirect to `/login`, and without a user it
never renders a page component, loading or not.  And `/login` and `/register`
render a redirect to `/` whenever a user is authenticated. -/
theorem C11_routes_require_identity (auth : AuthContext) :
    (auth.loading = false → auth.user = none →
      ∀ path element, (path, element) ∈ AppContent auth →
        path ≠ "/" → path ≠ "/login" → path ≠ "/register" →
          element = .navigate "/login") ∧
    (auth.user = none →
      ∀ path element, (path, element) ∈ AppContent auth →
        path ≠ "/" → path ≠ "/login" → path ≠ "/register" →
          ∀ page, element ≠ .render page) ∧
    (∀ user, auth.user = some user →
      (AppContent auth).lookup "/login" = some (.navigate "/") ∧
      (AppContent auth).lookup "/register" = some (.navigate "/")) ∧
    (AppContent auth).map (fun route => route.1)
      = ["/", "/login", "/register", "/profile", "/requests", "/chats", "/chat/:requestId",
          "/admin", "/users"] := by
  rcases auth with ⟨user, loading⟩
  refine ⟨?_, ?_, ?_, rfl⟩
  · intro hl hu path element hmem h1 h2 h3
    simp only at hl hu
    subst hl hu
    simp only [AppContent, List.mem_cons, Prod.mk.injEq, List.mem_singleton,
      List.not_mem_nil, or_false] at hmem
    rcases hmem with h | h | h | h | h | h | h | h | h
    · exact absurd h.1 h1
    · exact absurd h.1 h2
    · exact absurd h.1 h3
    all_goals (rw [h.2]; rfl)
  · intro hu path element hmem h1 h2 h3 page
    simp only at hu
    subst hu
    simp only [AppContent, List.mem_cons, Prod.mk.injEq, List.mem_singleton,
      List.not_mem_nil, or_false] at hmem
    rcases hmem with h | h | h | h | h | h | h | h | h
    · exact absurd h.1 h1
    · exact absurd h.1 h2
    · exact absurd h.1 h3
    all_goals (rw [h.2]; cases loading <;> simp [ProtectedRoute])
  · intro u hu
    simp only at hu
    subst hu
    exact ⟨rfl, rfl⟩

/-- C11 with nobody signed in and loading finished: the element of the requests
route is the redirect to `/login`. -/
theorem C11_routes_require_identity_witness :
    ProtectedRoute ⟨none, false⟩ false Page.Requests = .navigate "/login" :=
  (C11_routes_require_identity ⟨none, false⟩).1 rfl rfl "/requests"
    (ProtectedRoute ⟨none, false⟩ false Page.Requests)
    (by decide) (by decide) (by decide) (by decide)

/-! ## Form pages: password checks -/

theorem Profile.handlePasswordChange_mismatch (user : User) (s : ProfileState)
    (reply : Except AxiosError Unit)
    (hm : s.passwordData.newPassword ≠ s.passwordData.confirmPassword) :
    Profile.handlePasswordChange user s reply
      = ({ s with message := "New passwords do not match!", changingPassword := false }, []) := by
  unfold Profile.handlePasswordChange
  rw [if_pos hm]

theorem Profile.handlePasswordChange_short (user : User) (s : ProfileState)
    (reply : Except AxiosError Unit)
    (hm : s.passwordData.newPassword = s.passwordData.confirmPassword)
    (hl : jsLength s.passwordData.newPassword < 6) :
    Profile.handlePasswordChange user s reply
      = ({ s with message := "New password must be at least 6 characters long!",
                  changingPassword := false }, []) := by
  unfold Profile.handlePasswordChange
  rw [if_neg (not_not.2 hm), if_pos hl]

theorem Profile.handlePasswordChange_call (user : User) (s : ProfileState)
    (reply : Except AxiosError Unit)
    (hm : s.passwordData.newPassword = s.passwordData.confirmPassword)
    (hl : 6 ≤ jsLength s.passwordData.newPassword) :
    (Profile.handlePasswordChange user s reply).2
      = [⟨"PUT", "/users/" ++ user.id.toString ++ "/password",
          [("currentPassword", .str s.passwordData.currentPassword),
           ("newPassword", .str s.passwordData.newPassword)]⟩] ∧
    (Profile.handlePasswordChange user s reply).1.changingPassword = false := by
  unfold Profile.handlePasswordChange
  rw [if_neg (not_not.2 hm), if_neg (by omega)]
  cases reply <;> exact ⟨rfl, rfl⟩

/-- C12: `changePassword` fails validation when the new password is shorter
than the minimum length of 6.  In `handlePasswordChange`, `userService.changePassword` is called
iff the new password equals its confirmation and its `length` is at least 6, and
then it is the one PUT of `/users/<id>/password` with the current and the new
password.  Otherwise no call is made and the state is the old one with a
validation message set and `changingPassword` false (so the password fields
are unchanged), the mismatch message taking priority over the length message. -/
theorem C12_change_password_validation (user : User) (s : ProfileState)
    (reply : Except AxiosError Unit) :
    ((Profile.handlePasswordChange user s reply).2 ≠ [] ↔
      s.passwordData.newPassword = s.passwordData.confirmPassword ∧
      6 ≤ jsLength s.passwordData.newPassword) ∧
    (s.passwordData.newPassword = s.passwordData.confirmPassword →
      6 ≤ jsLength s.passwordData.newPassword →
        (Profile.handlePasswordChange user s reply).2
          = [⟨"PUT", "/users/" ++ user.id.toString ++ "/password",
              [("currentPassword", .str s.passwordData.currentPassword),
               ("newPassword", .str s.passwordData.newPassword)]⟩] ∧
        (Profile.handlePasswordChange user s reply).1.changingPassword = false) ∧
    (s.passwordData.newPassword ≠ s.passwordData.confirmPassword →
      Profile.handlePasswordChange user s reply
        = ({ s with message := "New passwords do not match!", changingPassword := false }, [])) ∧
    (s.passwordData.newPassword = s.passwordData.confirmPassword →
      jsLength s.passwordData.newPassword < 6 →
        Profile.handlePasswordChange user s reply
          = ({ s with message := "New password must be at least 6 characters long!",
                      changingPassword := false }, [])) := by
  refine ⟨⟨?_, ?_⟩, Profile.handlePasswordChange_call user s reply,
    Profile.handlePasswordChange_mismatch user s reply,
    Profile.handlePasswordChange_short user s reply⟩
  · intro hcalls
    by_cases hm : s.passwordData.newPassword = s.passwordData.confirmPassword
    · by_cases hl : jsLength s.passwordData.newPassword < 6
      · rw [Profile.handlePasswordChange_short user s reply hm hl] at hcalls
        exact absurd rfl hcalls
      · exact ⟨hm, by omega⟩
    · rw [Profile.handlePasswordChange_mismatch user s reply hm] at hcalls
      exact absurd rfl hcalls
  · rintro ⟨hm, hl⟩
    rw [(Profile.handlePasswordChange_call user s reply hm hl).1]
    exact List.cons_ne_nil _ _

/-- C12 at a five-character new password that matches its confirmation: no
call, the length message, fields kept. -/
theorem C12_change_password_validation_witness :
    Profile.handlePasswordChange (sampleUser 1 "Ann" "member" false)
        (sampleProfile ⟨"old-secret", "abcde", "abcde"⟩) (.ok ())
      = ({ sampleProfile ⟨"old-secret", "abcde", "abcde"⟩ with
            message := "New password must be at least 6 characters long!",
            changingPassword := false }, []) :=
  (C12_change_password_validation (sampleUser 1 "Ann" "member" false)
    (sampleProfile ⟨"old-secret", "abcde", "abcde"⟩) (.ok ())).2.2.2 rfl (by decide)

theorem Register.handleSubmit_mismatch (s : RegisterState) (reply : Except JsError Unit)
    (hm : s.formData.password ≠ s.formData.confirmPassword) :
    Register.handleSubmit s reply
      = ({ s with error := "Passwords do not match", loading := false }, []) := by
  unfold Register.handleSubmit
  rw [if_pos hm]

theorem Register.handleSubmit_short (s : RegisterState) (reply : Except JsError Unit)
    (hm : s.formData.password = s.formData.confirmPassword)
    (hl : jsLength s.formData.password < 6) :
    Register.handleSubmit s reply
      = ({ s with error := "Password must be at least 6 characters long",
                  loading := false }, []) := by
  unfold Register.handleSubmit
  rw [if_neg (not_not.2 hm), if_pos hl]

theorem Register.handleSubmit_call (s : RegisterState) (reply : Except JsError Unit)
    (hm : s.formData.password = s.formData.confirmPassword)
    (hl : 6 ≤ jsLength s.formData.password) :
    (Register.handleSubmit s reply).2
      = .register ⟨s.formData.name, s.formData.email, s.formData.password⟩ ::
          (match reply with
           | .ok _ => [.navigate "/"]
           | .error _ => []) ∧
    (Register.handleSubmit s reply).1.loading = false := by
  unfold Register.handleSubmit
  rw [if_neg (not_not.2 hm), if_neg (by omega)]
  cases reply <;> exact ⟨rfl, rfl⟩

/-- C13: registration requires a password of `length` at least 6 that matches
its confirmation.  In `handleSubmit`, `register` is called iff the password
equals the confirmation and its `length` is at least 6, and then exactly once,
first, with name, email and password, followed by the navigation to `/` when
it succeeds.  Otherwise `register` is not called, nothing is navigated to, and
the state is the old one with the error message set and `loading` false, the
mismatch message taking priority over the length message. -/
theorem C13_register_password_validation (s : RegisterState) (reply : Except JsError Unit) :
    ((∃ payload, RegisterEffect.register payload ∈ (Register.handleSubmit s reply).2) ↔
      s.formData.password = s.formData.confirmPassword ∧ 6 ≤ jsLength s.formData.password) ∧
    (s.formData.password = s.formData.confirmPassword → 6 ≤ jsLength s.formData.password →
      (Register.handleSubmit s reply).2
        = .register ⟨s.formData.name, s.formData.email, s.formData.password⟩ ::
            (match reply with
             | .ok _ => [.navigate "/"]
             | .error _ => []) ∧
      (Register.handleSubmit s reply).1.loading = false) ∧
    (s.formData.password ≠ s.formData.confirmPassword →
      Register.handleSubmit s reply
        = ({ s with error := "Passwords do not match", loading := false }, [])) ∧
    (s.formData.password = s.formData.confirmPassword → jsLength s.formData.password < 6 →
      Register.handleSubmit s reply
        = ({ s with error := "Password must be at least 6 characters long",
                    loading := false }, [])) := by
  refine ⟨⟨?_, ?_⟩, Register.handleSubmit_call s reply, Register.handleSubmit_mismatch s reply,
    Register.handleSubmit_short s reply⟩
  · rintro ⟨payload, hmem⟩
    by_cases hm : s.formData.password = s.formData.confirmPassword
    · by_cases hl : jsLength s.formData.password < 6
      · rw [Register.handleSubmit_short s reply hm hl] at hmem
        exact absurd hmem (List.not_mem_nil _)
      · exact ⟨hm, by omega⟩
    · rw [Register.handleSubmit_mismatch s reply hm] at hmem
      exact absurd hmem (List.not_mem_nil _)
  · rintro ⟨hm, hl⟩
    refine ⟨⟨s.formData.name, s.formData.email, s.formData.password⟩, ?_⟩
    rw [(Register.handleSubmit_call s reply hm hl).1]
    exact List.mem_cons_self _ _

/-- C13 at mismatching passwords that are also too short: the mismatch message wins, no call. -/
theorem C13_register_password_validation_witness :
    Register.handleSubmit (sampleRegister "abc" "abd" "" "") (.ok ())
      = ({ sampleRegister "abc" "abd" "" "" with
            error := "Passwords do not match", loading := false }, []) :=
  (C13_register_password_validation (sampleRegister "abc" "abd" "" "") (.ok ())).2.2.1
    (by decide)

/-! ## The REST boundary -/

theorem ClientCall.url_eq_service (requestId roomId userId : JsId) (status text : String)
    (isBanned : Bool) (fields : List (String × Field))
    (r1 : Except AxiosError ChatData) (r2 : Except AxiosError MessagesData)
    (r3 : Except AxiosError SendMessageData) (r4 : Except AxiosError RequestsData)
    (r5 : Except AxiosError Unit) (r6 : Except AxiosError RequestData) :
    (chatService.getChatRoom requestId r1).1
      = ⟨(ClientCall.getChatRoom requestId).method, (ClientCall.getChatRoom requestId).url, []⟩ ∧
    (chatService.getMessages roomId r2).1
      = ⟨(ClientCall.getMessages roomId).method, (ClientCall.getMessages roomId).url, []⟩ ∧
    (chatService.sendMessage roomId text r3).1
      = ⟨(ClientCall.sendMessage roomId).method, (ClientCall.sendMessage roomId).url,
          [("text", .str text)]⟩ ∧
    (requestService.getRequests r4).1
      = ⟨ClientCall.getRequests.method, ClientCall.getRequests.url, []⟩ ∧
    (requestService.createRequest fields r5).1
      = ⟨ClientCall.createRequest.method, ClientCall.createRequest.url, fields⟩ ∧
    (requestService.updateRequest requestId status r5).1
      = ⟨(ClientCall.updateRequest requestId).method, (ClientCall.updateRequest requestId).url,
          [("status", .str status)]⟩ ∧
    (requestService.deleteRequest requestId r5).1
      = ⟨(ClientCall.deleteRequest requestId).method, (ClientCall.deleteRequest requestId).url,
          []⟩ ∧
    (requestService.getRequest requestId r6).1
      = ⟨(ClientCall.getRequest requestId).method, (ClientCall.getRequest requestId).url, []⟩ ∧
    (userService.changePassword userId fields r5).1
      = ⟨(ClientCall.changePassword userId).method, (ClientCall.changePassword userId).url,
          fields⟩ ∧
    banCall userId isBanned
      = ⟨(ClientCall.adminBan userId).method, (ClientCall.adminBan userId).url,
          [("is_banned", .bool isBanned)]⟩ ∧
    statsCall = ⟨ClientCall.adminStats.method, ClientCall.adminStats.url, []⟩ ∧
    adminDeleteCall requestId
      = ⟨(ClientCall.adminDeleteRequest requestId).method,
          (ClientCall.adminDeleteRequest requestId).url, []⟩ := by
  have hjoin2 : ∀ a x : String, String.join ["/" ++ a, "/" ++ x] = "/" ++ a ++ "/" ++ x := by
    intro a x; apply String.ext; simp [String.join]
  have hjoin3 : ∀ a b x : String,
      String.join ["/" ++ a, "/" ++ b, "/" ++ x] = "/" ++ a ++ "/" ++ b ++ "/" ++ x := by
    intro a b x; apply String.ext; simp [String.join]
  have hjoin4 : ∀ a b x c : String,
      String.join ["/" ++ a, "/" ++ b, "/" ++ x, "/" ++ c]
        = "/" ++ a ++ "/" ++ b ++ "/" ++ x ++ "/" ++ c := by
    intro a b x c; apply String.ext; simp [String.join]
  refine ⟨?_, ?_, ?_, ?_, ?_, ?_, ?_, ?_, ?_, ?_, ?_, ?_⟩ <;>
    simp only [chatService.getChatRoom, chatService.getMessages, chatService.sendMessage,
      requestService.getRequests, requestService.createRequest, requestService.updateRequest,
      requestService.deleteRequest, requestService.getRequest, userService.changePassword,
      banCall, statsCall, adminDeleteCall, ClientCall.method, ClientCall.url,
      ClientCall.segments, List.map, hjoin2, hjoin3, hjoin4] <;>
    first
    | rfl
    | (congr 1; apply String.ext; simp [String.join])

/-- C14, evaluated: the axios call sites carry `Authorization` as claimed (none
without a stored token, `Bearer <token>` with one), but every direct `fetch`
call site, the one of ChatList among them, sends the header built from the missing
token, `Bearer null`, when nothing is stored. -/
theorem C14_fetch_builds_header_from_missing_token :
    (∀ call : ClientCall, call.transport = .axios →
      call.authorization none = none ∧
      ∀ token, token ≠ "" → call.authorization (some token) = some ("Bearer " ++ token)) ∧
    (∀ call : ClientCall, call.transport = .fetch →
      call.authorization none = some "Bearer null" ∧
      ∀ token, call.authorization (some token) = some ("Bearer " ++ token)) ∧
    (ClientCall.chatListUserChats (.num 1)).transport = .fetch ∧
    (ClientCall.chatListUserChats (.num 1)).authorization none = some "Bearer null" ∧
    (ClientCall.getChatRoom (.num 1)).authorization none = none := by
  refine ⟨?_, ?_, rfl, by decide, by decide⟩
  · intro call h
    refine ⟨?_, fun token htoken => ?_⟩
    · simp [ClientCall.authorization, h, bearerInterceptor]
    · simp [ClientCall.authorization, h, bearerInterceptor, htoken]
  · intro call h
    refine ⟨?_, fun token => ?_⟩
    · simp only [ClientCall.authorization, h, fetchAuthorization]; decide
    · simp [ClientCall.authorization, h, fetchAuthorization]

/-- C15, as stated, fails: when the POST of a message is rejected with the
server text `Room closed`, the service throws an error with exactly that
message, but the Chat view stores `Failed to send message: Room closed`; and a
rejected fetch of the requests is stored with the prefix `Failed to load
requests: `. -/
theorem C15_stored_error_has_prefix_counterexample :
    (chatService.sendMessage (.num 7) "Hi!" (.error ⟨some "Room closed", "Request failed"⟩)).2
      = .error ⟨"Room closed"⟩ ∧
    (Chat.sendMessage (sampleChat "Hi!") (.error ⟨some "Room closed", "Request failed"⟩)).1.error
      = some "Failed to send message: Room closed" ∧
    (requestService.getRequests (.error ⟨some "Token expired", "Request failed"⟩)).2
      = .error ⟨"Token expired"⟩ ∧
    (Requests.fetchRequests sampleRequestsState
        (.error ⟨some "Token expired", "Request failed"⟩)).1.message
      = "Failed to load requests: Token expired" :=
  ⟨by decide, by decide, by decide, by decide⟩

/-- C15, amended: the views store the message of a service failure verbatim,
behind a fixed prefix naming the operation for all but the loading of the chat
room.  For every rejection, with `m` the message of the error the service
throws: a failed `getChatRoom` stores exactly `m`; a failed `sendMessage` (when
the handler made the call) stores `Failed to send message: ` followed by `m`;
a failed `getRequests` stores `Failed to load requests: ` followed by `m`; a
failed `updateRequest` stores `Failed to update request: ` followed by `m`; and
a failed `deleteRequest` (after confirmation) stores `Failed to delete
request: ` followed by `m`. -/
theorem C15_error_text_stored (chat : ChatState) (requests : RequestsState)
    (requestId : JsId) (status : String) (error : AxiosError)
    (refresh : Except AxiosError RequestsData) :
    (∃ m, (chatService.getChatRoom requestId (.error error)).2 = .error ⟨m⟩ ∧
      (Chat.fetchChatData chat requestId (.error error)).1.error = some m) ∧
    (∀ roomId, chat.roomId = some roomId → roomId.truthy = true → jsTrim chat.newMessage ≠ "" →
      ∃ m, (chatService.sendMessage roomId (jsTrim chat.newMessage) (.error error)).2
          = .error ⟨m⟩ ∧
        (Chat.sendMessage chat (.error error)).1.error
          = some ("Failed to send message: " ++ m)) ∧
    (∃ m, (requestService.getRequests (.error error)).2 = .error ⟨m⟩ ∧
      (Requests.fetchRequests requests (.error error)).1.message
        = "Failed to load requests: " ++ m) ∧
    (∃ m, (requestService.updateRequest requestId status (.error error)).2 = .error ⟨m⟩ ∧
      (Requests.handleStatusUpdate requests requestId status (.error error) refresh).1.message
        = "Failed to update request: " ++ m) ∧
    (∃ m, (requestService.deleteRequest requestId (.error error)).2 = .error ⟨m⟩ ∧
      (Requests.handleDeleteRequest requests true requestId (.error error) refresh).1.message
        = "Failed to delete request: " ++ m) := by
  refine ⟨⟨_, rfl, rfl⟩, ?_, ⟨_, rfl, rfl⟩, ⟨_, rfl, rfl⟩, ⟨_, rfl, rfl⟩⟩
  intro roomId hroom hid htext
  refine ⟨_, rfl, ?_⟩
  simp [Chat.sendMessage, hroom, hid, htext, chatService.sendMessage, serviceError]

/-- C16: `requestService` and `chatService` conform to the documented REST
boundary.  For every id, status, text and request data, and whatever the reply,
each operation issues the one request listed for it: `getRequests` GET
`/requests`, `createRequest` POST `/requests` with the data as body,
`updateRequest` PUT `/requests/<id>` with body `status`, `deleteRequest` DELETE
`/requests/<id>`, `getRequest` GET `/requests/<id>`, `getChatRoom` GET
`/chat/room/<requestId>`, `getMessages` GET `/chat/<roomId>` and `sendMessage`
POST `/chat/<roomId>` with body `text`. -/
theorem C16_services_conform_to_rest_boundary (requestId roomId : JsId) (status text : String)
    (requestData : List (String × Field))
    (r1 : Except AxiosError RequestsData) (r2 : Except AxiosError Unit)
    (r3 : Except AxiosError RequestData) (r4 : Except AxiosError ChatData)
    (r5 : Except AxiosError MessagesData) (r6 : Except AxiosError SendMessageData) :
    (requestService.getRequests r1).1 = ⟨"GET", "/requests", []⟩ ∧
    (requestService.createRequest requestData r2).1 = ⟨"POST", "/requests", requestData⟩ ∧
    (requestService.updateRequest requestId status r2).1
      = ⟨"PUT", "/requests/" ++ requestId.toString, [("status", .str status)]⟩ ∧
    (requestService.deleteRequest requestId r2).1
      = ⟨"DELETE", "/requests/" ++ requestId.toString, []⟩ ∧
    (requestService.getRequest requestId r3).1
      = ⟨"GET", "/requests/" ++ requestId.toString, []⟩ ∧
    (chatService.getChatRoom requestId r4).1
      = ⟨"GET", "/chat/room/" ++ requestId.toString, []⟩ ∧
    (chatService.getMessages roomId r5).1 = ⟨"GET", "/chat/" ++ roomId.toString, []⟩ ∧
    (chatService.sendMessage roomId text r6).1
      = ⟨"POST", "/chat/" ++ roomId.toString, [("text", .str text)]⟩ :=
  ⟨rfl, rfl, rfl, rfl, rfl, rfl, rfl, rfl⟩

theorem splitPath_piece (piece rest : List Char) (h : ∀ c ∈ piece, c ≠ '/') :
    splitPath (piece ++ '/' :: rest) = piece :: splitPath rest := by
  induction piece with
  | nil => simp [splitPath]
  | cons c piece ih =>
    have hc : c ≠ '/' := h c (List.mem_cons_self _ _)
    have ih2 := ih (fun d hd => h d (List.mem_cons_of_mem _ hd))
    simp [splitPath, hc, ih2]

theorem splitPath_last (piece : List Char) (h : ∀ c ∈ piece, c ≠ '/') :
    splitPath piece = [piece] := by
  induction piece with
  | nil => simp [splitPath]
  | cons c piece ih =>
    have hc : c ≠ '/' := h c (List.mem_cons_self _ _)
    have ih2 := ih (fun d hd => h d (List.mem_cons_of_mem _ hd))
    simp [splitPath, hc, ih2]

theorem splitPath_joined (segments : List String) (h : ∀ s ∈ segments, ∀ c ∈ s.data, c ≠ '/') :
    ∀ piece : List Char, (∀ c ∈ piece, c ≠ '/') →
      splitPath (piece ++ (String.join (segments.map (fun segment => "/" ++ segment))).data)
        = piece :: segments.map String.data := by
  induction segments with
  | nil =>
    intro piece hp
    simpa using splitPath_last piece hp
  | cons s rest ih =>
    intro piece hp
    have ih2 := ih (fun t ht => h t (List.mem_cons_of_mem _ ht)) s.data
      (h s (List.mem_cons_self _ _))
    simp only [List.map_cons, String.data_join, List.flatten_cons, String.data_append] at ih2 ⊢
    rw [List.append_assoc, List.singleton_append, splitPath_piece piece _ hp, ih2]

theorem piecesFit_data (segments : List String) (h : ∀ s ∈ segments, s.data ≠ []) :
    ∀ pattern, piecesFit (segments.map String.data) pattern = segmentsFit segments pattern := by
  induction segments with
  | nil => intro pattern; cases pattern <;> rfl
  | cons s rest ih =>
    intro pattern
    have ih2 := ih (fun t ht => h t (List.mem_cons_of_mem _ ht))
    have hs := h s (List.mem_cons_self _ _)
    cases pattern with
    | nil => rfl
    | cons part pattern =>
      cases part with
      | lit text =>
        simp only [List.map_cons, piecesFit, segmentsFit, ih2]
        congr 1
        by_cases hst : s = text
        · simp [hst]
        · have : s.data ≠ text.data := fun hd => hst (String.ext hd)
          simp [hst, this]
      | param name =>
        simp [piecesFit, segmentsFit, ih2, hs]

theorem pathFits_joined (segments : List String) (pattern : List PathPart)
    (h : segments.all isSegment = true) :
    pathFits (String.join (segments.map (fun segment => "/" ++ segment))) pattern
      = segmentsFit segments pattern := by
  have hall : ∀ s ∈ segments, s.data ≠ [] ∧ ∀ c ∈ s.data, c ≠ '/' := by
    intro s hs
    have := List.all_eq_true.1 h s hs
    simpa [isSegment] using this
  have hsplit := splitPath_joined segments (fun s hs => (hall s hs).2) [] (by simp)
  rw [List.nil_append] at hsplit
  unfold pathFits
  rw [hsplit]
  exact piecesFit_data segments (fun s hs => (hall s hs).1) pattern

theorem digitChar_ne_slash (n : Nat) : Nat.digitChar (n % 10) ≠ '/' := by
  have h : n % 10 < 10 := Nat.mod_lt _ (by decide)
  generalize n % 10 = d at h
  interval_cases d <;> decide

theorem toDigitsCore_ne_slash (fuel : Nat) :
    ∀ (n : Nat) (ds : List Char), (∀ c ∈ ds, c ≠ '/') →
      ∀ c ∈ Nat.toDigitsCore 10 fuel n ds, c ≠ '/' := by
  induction fuel with
  | zero => intro n ds h; simpa [Nat.toDigitsCore] using h
  | succ fuel ih =>
    intro n ds h
    have hds : ∀ c ∈ Nat.digitChar (n % 10) :: ds, c ≠ '/' := by
      intro c hc
      rcases List.mem_cons.1 hc with rfl | hc
      · exact digitChar_ne_slash n
      · exact h c hc
    unfold Nat.toDigitsCore
    by_cases hz : n / 10 = 0
    · simpa [hz] using hds
    · simp only [hz, if_false]
      exact ih _ _ hds

theorem toDigitsCore_ne_nil (fuel : Nat) :
    ∀ (n : Nat) (ds : List Char), ds ≠ [] → Nat.toDigitsCore 10 fuel n ds ≠ [] := by
  induction fuel with
  | zero => intro n ds h; simpa [Nat.toDigitsCore] using h
  | succ fuel ih =>
    intro n ds h
    unfold Nat.toDigitsCore
    by_cases hz : n / 10 = 0
    · simp [hz]
    · simp only [hz, if_false]
      exact ih _ _ (by simp)

theorem isSegment_natRepr (n : Nat) : isSegment (Nat.repr n) = true := by
  have h1 : ∀ c ∈ Nat.toDigits 10 n, c ≠ '/' :=
    toDigitsCore_ne_slash _ n [] (by simp)
  have h2 : Nat.toDigits 10 n ≠ [] := by
    unfold Nat.toDigits Nat.toDigitsCore
    by_cases hz : n / 10 = 0
    · simp [hz]
    · simp only [hz, if_false]
      exact toDigitsCore_ne_nil _ _ _ (by simp)
  simp only [isSegment, Nat.repr, List.asString, Bool.and_eq_true, Bool.not_eq_true',
    List.isEmpty_eq_false, List.all_eq_true, bne_iff_ne]
  exact ⟨h2, h1⟩

theorem isSegment_intToString (n : Int) : isSegment (toString n) = true := by
  cases n with
  | ofNat m => exact isSegment_natRepr m
  | negSucc m =>
    have h := isSegment_natRepr (m + 1)
    have heq : toString (Int.negSucc m) = "-" ++ Nat.repr (m + 1) := rfl
    rw [heq]
    simp only [isSegment, String.data_append, Bool.and_eq_true, Bool.not_eq_true',
      List.all_eq_true, bne_iff_ne] at h ⊢
    refine ⟨by simp [List.isEmpty], ?_⟩
    intro c hc
    rcases List.mem_append.1 hc with hc | hc
    · have : c = '-' := by simpa using hc
      rw [this]; decide
    · exact h.2 c hc

/-- The text of a numeric id is one path segment. -/
theorem isSegment_numericId (n : Int) : isSegment (JsId.num n).toString = true :=
  isSegment_intToString n

theorem ClientCall.fits_eq (call : ClientCall) (endpoint : Endpoint)
    (hsegments : call.segments.all isSegment = true) :
    call.fits endpoint
      = (call.method == endpoint.method && segmentsFit call.segments endpoint.pattern) := by
  unfold ClientCall.fits ClientCall.url
  rw [pathFits_joined call.segments endpoint.pattern hsegments]

theorem fits_of_listed (call : ClientCall) (endpoint : Endpoint)
    (hsegments : call.segments.all isSegment = true)
    (hmem : endpoint ∈ documentedEndpoints)
    (hfit : (call.method == endpoint.method && segmentsFit call.segments endpoint.pattern) = true)
    (hne : ∀ userId, call ≠ .chatListUserChats userId) :
    (∃ endpoint ∈ documentedEndpoints, call.fits endpoint = true) ↔
      ∀ userId, call ≠ .chatListUserChats userId :=
  ⟨fun _ => hne, fun _ => ⟨endpoint, hmem, (ClientCall.fits_eq call endpoint hsegments).trans hfit⟩⟩

theorem chatListUserChats_fits_none (userId : JsId)
    (hsegments : (ClientCall.chatListUserChats userId).segments.all isSegment = true) :
    (∃ endpoint ∈ documentedEndpoints, (ClientCall.chatListUserChats userId).fits endpoint = true) ↔
      ∀ other, ClientCall.chatListUserChats userId ≠ .chatListUserChats other := by
  constructor
  · rintro ⟨endpoint, hmem, hfit⟩
    have hall : documentedEndpoints.all (fun endpoint =>
        !((ClientCall.chatListUserChats userId).method == endpoint.method &&
          segmentsFit (ClientCall.chatListUserChats userId).segments endpoint.pattern)) = true :=
      rfl
    have := List.all_eq_true.1 hall endpoint hmem
    rw [← ClientCall.fits_eq _ endpoint hsegments, hfit] at this
    exact absurd this (by decide)
  · intro h
    exact absurd rfl (h userId)

/-- Matching is decided on the request itself: `getMessages` called with the
text `user/1` as room id sends the same `GET /chat/user/1` as the conversation
list does for user 1, and like it fits no listed endpoint. -/
theorem fits_same_request_samples :
    (ClientCall.getMessages (.str "user/1")).url = (ClientCall.chatListUserChats (.num 1)).url ∧
    documentedEndpoints.all (fun endpoint =>
      !(ClientCall.getMessages (.str "user/1")).fits endpoint) = true ∧
    documentedEndpoints.all (fun endpoint =>
      !(ClientCall.getMessages (.str "")).fits endpoint) = true ∧
    (ClientCall.getMessages (.num 7)).fits ⟨"GET", [.lit "chat", .param "roomId"]⟩ = true :=
  ⟨by decide, by decide, by decide, by decide⟩

/-- C17, as stated, fails: the conversation list fetches `GET /chat/user/1`
for user 1, and no listed endpoint has that method and path. -/
theorem C17_chat_list_endpoint_counterexample :
    (ClientCall.chatListUserChats (.num 1)).method = "GET" ∧
    (ClientCall.chatListUserChats (.num 1)).url = "/chat/user/1" ∧
    documentedEndpoints.all (fun endpoint =>
      !(ClientCall.chatListUserChats (.num 1)).fits endpoint) = true :=
  ⟨by decide, by decide, by decide⟩

/-- C17, amended: every HTTP request issued by the services and views in whose
path each id stands as one segment (its text is not empty and has no slash, as
the text of every numeric id) has the method and path of a listed endpoint,
except the fetch of the conversation list, `GET /chat/user/<userId>`, which fits
none.  Whether a request fits is decided by its method and path text alone.  The
search of `userService`, `GET /users/search`, fits the list only as
`GET /users/:id` with `search` in the place of the id. -/
theorem C17_calls_fit_documented_endpoints (call : ClientCall)
    (hsegments : call.segments.all isSegment = true) :
    ((∃ endpoint ∈ documentedEndpoints, call.fits endpoint = true) ↔
      ∀ userId, call ≠ .chatListUserChats userId) ∧
    (∀ other : ClientCall, other.method = call.method → other.url = call.url →
      ∀ endpoint, other.fits endpoint = call.fits endpoint) ∧
    documentedEndpoints.filter (fun endpoint => ClientCall.searchUsers.fits endpoint)
      = [⟨"GET", [.lit "users", .param "id"]⟩] := by
  refine ⟨?_, ?_, by decide⟩
  · cases call <;> first
      | exact chatListUserChats_fits_none _ hsegments
      | exact fits_of_listed _ ⟨"GET", [.lit "users"]⟩ hsegments (by decide) rfl (fun _ h => by cases h)
      | exact fits_of_listed _ ⟨"GET", [.lit "users", .param "id"]⟩ hsegments (by decide) rfl (fun _ h => by cases h)
      | exact fits_of_listed _ ⟨"PUT", [.lit "users", .param "id"]⟩ hsegments (by decide) rfl (fun _ h => by cases h)
      | exact fits_of_listed _ ⟨"PUT", [.lit "users", .param "id", .lit "password"]⟩ hsegments (by decide) rfl (fun _ h => by cases h)
      | exact fits_of_listed _ ⟨"POST", [.lit "users", .param "id", .lit "photo"]⟩ hsegments (by decide) rfl (fun _ h => by cases h)
      | exact fits_of_listed _ ⟨"GET", [.lit "requests"]⟩ hsegments (by decide) rfl (fun _ h => by cases h)
      | exact fits_of_listed _ ⟨"POST", [.lit "requests"]⟩ hsegments (by decide) rfl (fun _ h => by cases h)
      | exact fits_of_listed _ ⟨"PUT", [.lit "requests", .param "id"]⟩ hsegments (by decide) rfl (fun _ h => by cases h)
      | exact fits_of_listed _ ⟨"DELETE", [.lit "requests", .param "id"]⟩ hsegments (by decide) rfl (fun _ h => by cases h)
      | exact fits_of_listed _ ⟨"GET", [.lit "requests", .param "id"]⟩ hsegments (by decide) rfl (fun _ h => by cases h)
      | exact fits_of_listed _ ⟨"GET", [.lit "chat", .lit "room", .param "requestId"]⟩ hsegments (by decide) rfl (fun _ h => by cases h)
      | exact fits_of_listed _ ⟨"GET", [.lit "chat", .param "roomId"]⟩ hsegments (by decide) rfl (fun _ h => by cases h)
      | exact fits_of_listed _ ⟨"POST", [.lit "chat", .param "roomId"]⟩ hsegments (by decide) rfl (fun _ h => by cases h)
      | exact fits_of_listed _ ⟨"GET", [.lit "admin", .lit "stats"]⟩ hsegments (by decide) rfl (fun _ h => by cases h)
      | exact fits_of_listed _ ⟨"GET", [.lit "admin", .lit "users"]⟩ hsegments (by decide) rfl (fun _ h => by cases h)
      | exact fits_of_listed _ ⟨"PUT", [.lit "admin", .lit "users", .param "id", .lit "ban"]⟩ hsegments (by decide) rfl (fun _ h => by cases h)
      | exact fits_of_listed _ ⟨"GET", [.lit "admin", .lit "requests"]⟩ hsegments (by decide) rfl (fun _ h => by cases h)
      | exact fits_of_listed _ ⟨"DELETE", [.lit "admin", .lit "requests", .param "id"]⟩ hsegments (by decide) rfl (fun _ h => by cases h)
  · intro other hmethod hurl endpoint
    unfold ClientCall.fits
    rw [hmethod, hurl]

/-- C17 amended, at the fetch of the messages of room 7: the id `7` is one
segment of `/chat/7`, and the request fits a listed endpoint. -/
theorem C17_calls_fit_documented_endpoints_witness :
    (ClientCall.getMessages (.num 7)).segments.all isSegment = true ∧
    ∃ endpoint ∈ documentedEndpoints, (ClientCall.getMessages (.num 7)).fits endpoint = true :=
  ⟨by decide,
    (C17_calls_fit_documented_endpoints (.getMessages (.num 7)) (by decide)).1.2
      (fun _ h => by cases h)⟩

/-! ## Chat view: loading the room -/

/-- C18: messages of a room are shown in insertion order.  After `fetchChatData`
succeeds, the message list of the Chat view is exactly the `messages` of the
`getChatRoom` response in the order returned, the empty list when the response
has none; when the response has a chat room the page is rendered with one
bubble per message, in that order, each with its message's id, text and time
stamp.  Nothing is reordered, filtered or merged, so any order the time stamps
of the response are in (strictly increasing creation time in particular) is the
order of the bubbles shown. -/
theorem C18_messages_in_response_order (user : User) (s : ChatState) (requestId : JsId)
    (data : ChatData) :
    (Chat.fetchChatData s requestId (.ok data)).1.messages = data.messages.getD [] ∧
    (data.messages = none → (Chat.fetchChatData s requestId (.ok data)).1.messages = []) ∧
    (∀ room, data.chat_room = some room →
      ∃ page, Chat user (Chat.fetchChatData s requestId (.ok data)).1 = .page page ∧
        page.bubbles = (data.messages.getD []).map (Chat.bubble user) ∧
        page.bubbles.map (fun bubble => (bubble.key, bubble.text, bubble.created_at))
          = (data.messages.getD []).map
              (fun message => (message.id, message.text, message.created_at))) ∧
    (∀ before : String → String → Prop,
      (data.messages.getD []).Pairwise
          (fun earlier later => before earlier.created_at later.created_at) →
        ((Chat.fetchChatData s requestId (.ok data)).1.messages.map (Chat.bubble user)).Pairwise
          (fun earlier later => before earlier.created_at later.created_at)) := by
  have hm : (Chat.fetchChatData s requestId (.ok data)).1.messages = data.messages.getD [] := rfl
  refine ⟨hm, ?_, ?_, ?_⟩
  · intro hnone
    rw [hm, hnone]; rfl
  · intro room hroom
    refine ⟨⟨(data.messages.getD []).map (Chat.bubble user), s.newMessage, s.sending,
      s.sending || decide (jsTrim s.newMessage = "")⟩, ?_, rfl, ?_⟩
    · simp [Chat, Chat.fetchChatData, chatService.getChatRoom, errorShown, hroom]
    · simp [List.map_map, Function.comp_def, Chat.bubble]
  · intro before hsorted
    rw [hm]
    exact List.Pairwise.map _ (fun _ _ h => h) hsorted

/-- C19: the submit handler of the Chat form calls `chatService.sendMessage` iff
the draft is non-empty after trimming and the loaded chat data has a chat room
id (a value `chatData?.chat_room?.id` that is present and truthy).  When it
calls, it does so once, with room id `chatData.chat_room.id` and the trimmed
draft as text; when it does not call, the whole state (message list, draft,
error and sending flag included) is left unchanged. -/
theorem C19_sendMessage_calls_iff_guard (s : ChatState)
    (reply : Except AxiosError SendMessageData) :
    ((Chat.sendMessage s reply).2 ≠ [] ↔
      jsTrim s.newMessage ≠ "" ∧ ∃ roomId, s.roomId = some roomId ∧ roomId.truthy = true) ∧
    (∀ roomId, s.roomId = some roomId → roomId.truthy = true → jsTrim s.newMessage ≠ "" →
      (Chat.sendMessage s reply).2
        = [(chatService.sendMessage roomId (jsTrim s.newMessage) reply).1] ∧
      (chatService.sendMessage roomId (jsTrim s.newMessage) reply).1
        = ⟨"POST", "/chat/" ++ roomId.toString, [("text", .str (jsTrim s.newMessage))]⟩) ∧
    ((Chat.sendMessage s reply).2 = [] → (Chat.sendMessage s reply).1 = s) := by
  have hcall : ∀ roomId, s.roomId = some roomId → roomId.truthy = true →
      jsTrim s.newMessage ≠ "" →
      (Chat.sendMessage s reply).2
        = [(chatService.sendMessage roomId (jsTrim s.newMessage) reply).1] := by
    intro roomId hroom hid htext
    cases reply <;> simp [Chat.sendMessage, hroom, hid, htext, chatService.sendMessage]
  have hskip : ¬ (jsTrim s.newMessage ≠ "" ∧
      ∃ roomId, s.roomId = some roomId ∧ roomId.truthy = true) →
      Chat.sendMessage s reply = (s, []) := by
    intro hnot
    unfold Chat.sendMessage
    cases hroom : s.roomId with
    | none => rfl
    | some roomId =>
      have hg : jsTrim s.newMessage = "" ∨ roomId.truthy = false := by
        by_contra hcon
        push_neg at hcon
        exact hnot ⟨hcon.1, roomId, hroom, by simpa using hcon.2⟩
      simp only [hg, if_true]
  refine ⟨⟨?_, ?_⟩, fun roomId hroom hid htext => ⟨hcall roomId hroom hid htext, rfl⟩, ?_⟩
  · intro hcalls
    by_contra hnot
    rw [hskip hnot] at hcalls
    exact hcalls rfl
  · rintro ⟨htext, roomId, hroom, hid⟩
    rw [hcall roomId hroom hid htext]
    exact List.cons_ne_nil _ _
  · intro hnone
    by_cases hg : jsTrim s.newMessage ≠ "" ∧
        ∃ roomId, s.roomId = some roomId ∧ roomId.truthy = true
    · obtain ⟨htext, roomId, hroom, hid⟩ := hg
      rw [hcall roomId hroom hid htext] at hnone
      exact absurd hnone (List.cons_ne_nil _ _)
    · rw [hskip hg]

/-! ## Form pages: the skill lists -/

theorem Profile.addSkill_new (s : ProfileState) (type : SkillType)
    (h : jsTrim (Profile.inputValue s type) ≠ "" ∧
      jsTrim (Profile.inputValue s type) ∉ s.formData.skills type) :
    (Profile.addSkill s type).formData.skills type
      = s.formData.skills type ++ [jsTrim (Profile.inputValue s type)] := by
  cases type <;>
    simp only [Profile.inputValue, ProfileFormData.skills] at h <;>
    simp [Profile.addSkill, Profile.inputValue, ProfileFormData.skills, h]

theorem Profile.addSkill_skip (s : ProfileState) (type : SkillType)
    (h : ¬ (jsTrim (Profile.inputValue s type) ≠ "" ∧
      jsTrim (Profile.inputValue s type) ∉ s.formData.skills type)) :
    Profile.addSkill s type = s := by
  cases type <;>
    simp only [Profile.inputValue, ProfileFormData.skills] at h <;>
    simp only [Profile.addSkill, ProfileFormData.skills, h, if_false]

theorem Profile.addSkill_frame (s : ProfileState) (type : SkillType) :
    (∀ other, other ≠ type →
      (Profile.addSkill s type).formData.skills other = s.formData.skills other) ∧
    (Profile.addSkill s type).formData.name = s.formData.name ∧
    (Profile.addSkill s type).formData.location = s.formData.location ∧
    (Profile.addSkill s type).formData.availability = s.formData.availability ∧
    (Profile.addSkill s type).formData.is_public = s.formData.is_public := by
  by_cases h : jsTrim (Profile.inputValue s type) ≠ "" ∧
      jsTrim (Profile.inputValue s type) ∉ s.formData.skills type
  · cases type <;>
      simp only [Profile.inputValue, ProfileFormData.skills] at h <;>
      refine ⟨fun other hne => ?_, ?_, ?_, ?_, ?_⟩ <;>
      first
      | (cases other <;>
          simp_all [Profile.addSkill, Profile.inputValue, ProfileFormData.skills])
      | simp [Profile.addSkill, Profile.inputValue, ProfileFormData.skills, h]
  · rw [Profile.addSkill_skip s type h]
    exact ⟨fun _ _ => rfl, rfl, rfl, rfl, rfl⟩

theorem Register.addSkill_new_register (s : RegisterState) (type : SkillType)
    (h : jsTrim (Register.inputValue s type) ≠ "" ∧
      jsTrim (Register.inputValue s type) ∉ s.formData.skills type) :
    (Register.addSkill s type).formData.skills type
      = s.formData.skills type ++ [jsTrim (Register.inputValue s type)] := by
  cases type <;>
    simp only [Register.inputValue, RegisterFormData.skills] at h <;>
    simp [Register.addSkill, Register.inputValue, RegisterFormData.skills, h]

theorem Register.addSkill_skip_register (s : RegisterState) (type : SkillType)
    (h : ¬ (jsTrim (Register.inputValue s type) ≠ "" ∧
      jsTrim (Register.inputValue s type) ∉ s.formData.skills type)) :
    Register.addSkill s type = s := by
  cases type <;>
    simp only [Register.inputValue, RegisterFormData.skills] at h <;>
    simp only [Register.addSkill, RegisterFormData.skills, h, if_false]

theorem Register.addSkill_frame_register (s : RegisterState) (type : SkillType) :
    (∀ other, other ≠ type →
      (Register.addSkill s type).formData.skills other = s.formData.skills other) ∧
    (Register.addSkill s type).formData.name = s.formData.name ∧
    (Register.addSkill s type).formData.email = s.formData.email ∧
    (Register.addSkill s type).formData.password = s.formData.password ∧
    (Register.addSkill s type).formData.confirmPassword = s.formData.confirmPassword := by
  by_cases h : jsTrim (Register.inputValue s type) ≠ "" ∧
      jsTrim (Register.inputValue s type) ∉ s.formData.skills type
  · cases type <;>
      simp only [Register.inputValue, RegisterFormData.skills] at h <;>
      refine ⟨fun other hne => ?_, ?_, ?_, ?_, ?_⟩ <;>
      first
      | (cases other <;>
          simp_all [Register.addSkill, Register.inputValue, RegisterFormData.skills])
      | simp [Register.addSkill, Register.inputValue, RegisterFormData.skills, h]
  · rw [Register.addSkill_skip_register s type h]
    exact ⟨fun _ _ => rfl, rfl, rfl, rfl, rfl⟩

theorem append_singleton_facts (skills result : List String) (name : String)
    (hnew : name ≠ "" ∧ name ∉ skills → result = skills ++ [name])
    (hskip : ¬ (name ≠ "" ∧ name ∉ skills) → result = skills) :
    (result = skills ++ [name] ↔ name ≠ "" ∧ name ∉ skills) ∧
    (∃ added, result = skills ++ added) ∧
    (skills.Nodup → result.Nodup) := by
  by_cases h : name ≠ "" ∧ name ∉ skills
  · have hr := hnew h
    refine ⟨⟨fun _ => h, fun _ => hr⟩, ⟨[name], hr⟩, fun hnd => ?_⟩
    rw [hr]
    exact List.Nodup.append hnd (List.nodup_singleton _) (by simpa using h.2)
  · have hr := hskip h
    refine ⟨⟨fun heq => ?_, fun hc => absurd hc h⟩, ⟨[], by simp [hr]⟩, fun hnd => hr ▸ hnd⟩
    rw [hr] at heq
    exact absurd heq (by simp)

theorem addSkill_agree (p : ProfileState) (r : RegisterState) (type : SkillType)
    (hskills : ∀ t, r.formData.skills t = p.formData.skills t)
    (hinput : ∀ t, Register.inputValue r t = Profile.inputValue p t) :
    ∀ t, (Register.addSkill r type).formData.skills t = (Profile.addSkill p type).formData.skills t ∧
      Register.inputValue (Register.addSkill r type) t
        = Profile.inputValue (Profile.addSkill p type) t := by
  have ho := hskills .skills_offered
  have hw := hskills .skills_wanted
  have hio := hinput .skills_offered
  have hiw := hinput .skills_wanted
  simp only [RegisterFormData.skills, ProfileFormData.skills, Register.inputValue,
    Profile.inputValue] at ho hw hio hiw
  intro t
  by_cases hc : jsTrim (Profile.inputValue p type) ≠ "" ∧
      jsTrim (Profile.inputValue p type) ∉ p.formData.skills type
  · have hc2 : jsTrim (Register.inputValue r type) ≠ "" ∧
        jsTrim (Register.inputValue r type) ∉ r.formData.skills type := by
      rw [hinput, hskills]; exact hc
    cases type <;> cases t <;>
      simp only [Register.inputValue, Profile.inputValue, RegisterFormData.skills,
        ProfileFormData.skills] at hc hc2 ⊢ <;>
      simp [Register.addSkill, Profile.addSkill, Register.inputValue, Profile.inputValue,
        RegisterFormData.skills, ProfileFormData.skills, hc, hc2] <;>
      simp [ho, hw, hio, hiw]
  · have hc2 : ¬ (jsTrim (Register.inputValue r type) ≠ "" ∧
        jsTrim (Register.inputValue r type) ∉ r.formData.skills type) := by
      rw [hinput, hskills]; exact hc
    rw [Register.addSkill_skip_register r type hc2, Profile.addSkill_skip p type hc]
    exact ⟨hskills t, hinput t⟩

/-- C20: `addSkill` keeps each skill list an ordered, duplicate-free list of
trimmed non-empty names.  For every form state, in the Profile and in the
Register component alike, `addSkill(type)` appends the trimmed input at the end
of `formData[type]` iff the trimmed input is non-empty and not already an
element of that list (exact comparison); otherwise the state is unchanged.  The
old list is always the beginning of the new one, a list without duplicates stays
without duplicates, and the other skill list and all other form fields are
unchanged.  On equal skill lists and inputs the two components compute the same
lists and inputs. -/
theorem C20_addSkill_appends_new_trimmed_name (p : ProfileState) (r : RegisterState)
    (type : SkillType) :
    (((Profile.addSkill p type).formData.skills type
        = p.formData.skills type ++ [jsTrim (Profile.inputValue p type)] ↔
      jsTrim (Profile.inputValue p type) ≠ "" ∧
        jsTrim (Profile.inputValue p type) ∉ p.formData.skills type) ∧
     (∃ added, (Profile.addSkill p type).formData.skills type
        = p.formData.skills type ++ added) ∧
     ((p.formData.skills type).Nodup → ((Profile.addSkill p type).formData.skills type).Nodup)) ∧
    (¬ (jsTrim (Profile.inputValue p type) ≠ "" ∧
        jsTrim (Profile.inputValue p type) ∉ p.formData.skills type) →
      Profile.addSkill p type = p) ∧
    ((∀ other, other ≠ type →
        (Profile.addSkill p type).formData.skills other = p.formData.skills other) ∧
      (Profile.addSkill p type).formData.name = p.formData.name ∧
      (Profile.addSkill p type).formData.location = p.formData.location ∧
      (Profile.addSkill p type).formData.availability = p.formData.availability ∧
      (Profile.addSkill p type).formData.is_public = p.formData.is_public) ∧
    (((Register.addSkill r type).formData.skills type
        = r.formData.skills type ++ [jsTrim (Register.inputValue r type)] ↔
      jsTrim (Register.inputValue r type) ≠ "" ∧
        jsTrim (Register.inputValue r type) ∉ r.formData.skills type) ∧
     (∃ added, (Register.addSkill r type).formData.skills type
        = r.formData.skills type ++ added) ∧
     ((r.formData.skills type).Nodup →
        ((Register.addSkill r type).formData.skills type).Nodup)) ∧
    (¬ (jsTrim (Register.inputValue r type) ≠ "" ∧
        jsTrim (Register.inputValue r type) ∉ r.formData.skills type) →
      Register.addSkill r type = r) ∧
    ((∀ other, other ≠ type →
        (Register.addSkill r type).formData.skills other = r.formData.skills other) ∧
      (Register.addSkill r type).formData.name = r.formData.name ∧
      (Register.addSkill r type).formData.email = r.formData.email ∧
      (Register.addSkill r type).formData.password = r.formData.password ∧
      (Register.addSkill r type).formData.confirmPassword = r.formData.confirmPassword) ∧
    ((∀ t, r.formData.skills t = p.formData.skills t) →
      (∀ t, Register.inputValue r t = Profile.inputValue p t) →
      ∀ t, (Register.addSkill r type).formData.skills t
          = (Profile.addSkill p type).formData.skills t ∧
        Register.inputValue (Register.addSkill r type) t
          = Profile.inputValue (Profile.addSkill p type) t) :=
  ⟨append_singleton_facts _ _ _ (Profile.addSkill_new p type)
      (fun h => by rw [Profile.addSkill_skip p type h]),
   Profile.addSkill_skip p type,
   Profile.addSkill_frame p type,
   append_singleton_facts _ _ _ (Register.addSkill_new_register r type)
      (fun h => by rw [Register.addSkill_skip_register r type h]),
   Register.addSkill_skip_register r type,
   Register.addSkill_frame_register r type,
   addSkill_agree p r type⟩

/-- The two `addSkill` handlers evaluated: a padded new name is appended
trimmed, a name already listed and a blank input change nothing. -/
theorem addSkill_samples :
    (Register.addSkill (sampleRegister "" "" "  Piano " "") .skills_offered).formData.skills_offered
      = ["Guitar", "Piano"] ∧
    Register.addSkill (sampleRegister "" "" " Guitar" "") .skills_offered
      = sampleRegister "" "" " Guitar" "" ∧
    Register.addSkill (sampleRegister "" "" "" "   ") .skills_wanted
      = sampleRegister "" "" "" "   " ∧
    (Register.addSkill (sampleRegister "" "" "guitar" "") .skills_offered).formData.skills_offered
      = ["Guitar", "guitar"] := by
  decide

/-! ## Admin dashboard: local state after a mutation -/

/-- C21, evaluated: when the ban PUT succeeds and the stats refresh that follows
is rejected, `handleBanUser` ends with a `Failed to update user` message although
the local users list already carries the new ban flag; likewise `handleDeleteRequest`
ends with `Failed to delete request` although the request is gone from the local
list.  Only when the mutation call itself is rejected is the local list the one
before the call. -/
theorem C21_failed_message_after_local_update :
    (AdminDashboard.handleBanUser sampleAdminState (.num 2) true (.ok ())
        (.error ⟨none, "Network Error"⟩)).1.message = "Failed to update user: Network Error" ∧
    (AdminDashboard.handleBanUser sampleAdminState (.num 2) true (.ok ())
        (.error ⟨none, "Network Error"⟩)).1.users
      = [sampleUser 1 "Root" "admin" false, sampleUser 2 "Bob" "member" true,
          sampleUser 3 "Cy" "member" true] ∧
    sampleAdminState.users
      = [sampleUser 1 "Root" "admin" false, sampleUser 2 "Bob" "member" false,
          sampleUser 3 "Cy" "member" true] ∧
    (AdminDashboard.handleDeleteRequest sampleAdminState true (.num 12) (.ok ())
        (.error ⟨none, "Network Error"⟩)).1.message
      = "Failed to delete request: Network Error" ∧
    (AdminDashboard.handleDeleteRequest sampleAdminState true (.num 12) (.ok ())
        (.error ⟨none, "Network Error"⟩)).1.requests
      = [sampleRequest 10 2 1 "pending", sampleRequest 11 1 3 "pending",
          sampleRequest 13 1 2 "rejected"] ∧
    (∀ (s : AdminState) userId isBanned error statsReply,
      (AdminDashboard.handleBanUser s userId isBanned (.error error) statsReply).1.users
        = s.users) ∧
    (∀ (s : AdminState) confirm requestId error statsReply,
      (AdminDashboard.handleDeleteRequest s confirm requestId (.error error) statsReply).1.requests
        = s.requests) := by
  refine ⟨by decide, by decide, by decide, by decide, by decide, ?_, ?_⟩
  · intro s userId isBanned error statsReply
    rfl
  · intro s confirm requestId error statsReply
    cases confirm <;> rfl

/-- C22: the local update after a successful ban call changes only the targeted
user's ban flag.  After a successful PUT the users list is `setBanFlag` of the
old one, and for every users list, `userId` and `isBanned` that list has the
same length and the same ids in the same order; position by position, a user
whose id differs from `userId` is unchanged and a user whose id equals `userId`
is the old record with `is_banned` set to `isBanned` and every other field kept;
and applying the update twice gives the same list as applying it once. -/
theorem C22_ban_update_changes_only_flag (s : AdminState) (users : List User) (userId : JsId)
    (isBanned : Bool) (statsReply : Except AxiosError AdminStats) :
    (AdminDashboard.handleBanUser s userId isBanned (.ok ()) statsReply).1.users
      = setBanFlag s.users userId isBanned ∧
    (setBanFlag users userId isBanned).length = users.length ∧
    (setBanFlag users userId isBanned).map (fun user => user.id)
      = users.map (fun user => user.id) ∧
    List.Forall₂
      (fun before after =>
        (before.id ≠ userId → after = before) ∧
        (before.id = userId → after = { before with is_banned := isBanned }))
      users (setBanFlag users userId isBanned) ∧
    setBanFlag (setBanFlag users userId isBanned) userId isBanned
      = setBanFlag users userId isBanned := by
  refine ⟨?_, ?_, ?_, ?_, ?_⟩
  · cases statsReply <;> rfl
  · simp [setBanFlag]
  · have := congrArg (List.map Prod.fst) (setBanFlag_keys users userId isBanned)
    simpa [List.map_map, Function.comp_def] using this
  · unfold setBanFlag
    rw [List.forall₂_map_right_iff, List.forall₂_same]
    intro user _
    by_cases h : user.id = userId <;> simp [h]
  · unfold setBanFlag
    rw [List.map_map]
    apply List.map_congr_left
    intro user _
    by_cases h : user.id = userId <;> simp [h]

/-! ## Services: what a failed call throws -/

/-- C23: every service operation reports an HTTP failure as a thrown `Error`
carrying a single message.  For every rejection of the HTTP call, each of the
fourteen operations of `requestService`, `chatService` and `userService` throws
(its result is never a value) the error `serviceError` builds with that
operation's fixed fallback string; its message is `response.data.error` when
that is present and non-empty and the fallback otherwise; and it depends on
nothing else of the rejection, so in particular on no status code: two
rejections with the same `response.data.error` give the same thrown error. -/
theorem C23_services_throw_single_message (error : AxiosError) (id : JsId)
    (status text file skill : String) (fields : List (String × Field)) (page limit : Nat) :
    ((requestService.getRequests (.error error)).2
        = .error (serviceError error "Failed to fetch requests") ∧
     (requestService.createRequest fields (.error error)).2
        = .error (serviceError error "Failed to create request") ∧
     (requestService.updateRequest id status (.error error)).2
        = .error (serviceError error "Failed to update request") ∧
     (requestService.deleteRequest id (.error error)).2
        = .error (serviceError error "Failed to delete request") ∧
     (requestService.getRequest id (.error error)).2
        = .error (serviceError error "Failed to fetch request")) ∧
    ((chatService.getChatRoom id (.error error)).2
        = .error (serviceError error "Failed to fetch chat room") ∧
     (chatService.getMessages id (.error error)).2
        = .error (serviceError error "Failed to fetch messages") ∧
     (chatService.sendMessage id text (.error error)).2
        = .error (serviceError error "Failed to send message")) ∧
    ((userService.getUsers page limit skill (.error error : Except AxiosError Unit)).2
        = .error (serviceError error "Failed to fetch users") ∧
     (userService.getUser id (.error error : Except AxiosError (UserData Unit))).2
        = .error (serviceError error "Failed to fetch user") ∧
     (userService.updateUser id fields (.error error : Except AxiosError Unit)).2
        = .error (serviceError error "Failed to update user") ∧
     (userService.uploadPhoto id file (.error error : Except AxiosError Unit)).2
        = .error (serviceError error "Failed to upload photo") ∧
     (userService.searchUsers skill (.error error : Except AxiosError Unit)).2
        = .error (serviceError error "Failed to search users") ∧
     (userService.changePassword id fields (.error error)).2
        = .error (serviceError error "Failed to change password")) ∧
    (∀ fallback,
      (∀ m, error.responseError = some m → m ≠ "" → (serviceError error fallback).message = m) ∧
      (error.responseError = none ∨ error.responseError = some "" →
        (serviceError error fallback).message = fallback)) ∧
    (∀ fallback (other : AxiosError), other.responseError = error.responseError →
      serviceError other fallback = serviceError error fallback) := by
  refine ⟨⟨rfl, rfl, rfl, rfl, rfl⟩, ⟨rfl, rfl, rfl⟩, ⟨rfl, rfl, rfl, rfl, rfl, rfl⟩, ?_, ?_⟩
  · intro fallback
    refine ⟨fun m hm hne => ?_, fun h => ?_⟩
    · simp [serviceError, orFallback, hm, hne]
    · rcases h with h | h <;> simp [serviceError, orFallback, h]
  · intro fallback other h
    simp [serviceError, h]

/-- The message of a thrown service error on three rejections: the server's
text, an empty server text, and no response at all. -/
theorem serviceError_samples :
    (requestService.updateRequest (.num 3) "accepted"
        (.error ⟨some "Request is not pending", "Request failed with status code 409"⟩)).2
      = .error ⟨"Request is not pending"⟩ ∧
    (requestService.updateRequest (.num 3) "accepted"
        (.error ⟨some "", "Request failed with status code 500"⟩)).2
      = .error ⟨"Failed to update request"⟩ ∧
    (requestService.updateRequest (.num 3) "accepted" (.error ⟨none, "Network Error"⟩)).2
      = .error ⟨"Failed to update request"⟩ := by
  decide

/-! ## Community page: filtering -/

theorem jsIncludes_empty (s : String) : jsIncludes s "" = true := by
  unfold jsIncludes jsIncludesChars
  cases s.data <;> simp [List.tails, List.isPrefixOf]

theorem UsersPage.filteredUsers_all (toLowerCase : String → String)
    (hempty : toLowerCase "" = "") (users : List DirectoryUser)
    (hnamed : ∀ user ∈ users, user.name.isSome = true ∨ user.location.isSome = true) :
    UsersPage.filteredUsers toLowerCase users "" "" = users := by
  unfold UsersPage.filteredUsers
  rw [List.filter_eq_self]
  intro user hu
  have hsearch : UsersPage.matchesSearch toLowerCase user "" = true := by
    unfold UsersPage.matchesSearch optionalIncludes
    rcases hnamed user hu with h | h
    · obtain ⟨name, hname⟩ := Option.isSome_iff_exists.1 h
      simp [hname, hempty, jsIncludes_empty]
    · obtain ⟨location, hlocation⟩ := Option.isSome_iff_exists.1 h
      simp [hlocation, hempty, jsIncludes_empty]
  simp [hsearch, UsersPage.matchesSkill]

/-- C24, evaluated: a fetched user that has neither a name nor a location is
dropped by the filter even with an empty search term and no skill filter,
whatever `toLowerCase` does, so the page announces one member in its header and
shows no card; when every fetched user has a name or a location, the filtered
list is the fetched list. -/
theorem C24_user_without_name_and_location_dropped :
    (∀ toLowerCase : String → String,
      UsersPage.filteredUsers toLowerCase [sampleMember 7 none none ["Guitar"]] "" "" = []) ∧
    UsersPage asciiLowerCase ⟨[sampleMember 7 none none ["Guitar"]], false, none, "", ""⟩
      = .page 1 ["Guitar"] [] ∧
    (∀ (toLowerCase : String → String) (users : List DirectoryUser), toLowerCase "" = "" →
      (∀ user ∈ users, user.name.isSome = true ∨ user.location.isSome = true) →
        UsersPage.filteredUsers toLowerCase users "" "" = users) := by
  refine ⟨fun toLowerCase => rfl, by decide, ?_⟩
  intro toLowerCase users hempty hnamed
  exact UsersPage.filteredUsers_all toLowerCase hempty users hnamed

theorem unitsLe_total (a b : List Nat) : unitsLe a b = true ∨ unitsLe b a = true := by
  induction a generalizing b with
  | nil => left; simp [unitsLe]
  | cons x rest ih =>
    cases b with
    | nil => right; simp [unitsLe]
    | cons y others =>
      simp only [unitsLe, Bool.or_eq_true, Bool.and_eq_true, decide_eq_true_eq]
      rcases Nat.lt_trichotomy x y with h | h | h
      · exact Or.inl (Or.inl h)
      · rcases ih others with h2 | h2
        · exact Or.inl (Or.inr ⟨h, h2⟩)
        · exact Or.inr (Or.inr ⟨h.symm, h2⟩)
      · exact Or.inr (Or.inl h)

theorem unitsLe_trans (a b c : List Nat) (hab : unitsLe a b = true) (hbc : unitsLe b c = true) :
    unitsLe a c = true := by
  induction a generalizing b c with
  | nil => simp [unitsLe]
  | cons x rest ih =>
    cases b with
    | nil => simp [unitsLe] at hab
    | cons y others =>
      cases c with
      | nil => simp [unitsLe] at hbc
      | cons z more =>
        simp only [unitsLe, Bool.or_eq_true, Bool.and_eq_true, decide_eq_true_eq] at hab hbc ⊢
        rcases hab with h1 | ⟨h1, h1r⟩ <;> rcases hbc with h2 | ⟨h2, h2r⟩
        · exact Or.inl (by omega)
        · exact Or.inl (by omega)
        · exact Or.inl (by omega)
        · exact Or.inr ⟨by omega, ih others more h1r h2r⟩

theorem mem_firstOccurrences (l : List String) (x : String) :
    x ∈ firstOccurrences l ↔ x ∈ l := by
  induction l with
  | nil => simp [firstOccurrences]
  | cons y rest ih =>
    simp only [firstOccurrences, List.mem_cons, List.mem_filter, decide_eq_true_eq, ih]
    by_cases h : x = y <;> simp [h]

theorem nodup_firstOccurrences (l : List String) : (firstOccurrences l).Nodup := by
  induction l with
  | nil => simp [firstOccurrences]
  | cons y rest ih =>
    simp only [firstOccurrences, List.nodup_cons, List.mem_filter, decide_eq_true_eq]
    exact ⟨fun h => h.2 rfl, ih.filter _⟩

theorem UsersPage.allSkills_perm (users : List DirectoryUser) :
    (UsersPage.allSkills users).Perm
      (firstOccurrences
        (users.map (fun user =>
          user.skills_offered.getD [] ++ user.skills_wanted.getD [])).flatten) :=
  List.perm_insertionSort _ _

theorem UsersPage.allSkills_sorted (users : List DirectoryUser) :
    (UsersPage.allSkills users).Pairwise jsStringLe := by
  haveI : IsTotal String jsStringLe := ⟨fun a b => unitsLe_total _ _⟩
  haveI : IsTrans String jsStringLe := ⟨fun a b c => unitsLe_trans _ _ _⟩
  exact List.sorted_insertionSort jsStringLe _

/-- C25, as stated, fails: with one user offering `Java` and another offering
`JavaScript`, choosing `Java` from the skill dropdown also shows the second
user, none of whose skills equals `Java` when letter case is ignored. -/
theorem C25_substring_match_counterexample :
    "Java" ∈ UsersPage.allSkills
      [sampleMember 1 (some "Ann") none ["Java"], sampleMember 2 (some "Bob") none ["JavaScript"]] ∧
    sampleMember 2 (some "Bob") none ["JavaScript"] ∈
      UsersPage.filteredUsers asciiLowerCase
        [sampleMember 1 (some "Ann") none ["Java"],
         sampleMember 2 (some "Bob") none ["JavaScript"]] "" "Java" ∧
    ((sampleMember 2 (some "Bob") none ["JavaScript"]).skills_offered.getD [] ++
        (sampleMember 2 (some "Bob") none ["JavaScript"]).skills_wanted.getD []).all
      (fun skill => asciiLowerCase skill != asciiLowerCase "Java") = true :=
  ⟨by decide, by decide, by decide⟩

/-- C25, amended: filtering the community page by a non-empty skill shows only
users who list a skill that contains the chosen one: every user in
`filteredUsers` has, among `skills_offered` or `skills_wanted`, a skill whose
lower-cased text contains the lower-cased `filterSkill` as a substring (equality
is not required); and `allSkills` is the duplicate-free list, ascending in the
default sort order, of exactly the skills occurring in some user's
`skills_offered` or `skills_wanted`. -/
theorem C25_skill_filter_contains (toLowerCase : String → String) (users : List DirectoryUser)
    (searchTerm filterSkill : String) :
    (filterSkill ≠ "" →
      ∀ user ∈ UsersPage.filteredUsers toLowerCase users searchTerm filterSkill,
        ∃ skill ∈ user.skills_offered.getD [] ++ user.skills_wanted.getD [],
          jsIncludes (toLowerCase skill) (toLowerCase filterSkill) = true) ∧
    (UsersPage.allSkills users).Nodup ∧
    (UsersPage.allSkills users).Pairwise jsStringLe ∧
    (∀ skill, skill ∈ UsersPage.allSkills users ↔
      ∃ user ∈ users,
        skill ∈ user.skills_offered.getD [] ∨ skill ∈ user.skills_wanted.getD []) := by
  refine ⟨?_, ?_, UsersPage.allSkills_sorted users, ?_⟩
  · intro hne user hmem
    have hpass := (List.mem_filter.1 hmem).2
    simp only [Bool.and_eq_true, UsersPage.matchesSkill, Bool.or_eq_true, decide_eq_true_eq,
      hne, false_or] at hpass
    rcases hpass.2 with h | h
    · cases hs : user.skills_offered with
      | none => simp [someSkillIncludes, hs] at h
      | some list =>
        simp only [someSkillIncludes, hs, List.any_eq_true] at h
        obtain ⟨skill, hin, hinc⟩ := h
        exact ⟨skill, by simp [hin], hinc⟩
    · cases hs : user.skills_wanted with
      | none => simp [someSkillIncludes, hs] at h
      | some list =>
        simp only [someSkillIncludes, hs, List.any_eq_true] at h
        obtain ⟨skill, hin, hinc⟩ := h
        exact ⟨skill, by simp [hin], hinc⟩
  · exact (UsersPage.allSkills_perm users).nodup_iff.2 (nodup_firstOccurrences _)
  · intro skill
    rw [(UsersPage.allSkills_perm users).mem_iff, mem_firstOccurrences]
    simp only [List.mem_flatten, List.mem_map]
    constructor
    · rintro ⟨l, ⟨user, hu, rfl⟩, hmem⟩
      exact ⟨user, hu, List.mem_append.1 hmem⟩
    · rintro ⟨user, hu, hmem⟩
      exact ⟨_, ⟨user, hu, rfl⟩, List.mem_append.2 hmem⟩

/-- C25 amended, at the two sample users filtered by `Java`: the second user is
shown because `javascript` contains `java`. -/
theorem C25_skill_filter_contains_witness :
    ∃ skill ∈ (sampleMember 2 (some "Bob") none ["JavaScript"]).skills_offered.getD [] ++
        (sampleMember 2 (some "Bob") none ["JavaScript"]).skills_wanted.getD [],
      jsIncludes (asciiLowerCase skill) (asciiLowerCase "Java") = true :=
  (C25_skill_filter_contains asciiLowerCase
    [sampleMember 1 (some "Ann") none ["Java"], sampleMember 2 (some "Bob") none ["JavaScript"]]
    "" "Java").1 (by decide) (sampleMember 2 (some "Bob") none ["JavaScript"]) (by decide)

/-! ## Chat view: after a failed send -/

theorem errorShown_failed (text : String) :
    errorShown (some ("Failed to send message: " ++ text))
      = some ("Failed to send message: " ++ text) := by
  have hne : "Failed to send message: " ++ text ≠ "" := by
    intro h
    have := congrArg String.data h
    simp at this
  simp [errorShown, hne]

/-- C26, evaluated: with room 7 loaded, one message shown and the draft `Hi!`,
a send whose POST is rejected leaves the state with its message list and draft
but the component renders the error card alone, without message list or input;
typing and submitting again does not bring the page back, since nothing but a
reload of the room clears the error.  In general a failed send from a loaded
state renders the error card. -/
theorem C26_failed_send_hides_conversation :
    Chat (sampleUser 1 "Ann" "member" false) (sampleChat "Hi!")
      = .page ⟨[⟨.num 1, true, "Hello", "2024-01-01T10:00:00Z"⟩], "Hi!", false, false⟩ ∧
    (Chat.sendMessage (sampleChat "Hi!")
        (.error ⟨some "Room closed", "Request failed"⟩)).1.messages
      = [sampleMessage 1 "Hello"] ∧
    Chat (sampleUser 1 "Ann" "member" false)
        (Chat.sendMessage (sampleChat "Hi!") (.error ⟨some "Room closed", "Request failed"⟩)).1
      = .errorCard "Failed to send message: Room closed" ∧
    Chat (sampleUser 1 "Ann" "member" false)
        (Chat.sendMessage
          (Chat.onChange
            (Chat.sendMessage (sampleChat "Hi!")
              (.error ⟨some "Room closed", "Request failed"⟩)).1 "Hi again")
          (.ok ⟨sampleMessage 2 "Hi again"⟩)).1
      = .errorCard "Failed to send message: Room closed" ∧
    (∀ (user : User) (s : ChatState) (roomId : JsId) (error : AxiosError),
      s.loading = false → s.roomId = some roomId → roomId.truthy = true →
      jsTrim s.newMessage ≠ "" →
        Chat user (Chat.sendMessage s (.error error)).1
          = .errorCard ("Failed to send message: "
              ++ (serviceError error "Failed to send message").message)) := by
  refine ⟨by decide, by decide, by decide, by decide, ?_⟩
  intro user s roomId error hl hroom hid htext
  have hstate : (Chat.sendMessage s (.error error)).1
      = { s with
          error := some ("Failed to send message: "
            ++ (serviceError error "Failed to send message").message),
          sending := false } := by
    simp [Chat.sendMessage, hroom, hid, htext, chatService.sendMessage]
  rw [hstate]
  simp only [Chat, hl, errorShown_failed]
  rfl

/-! ## Conversation list: whose skill is whose -/

/-- C28, evaluated: in the swap where Bob (requester) offers Guitar and wants
Spanish from Ann (recipient), the chat page attributes Guitar to Bob and Spanish
to Ann, but Ann's conversation list shows `You offer: Guitar` and `You want:
Spanish`, the same line Bob sees: the line is computed from the request alone
and does not depend on who is looking. -/
theorem C28_recipient_sees_requester_labels :
    ChatList.getOtherUser (sampleUser 1 "Ann" "member" false) sampleConversation
      = some (sampleUser 2 "Bob" "member" false) ∧
    Chat.exchangePartners ⟨some ⟨some (.num 7)⟩, some sampleSwap, some []⟩
      = [⟨some (sampleUser 2 "Bob" "member" false), some "Guitar"⟩,
         ⟨some (sampleUser 1 "Ann" "member" false), some "Spanish"⟩] ∧
    ChatList.swapDetails sampleConversation = ⟨"Guitar", "Spanish"⟩ ∧
    (∀ (chat : ChatListItem) (request : SwapRequest), chat.swap_request = some request →
      request.skill_offered ≠ "" → request.skill_wanted ≠ "" →
        ChatList.swapDetails chat = ⟨request.skill_offered, request.skill_wanted⟩) := by
  refine ⟨by decide, by decide, by decide, ?_⟩
  intro chat request hreq ho hw
  simp [ChatList.swapDetails, hreq, orFallback, ho, hw]

/-! ## Registration: what is submitted -/

/-- C30, evaluated: a valid registration form on which the user built the
skill lists `[Guitar]` and `[Spanish]` calls `register` with name, email and
password only; for every form state the argument of `register` is the object
with exactly the keys `name`, `email` and `password`, so the skill lists never
leave the form. -/
theorem C30_register_payload_omits_skills :
    (sampleRegister "secret1" "secret1" "" "").formData.skills_offered = ["Guitar"] ∧
    (sampleRegister "secret1" "secret1" "" "").formData.skills_wanted = ["Spanish"] ∧
    (Register.handleSubmit (sampleRegister "secret1" "secret1" "" "") (.ok ())).2
      = [.register ⟨"Ann", "ann@example.com", "secret1"⟩, .navigate "/"] ∧
    (RegisterPayload.fields ⟨"Ann", "ann@example.com", "secret1"⟩)
      = [("name", .str "Ann"), ("email", .str "ann@example.com"),
          ("password", .str "secret1")] ∧
    (∀ (s : RegisterState) (reply : Except JsError Unit) (payload : RegisterPayload),
      RegisterEffect.register payload ∈ (Register.handleSubmit s reply).2 →
        payload = ⟨s.formData.name, s.formData.email, s.formData.password⟩ ∧
        payload.fields.map Prod.fst = ["name", "email", "password"]) := by
  refine ⟨by decide, by decide, by decide, by decide, ?_⟩
  intro s reply payload hmem
  refine ⟨?_, rfl⟩
  unfold Register.handleSubmit at hmem
  split at hmem
  · simp at hmem
  · split at hmem
    · simp at hmem
    · cases reply <;> simpa using hmem

/-! ## Internal links -/

theorem routePatterns_eq_declared (auth : AuthContext) :
    routePatterns.map renderPattern = (AppContent auth).map (fun route => route.1) := by
  have h : routePatterns.map renderPattern
      = ["/", "/login", "/register", "/profile", "/requests", "/chats", "/chat/:requestId",
          "/admin", "/users"] := by decide
  rw [h]
  rfl

theorem LinkTarget.href_eq (requestId userId : JsId) (request : SwapRequest)
    (chat : ChatListItem) :
    (LinkTarget.chat requestId).href = "/chat/" ++ requestId.toString ∧
    (LinkTarget.viewProfile userId).href = "/profile/" ++ userId.toString ∧
    Requests.sentActions { request with status := "accepted" }
      = [.link (LinkTarget.chat request.id).href "Chat"] ∧
    ChatList.chatLink chat = (LinkTarget.chat chat.request_id).href := by
  have hjoin : ∀ a x : String, String.join ["/" ++ a, "/" ++ x] = "/" ++ a ++ "/" ++ x := by
    intro a x; apply String.ext; simp [String.join]
  have h1 : ∀ id : JsId, (LinkTarget.chat id).href = "/chat/" ++ id.toString := by
    intro id
    simp only [LinkTarget.href, LinkTarget.segments, List.isEmpty_cons, List.map, hjoin]
    apply String.ext; simp
  refine ⟨h1 requestId, ?_, ?_, ?_⟩
  · simp only [LinkTarget.href, LinkTarget.segments, List.isEmpty_cons, List.map, hjoin]
    apply String.ext; simp
  · simp [Requests.sentActions, h1]
  · rw [h1]; rfl

/-- C27, evaluated: the View Profile link of the community page, `/profile/5`
for user 5, matches none of the routes `AppContent` declares (only `/profile`
itself is a route), and so for every numeric user id; the other link targets,
the fixed paths and the chat links `/chat/<request id>` of a numeric request id,
each match a declared route. -/
theorem C27_view_profile_link_has_no_route :
    (LinkTarget.viewProfile (.num 5)).href = "/profile/5" ∧
    (LinkTarget.viewProfile (.num 5)).routed = false ∧
    (UsersPage asciiLowerCase
        ⟨[sampleMember 5 (some "Eve") none ["Chess"]], false, none, "", ""⟩)
      = .page 1 ["Chess"] [⟨sampleMember 5 (some "Eve") none ["Chess"], "/profile/5"⟩] ∧
    routePatterns.map renderPattern
      = ["/", "/login", "/register", "/profile", "/requests", "/chats", "/chat/:requestId",
          "/admin", "/users"] ∧
    (∀ n : Int, (LinkTarget.viewProfile (.num n)).routed = false) ∧
    (∀ n : Int, (LinkTarget.chat (.num n)).routed = true) ∧
    [LinkTarget.home, .login, .register, .profile, .requests, .chats, .admin, .users].all
      (fun target => target.routed) = true :=
  ⟨by decide, by decide, by decide, by decide, fun _ => rfl, fun _ => rfl, by decide⟩

/-! ## Notices: how a message is styled -/

theorem jsIncludesChars_cons (c : Char) (cs sub : List Char) :
    jsIncludesChars (c :: cs) sub = (sub.isPrefixOf (c :: cs) || jsIncludesChars cs sub) := by
  simp [jsIncludesChars, List.tails]

theorem jsIncludesChars_append_left (front rest sub : List Char)
    (h : jsIncludesChars rest sub = true) : jsIncludesChars (front ++ rest) sub = true := by
  induction front with
  | nil => simpa using h
  | cons c front ih =>
    rw [List.cons_append, jsIncludesChars_cons, ih, Bool.or_true]

theorem isPrefixOf_append_false (sub rest tail : List Char)
    (h1 : sub.isPrefixOf rest = false) (h2 : rest.isPrefixOf sub = false) :
    sub.isPrefixOf (rest ++ tail) = false := by
  rw [Bool.eq_false_iff]
  intro h
  rw [List.isPrefixOf_iff_prefix] at h
  rcases List.prefix_or_prefix_of_prefix h (List.prefix_append rest tail) with hp | hp
  · rw [← List.isPrefixOf_iff_prefix, h1] at hp
    exact absurd hp (by decide)
  · rw [← List.isPrefixOf_iff_prefix, h2] at hp
    exact absurd hp (by decide)

theorem jsIncludesChars_append_of_noOverlap (front tail sub : List Char)
    (h : noOverlap front sub = true) :
    jsIncludesChars (front ++ tail) sub = jsIncludesChars tail sub := by
  induction front with
  | nil => rfl
  | cons c front ih =>
    have hparts : (sub.isPrefixOf (c :: front) = false ∧ (c :: front).isPrefixOf sub = false) ∧
        noOverlap front sub = true := by
      simpa [noOverlap, List.tails, not_or] using h
    rw [List.cons_append, jsIncludesChars_cons, ih hparts.2]
    have := isPrefixOf_append_false sub (c :: front) tail hparts.1.1 hparts.1.2
    rw [List.cons_append] at this
    rw [this, Bool.false_or]

theorem alertFor_of_ne (message successClass errorClass : String) (h : message ≠ "") :
    alertFor message successClass errorClass
      = some ⟨if jsIncludes message "successfully" = true then successClass else errorClass,
          message⟩ := by
  simp [alertFor, h]

theorem append_ne_empty (front tail : String) (h : front ≠ "") : front ++ tail ≠ "" := by
  intro heq
  have hdata := congrArg String.data heq
  simp only [String.data_append] at hdata
  have hfront : front.data = [] := (List.append_eq_nil.1 hdata).1
  exact h (String.ext hfront)

theorem failurePrefixes_checked :
    ∀ front ∈ failurePrefixes,
      front ≠ "" ∧ noOverlap front.data "successfully".data = true := by
  decide

theorem jsIncludes_append_of_noOverlap (front tail : String)
    (h : noOverlap front.data "successfully".data = true) :
    jsIncludes (front ++ tail) "successfully" = jsIncludes tail "successfully" := by
  unfold jsIncludes
  rw [String.data_append]
  exact jsIncludesChars_append_of_noOverlap _ _ _ h

theorem jsIncludes_append_left (front tail : String)
    (h : jsIncludes tail "successfully" = true) :
    jsIncludes (front ++ tail) "successfully" = true := by
  unfold jsIncludes at h ⊢
  rw [String.data_append]
  exact jsIncludesChars_append_left _ _ _ h

/-- In the Requests, Profile and AdminDashboard views the style of a notice is
chosen by `message.includes('successfully')` alone: a fixed failure text
followed by `e` gets the success style when `e` contains `successfully` and
the error style otherwise, every success text gets the success style, and the
two validation notices of the password form get the error style. -/
theorem notice_style_follows_text (e status : String) (isBanned : Bool)
    (successClass errorClass : String) :
    (∀ front ∈ failurePrefixes,
      alertFor (front ++ e) successClass errorClass
        = some ⟨if jsIncludes e "successfully" = true then successClass else errorClass,
            front ++ e⟩) ∧
    (∀ notice ∈ successNotices status isBanned,
      alertFor notice successClass errorClass = some ⟨successClass, notice⟩) ∧
    (∀ notice ∈ ["New passwords do not match!",
        "New password must be at least 6 characters long!"],
      alertFor notice successClass errorClass = some ⟨errorClass, notice⟩) ∧
    (∀ (user : Option User) (requests : RequestsState) (admin : AdminState)
        (profile : ProfileState) (someone : User),
      (requests.loading = false →
        ∃ received sent, Requests user requests
          = .page (alertFor requests.message "alert alert-success" "alert alert-error")
              received sent) ∧
      (admin.loading = false →
        ∃ stats users rows, AdminDashboard admin
          = .page admin.showWelcome
              (alertFor admin.message "bg-green-100 border border-green-300 text-green-800"
                "bg-red-100 border border-red-300 text-red-800") stats users rows) ∧
      Profile.alert (some someone) profile
        = alertFor profile.message "alert alert-success" "alert alert-error") := by
  refine ⟨?_, ?_, ?_, ?_⟩
  · intro front hfront
    obtain ⟨hne, hno⟩ := failurePrefixes_checked front hfront
    rw [alertFor_of_ne _ _ _ (append_ne_empty front e hne),
      jsIncludes_append_of_noOverlap front e hno]
  · intro notice hnotice
    have hstyle : notice ≠ "" ∧ jsIncludes notice "successfully" = true := by
      simp only [successNotices, List.mem_cons, List.mem_singleton, List.not_mem_nil,
        or_false] at hnotice
      rcases hnotice with h | h | h | h | h | h
      · subst h
        refine ⟨?_, ?_⟩
        · rw [String.append_assoc]
          exact append_ne_empty _ _ (by decide)
        · exact jsIncludes_append_left _ _ (by decide)
      · subst h; exact ⟨by decide, by decide⟩
      · subst h; exact ⟨by decide, by decide⟩
      · subst h; exact ⟨by decide, by decide⟩
      · subst h; exact ⟨by decide, by decide⟩
      · subst h
        cases isBanned
        · exact ⟨by decide, by decide⟩
        · exact ⟨by decide, by decide⟩
    rw [alertFor_of_ne _ _ _ hstyle.1, hstyle.2, if_pos rfl]
  · intro notice hnotice
    have hstyle : notice ≠ "" ∧ jsIncludes notice "successfully" = false := by
      simp only [List.mem_cons, List.mem_singleton, List.not_mem_nil, or_false] at hnotice
      rcases hnotice with h | h <;> subst h <;> exact ⟨by decide, by decide⟩
    rw [alertFor_of_ne _ _ _ hstyle.1, hstyle.2]
    simp
  · intro user requests admin profile someone
    refine ⟨fun h => ?_, fun h => ?_, rfl⟩
    · unfold Requests
      rw [h]
      exact ⟨_, _, rfl⟩
    · unfold AdminDashboard
      rw [h]
      exact ⟨_, _, _, rfl⟩

/-- The notices the handlers set: each failure branch stores one of the fixed
failure texts followed by the error text, each success branch one of the
success notices. -/
theorem notices_set_by_handlers (someone : User) (requests : RequestsState)
    (profile : ProfileState) (admin : AdminState) (id : JsId) (status file : String)
    (isBanned : Bool) (error : AxiosError) (stats : AdminStats) (data : RequestsData) :
    ((Requests.fetchRequests requests (.error error)).1.message
        = "Failed to load requests: " ++ (serviceError error "Failed to fetch requests").message ∧
     (Requests.handleStatusUpdate requests id status (.error error) (.ok data)).1.message
        = "Failed to update request: "
            ++ (serviceError error "Failed to update request").message ∧
     (Requests.handleStatusUpdate requests id status (.ok ()) (.ok data)).1.message
        = "Request " ++ status ++ " successfully!" ∧
     (Requests.handleDeleteRequest requests true id (.error error) (.ok data)).1.message
        = "Failed to delete request: "
            ++ (serviceError error "Failed to delete request").message ∧
     (Requests.handleDeleteRequest requests true id (.ok ()) (.ok data)).1.message
        = "Request deleted successfully!") ∧
    ((Profile.handleSubmit someone profile (.error error)).1.message
        = "Failed to update profile: " ++ (serviceError error "Failed to update user").message ∧
     (Profile.handleSubmit someone profile (.ok (some ()))).1.message
        = "Profile updated successfully!" ∧
     (Profile.handleSubmit someone profile (.ok none)).1.message
        = "Failed to update profile: " ++ nullReadMessage "user" ∧
     (Profile.handlePhotoUpload someone { profile with selectedFile := some file }
          (.error error)).1.message
        = "Failed to upload photo: " ++ (serviceError error "Failed to upload photo").message ∧
     (Profile.handlePhotoUpload someone { profile with selectedFile := some file }
          (.ok (some ()))).1.message
        = "Photo uploaded successfully! The image should update shortly." ∧
     (Profile.handlePhotoUpload someone { profile with selectedFile := some file }
          (.ok none)).1.message
        = "Failed to upload photo: " ++ nullReadMessage "photo_url") ∧
    ((AdminDashboard.fetchAdminData admin (.error error) (.ok []) (.ok [])).1.message
        = "Failed to load admin data: " ++ adminErrorText error ∧
     (AdminDashboard.handleBanUser admin id isBanned (.error error) (.ok stats)).1.message
        = "Failed to update user: " ++ adminErrorText error ∧
     (AdminDashboard.handleBanUser admin id isBanned (.ok ()) (.ok stats)).1.message
        = "User " ++ (if isBanned then "banned" else "unbanned") ++ " successfully!" ∧
     (AdminDashboard.handleDeleteRequest admin true id (.error error) (.ok stats)).1.message
        = "Failed to delete request: " ++ adminErrorText error ∧
     (AdminDashboard.handleDeleteRequest admin true id (.ok ()) (.ok stats)).1.message
        = "Request deleted successfully!") :=
  ⟨⟨rfl, rfl, rfl, rfl, rfl⟩, ⟨rfl, rfl, rfl, rfl, rfl, rfl⟩, ⟨rfl, rfl, rfl, rfl, rfl⟩⟩

/-- C29, evaluated: when the update of a request is rejected with the server
text `Request was not successfully updated`, the Requests view shows the notice
`Failed to update request: ...` in the success style.  The same happens in the
Profile and AdminDashboard views: in all three the style is taken from the text
of the notice, so a failure notice gets the error style only when the error
text does not contain `successfully`, while every success notice gets the
success style. -/
theorem C29_failure_notice_in_success_style :
    (Requests.handleStatusUpdate sampleRequestsState (.num 10) "accepted"
        (.error ⟨some "Request was not successfully updated", "Request failed"⟩)
        (.ok ⟨sampleRequests⟩)).1.message
      = "Failed to update request: Request was not successfully updated" ∧
    (∃ received sent,
      Requests (some (sampleUser 1 "Ann" "member" false))
          (Requests.handleStatusUpdate sampleRequestsState (.num 10) "accepted"
            (.error ⟨some "Request was not successfully updated", "Request failed"⟩)
            (.ok ⟨sampleRequests⟩)).1
        = .page
            (some ⟨"alert alert-success",
              "Failed to update request: Request was not successfully updated"⟩)
            received sent) ∧
    Profile.alert (some (sampleUser 1 "Ann" "member" false))
        (Profile.handleSubmit (sampleUser 1 "Ann" "member" false) (sampleProfile ⟨"", "", ""⟩)
          (.error ⟨some "Profile was not successfully saved", "Request failed"⟩)).1
      = some ⟨"alert alert-success",
          "Failed to update profile: Profile was not successfully saved"⟩ ∧
    (∃ stats users rows,
      AdminDashboard
          (AdminDashboard.handleBanUser sampleAdminState (.num 2) true
            (.error ⟨some "User was not successfully banned", "Request failed"⟩)
            (.ok sampleStats)).1
        = .page false
            (some ⟨"bg-green-100 border border-green-300 text-green-800",
              "Failed to update user: User was not successfully banned"⟩)
            stats users rows) ∧
    (∀ (e successClass errorClass : String), ∀ front ∈ failurePrefixes,
      alertFor (front ++ e) successClass errorClass
        = some ⟨if jsIncludes e "successfully" = true then successClass else errorClass,
            front ++ e⟩) ∧
    (∀ (status : String) (isBanned : Bool) (successClass errorClass : String),
      ∀ notice ∈ successNotices status isBanned,
        alertFor notice successClass errorClass = some ⟨successClass, notice⟩) :=
  ⟨by decide, ⟨_, _, rfl⟩, by decide, ⟨_, _, _, rfl⟩,
    fun e successClass errorClass =>
      (notice_style_follows_text e "" false successClass errorClass).1,
    fun status isBanned successClass errorClass =>
      (notice_style_follows_text "" status isBanned successClass errorClass).2.1⟩

end SkillSwap
